import Mathlib

/-!
# CalculadoraCO2: road-distance estimator and emission converter

A shallow embedding of `js/routes-data.js`, `js/calculator.js` and the static
tables of `js/config.js`.

Modelling conventions

* A JavaScript number is a `JSNum K`: `NaN`, the two infinities, or a finite
  value of an ordered field `K`.  The operators of `JSNum` give the exact
  result on finite values and follow IEEE-754 on the special values.  The sign
  of a zero is not represented; no division of the modelled code has a zero
  divisor (each one is guarded or has a nonzero constant divisor).
* The converter (`calculator.js`) computes with the rounded operators of a
  `Rounding`: each operation is the exact one followed by the rounding of the
  platform.  `binary64` is the IEEE-754 double-precision rounding (to nearest,
  ties to even, overflow to an infinity) over `ℚ`, which is what the code runs
  on; `exactArith` rounds nothing.  A decimal literal of the tables denotes the
  machine number nearest to it.
* The haversine code of the estimator is kept in exact arithmetic: what is
  proved about it is structural, or is about the exact real library.
* `Math.sin`, `Math.cos`, `Math.asin`, `Math.sqrt` and `Math.PI` are
  implementation-approximated by the platform; they are a parameter
  (`MathLib K`) of the functions that use them.
* `obj[key]` on an object literal consults the object's own properties and
  then `Object.prototype` (`objectGet`).
* Strings are Lean strings; `trim` and `toLowerCase` are modelled by
  `trim` and `toLowerCase` below.
-/

set_option autoImplicit false

namespace CalculadoraCO2

/-! ## Numbers -/

/-- A JavaScript number: `NaN`, `-Infinity`, a finite value, or `+Infinity`. -/
inductive JSNum (K : Type) where
  | nan : JSNum K
  | ninf : JSNum K
  | fin (x : K) : JSNum K
  | pinf : JSNum K
deriving DecidableEq

namespace JSNum

variable {K : Type} [LinearOrderedField K]

/-- Unary minus. -/
def neg : JSNum K → JSNum K
  | nan => nan
  | ninf => pinf
  | fin x => fin (-x)
  | pinf => ninf

/-- The operator `+` on numbers. -/
def add : JSNum K → JSNum K → JSNum K
  | nan, _ => nan
  | _, nan => nan
  | pinf, ninf => nan
  | ninf, pinf => nan
  | pinf, _ => pinf
  | _, pinf => pinf
  | ninf, _ => ninf
  | _, ninf => ninf
  | fin x, fin y => fin (x + y)

/-- The operator `-` on numbers: `a - b` is `a + (-b)`. -/
def sub (a b : JSNum K) : JSNum K := add a (neg b)

/-- The infinity of the given sign. -/
def signedInf (positive : Bool) : JSNum K := if positive then pinf else ninf

/-- The operator `*` on numbers. -/
def mul : JSNum K → JSNum K → JSNum K
  | nan, _ => nan
  | _, nan => nan
  | pinf, pinf => pinf
  | ninf, ninf => pinf
  | pinf, ninf => ninf
  | ninf, pinf => ninf
  | pinf, fin y => if y = 0 then nan else signedInf (decide (0 < y))
  | ninf, fin y => if y = 0 then nan else signedInf (decide (y < 0))
  | fin x, pinf => if x = 0 then nan else signedInf (decide (0 < x))
  | fin x, ninf => if x = 0 then nan else signedInf (decide (x < 0))
  | fin x, fin y => fin (x * y)

/-- The operator `/` on numbers.  A zero divisor is read as `+0`. -/
def div : JSNum K → JSNum K → JSNum K
  | nan, _ => nan
  | _, nan => nan
  | pinf, pinf => nan
  | pinf, ninf => nan
  | ninf, pinf => nan
  | ninf, ninf => nan
  | pinf, fin y => signedInf (decide (0 ≤ y))
  | ninf, fin y => signedInf (decide (y < 0))
  | fin _, pinf => fin 0
  | fin _, ninf => fin 0
  | fin x, fin y =>
    if y = 0 then (if x = 0 then nan else signedInf (decide (0 < x))) else fin (x / y)

instance : Neg (JSNum K) := ⟨neg⟩
instance : Add (JSNum K) := ⟨add⟩
instance : Sub (JSNum K) := ⟨sub⟩
instance : Mul (JSNum K) := ⟨mul⟩
instance : Div (JSNum K) := ⟨div⟩

/-- The operator `<` on numbers; every comparison with `NaN` is false. -/
def lt : JSNum K → JSNum K → Bool
  | nan, _ => false
  | _, nan => false
  | pinf, _ => false
  | _, ninf => false
  | ninf, _ => true
  | _, pinf => true
  | fin x, fin y => decide (x < y)

/-- The operator `>` on numbers. -/
def gt (a b : JSNum K) : Bool := lt b a

/-- The operator `>=` on numbers; every comparison with `NaN` is false. -/
def ge : JSNum K → JSNum K → Bool
  | nan, _ => false
  | _, nan => false
  | pinf, _ => true
  | _, ninf => true
  | ninf, _ => false
  | _, pinf => false
  | fin x, fin y => decide (y ≤ x)

/-- The function `Math.max` of two arguments. -/
def max : JSNum K → JSNum K → JSNum K
  | nan, _ => nan
  | _, nan => nan
  | pinf, _ => pinf
  | _, pinf => pinf
  | ninf, b => b
  | a, ninf => a
  | fin x, fin y => fin (if x < y then y else x)

/-- The function `isNaN` on numbers. -/
def isNaN : JSNum K → Bool
  | nan => true
  | _ => false

/-- The function `Math.round`: the nearest integer, a tie going to the larger one. -/
def mathRound [FloorRing K] : JSNum K → JSNum K
  | fin x => fin ((⌊x + 1 / 2⌋ : ℤ) : K)
  | v => v

/-- The constant `Number.EPSILON`, two to the power -52. -/
def EPSILON : JSNum K := fin (1 / 2 ^ 52)

end JSNum

open JSNum

/-- The rounding of the arithmetic of the platform: `fl x` is the machine number
that stands for the exact finite value `x` (an infinity on overflow). -/
structure Rounding (K : Type) where
  /-- The machine number, or infinity, that the exact finite value rounds to. -/
  fl : K → JSNum K

namespace Rounding

variable {K : Type} [LinearOrderedField K]

/-- Rounding of an exact result: finite values are rounded, `NaN` and the
infinities are kept. -/
def rnd (R : Rounding K) : JSNum K → JSNum K
  | JSNum.fin x => R.fl x
  | v => v

/-- The operator `+` of the platform: the exact sum, rounded. -/
def add (R : Rounding K) (a b : JSNum K) : JSNum K := R.rnd (a + b)

/-- The operator `-` of the platform: the exact difference, rounded. -/
def sub (R : Rounding K) (a b : JSNum K) : JSNum K := R.rnd (a - b)

/-- The operator `*` of the platform: the exact product, rounded. -/
def mul (R : Rounding K) (a b : JSNum K) : JSNum K := R.rnd (a * b)

/-- The operator `/` of the platform: the exact quotient, rounded. -/
def div (R : Rounding K) (a b : JSNum K) : JSNum K := R.rnd (a / b)

end Rounding

/-- The arithmetic that rounds nothing. -/
def exactArith {K : Type} : Rounding K := ⟨JSNum.fin⟩

/-- The integer nearest to `q`, a tie going to the even one. -/
def roundHalfEven (q : ℚ) : ℤ :=
  let f := ⌊q⌋
  if q - f < 1 / 2 then f
  else if 1 / 2 < q - f then f + 1
  else if f % 2 = 0 then f else f + 1

/-- The spacing of the binary64 numbers in the binade of `x`: a significand of
53 bits, and exponents from -1022 (below it the spacing stays at two to the
power -1074). -/
def binary64Ulp (x : ℚ) : ℚ :=
  2 ^ (Max.max (Int.log 2 |x|) (-1022) - 52)

/-- The multiple of the spacing nearest to `x`, a tie going to the even one. -/
def binary64Nearest (x : ℚ) : ℚ :=
  roundHalfEven (x / binary64Ulp x) * binary64Ulp x

/-- The IEEE-754 binary64 rounding, to nearest with ties to even, and to an
infinity when the rounded value reaches two to the power 1024. -/
def binary64 : Rounding ℚ where
  fl := fun x =>
    if x = 0 then fin 0
    else if 2 ^ 1024 ≤ |binary64Nearest x| then (if 0 < x then pinf else ninf)
    else fin (binary64Nearest x)

/-- The platform functions and constant of `Math` used by the haversine code. -/
structure MathLib (K : Type) where
  /-- The constant `Math.PI`. -/
  PI : JSNum K
  /-- The function `Math.sin`. -/
  sin : JSNum K → JSNum K
  /-- The function `Math.cos`. -/
  cos : JSNum K → JSNum K
  /-- The function `Math.asin`. -/
  asin : JSNum K → JSNum K
  /-- The function `Math.sqrt`. -/
  sqrt : JSNum K → JSNum K

/-- The `Math` functions obtained from functions on finite values, with the
domain conventions of ECMAScript: `NaN` outside the domain, `sin` and `cos` of
an infinity are `NaN`, `sqrt` of `+Infinity` is `+Infinity`. -/
def MathLib.lift {K : Type} [LinearOrderedField K] (pi : K) (sin cos asin sqrt : K → K) :
    MathLib K where
  PI := fin pi
  sin := fun v => match v with
    | fin x => fin (sin x)
    | _ => nan
  cos := fun v => match v with
    | fin x => fin (cos x)
    | _ => nan
  asin := fun v => match v with
    | fin x => if -1 ≤ x ∧ x ≤ 1 then fin (asin x) else nan
    | _ => nan
  sqrt := fun v => match v with
    | fin x => if 0 ≤ x then fin (sqrt x) else nan
    | pinf => pinf
    | _ => nan

/-! ## Strings -/

/-- The code points removed by `String.prototype.trim`: the ECMAScript
`WhiteSpace` and `LineTerminator` characters. -/
def isTrimmed (c : Char) : Bool :=
  c.toNat ∈ [0x9, 0xA, 0xB, 0xC, 0xD, 0x20, 0xA0, 0x1680, 0x2028, 0x2029, 0x202F, 0x205F,
    0x3000, 0xFEFF] || (0x2000 ≤ c.toNat && c.toNat ≤ 0x200A)

/-- The method `String.prototype.trim`. -/
def trim (s : String) : String :=
  ⟨((s.data.dropWhile isTrimmed).reverse.dropWhile isTrimmed).reverse⟩

/-- Lower-casing of one character, for the Basic Latin and Latin-1 Supplement
blocks (`A`-`Z`, and `À`-`Þ` without the multiplication sign); every other
character is left as it is. -/
def toLowerChar (c : Char) : Char :=
  let n := c.toNat
  if (0x41 ≤ n ∧ n ≤ 0x5A) ∨ (0xC0 ≤ n ∧ n ≤ 0xDE ∧ n ≠ 0xD7) then Char.ofNat (n + 0x20) else c

/-- The method `String.prototype.toLowerCase`, on the blocks covered by `toLowerChar`
(they contain every character of the route and coordinate tables). -/
def toLowerCase (s : String) : String := ⟨s.data.map toLowerChar⟩

/-! ## Property lookup -/

/-- The result of `obj[key]`: an own property, a member inherited from
`Object.prototype`, or `undefined`. -/
inductive Lookup (α : Type) where
  | own (v : α) : Lookup α
  | inherited : Lookup α
  | undefined : Lookup α
deriving DecidableEq

/-- The property names of `Object.prototype`. -/
def objectPrototypeKeys : List String :=
  ["constructor", "__defineGetter__", "__defineSetter__", "hasOwnProperty",
   "__lookupGetter__", "__lookupSetter__", "isPrototypeOf", "propertyIsEnumerable",
   "toString", "valueOf", "__proto__", "toLocaleString"]

/-- The expression `obj[key]` for an object literal `obj` given by its own
properties in declaration order. -/
def objectGet {α : Type} (obj : List (String × α)) (key : String) : Lookup α :=
  match obj.lookup key with
  | some v => .own v
  | none => if key ∈ objectPrototypeKeys then .inherited else .undefined

/-! ## routes-data.js -/

/-- An entry of the route table. -/
structure Route where
  origin : String
  destination : String
  distanceInKm : ℕ
deriving DecidableEq

/-- The table `routes`. -/
def routes : List Route := [
  ⟨"São Paulo, SP", "Rio de Janeiro, RJ", 430⟩,
  ⟨"São Paulo, SP", "Brasília, DF", 1016⟩,
  ⟨"Rio de Janeiro, RJ", "Brasília, DF", 1148⟩,
  ⟨"São Paulo, SP", "Campinas, SP", 95⟩,
  ⟨"Rio de Janeiro, RJ", "Niterói, RJ", 13⟩,
  ⟨"Belo Horizonte, MG", "Ouro Preto, MG", 100⟩,
  ⟨"Salvador, BA", "Feira de Santana, BA", 108⟩,
  ⟨"Fortaleza, CE", "Sobral, CE", 230⟩,
  ⟨"Recife, PE", "Olinda, PE", 10⟩,
  ⟨"Natal, RN", "Mossoró, RN", 280⟩,
  ⟨"João Pessoa, PB", "Campina Grande, PB", 120⟩,
  ⟨"Maceió, AL", "Aracaju, SE", 270⟩,
  ⟨"Manaus, AM", "Belém, PA", 1120⟩,
  ⟨"Belém, PA", "Macapá, AP", 520⟩,
  ⟨"Curitiba, PR", "Florianópolis, SC", 300⟩,
  ⟨"Porto Alegre, RS", "Florianópolis, SC", 470⟩,
  ⟨"Vitória, ES", "Belo Horizonte, MG", 520⟩,
  ⟨"Goiânia, GO", "Brasília, DF", 209⟩,
  ⟨"Cuiabá, MT", "Campo Grande, MS", 880⟩,
  ⟨"Campinas, SP", "Santos, SP", 143⟩,
  ⟨"Santos, SP", "São Paulo, SP", 72⟩,
  ⟨"Ribeirão Preto, SP", "São Paulo, SP", 313⟩,
  ⟨"Uberlândia, MG", "Uberaba, MG", 130⟩,
  ⟨"Rio de Janeiro, RJ", "Belo Horizonte, MG", 434⟩,
  ⟨"Salvador, BA", "Recife, PE", 800⟩,
  ⟨"Recife, PE", "João Pessoa, PB", 120⟩,
  ⟨"Maceió, AL", "Recife, PE", 250⟩,
  ⟨"Aracaju, SE", "Salvador, BA", 330⟩,
  ⟨"Palmas, TO", "Brasília, DF", 733⟩,
  ⟨"Teresina, PI", "Fortaleza, CE", 530⟩,
  ⟨"São Luís, MA", "Teresina, PI", 430⟩,
  ⟨"Chapecó, SC", "Florianópolis, SC", 640⟩,
  ⟨"Porto Velho, RO", "Manaus, AM", 1120⟩,
  ⟨"Boa Vista, RR", "Macapá, AP", 920⟩,
  ⟨"Belém, PA", "Recife, PE", 1200⟩]

/-- The test of the loop body of `findDistance`: route `r` joins the
canonical names `o` and `d`, in either direction. -/
def routeMatches (o d : String) (r : Route) : Bool :=
  let ro := toLowerCase (trim r.origin)
  let rd := toLowerCase (trim r.destination)
  (ro == o && rd == d) || (ro == d && rd == o)

/-- The `for` loop of `findDistance` over the routes not yet visited. -/
def findDistanceLoop (o d : String) : List Route → Option ℕ
  | [] => none
  | r :: rest => if routeMatches o d r then some r.distanceInKm else findDistanceLoop o d rest

/-- The function `findDistance`; `none` is `null`.  The empty string is the one
falsy string, and `r.origin || ''` is `r.origin` for a string. -/
def findDistance (origin destination : String) : Option ℕ :=
  if origin = "" ∨ destination = "" then none
  else
    let o := toLowerCase (trim origin)
    let d := toLowerCase (trim destination)
    findDistanceLoop o d routes

/-- A coordinate of the table `cityCoords`, in degrees. -/
structure Coord (K : Type) where
  lat : K
  lon : K
deriving DecidableEq

section Tables

variable {K : Type} [LinearOrderedField K]

/-- The table `cityCoords`, keyed by canonical names. -/
def cityCoords : List (String × Coord K) := [
  ("são paulo, sp", ⟨-23.55052, -46.633308⟩),
  ("sao paulo, sp", ⟨-23.55052, -46.633308⟩),
  ("rio de janeiro, rj", ⟨-22.906847, -43.172896⟩),
  ("brasilia, df", ⟨-15.793889, -47.882778⟩),
  ("salvador, ba", ⟨-12.977749, -38.50163⟩),
  ("curitiba, pr", ⟨-25.428954, -49.267137⟩),
  ("belo horizonte, mg", ⟨-19.916681, -43.934493⟩),
  ("porto alegre, rs", ⟨-30.027708, -51.228734⟩),
  ("recife, pe", ⟨-8.047562, -34.877⟩),
  ("fortaleza, ce", ⟨-3.71722, -38.5434⟩),
  ("manaus, am", ⟨-3.119027, -60.021731⟩),
  ("belem, pa", ⟨-1.455833, -48.503887⟩),
  ("goiânia, go", ⟨-16.686891, -49.2648⟩),
  ("campo grande, ms", ⟨-20.468684, -54.620121⟩),
  ("cuiabá, mt", ⟨-15.601416, -56.097892⟩),
  ("joão pessoa, pb", ⟨-7.119495, -34.845011⟩),
  ("teresina, pi", ⟨-5.091944, -42.803472⟩),
  ("maceió, al", ⟨-9.665992, -35.735⟩),
  ("aracaju, se", ⟨-10.947246, -37.073082⟩),
  ("palmas, to", ⟨-10.162038, -48.331375⟩),
  ("campinas, sp", ⟨-22.90556, -47.06083⟩),
  ("ribeirão preto, sp", ⟨-21.1775, -47.8103⟩),
  ("uberlândia, mg", ⟨-18.9126, -48.2754⟩),
  ("porto velho, ro", ⟨-8.76077, -63.8999⟩),
  ("boa vista, rr", ⟨2.8196, -60.6738⟩),
  ("macapá, ap", ⟨0.0354, -51.0705⟩),
  ("niterói, rj", ⟨-22.8832, -43.1037⟩),
  ("ouro preto, mg", ⟨-20.3856, -43.5033⟩),
  ("feira de santana, ba", ⟨-12.2669, -38.9667⟩),
  ("sobral, ce", ⟨-3.6869, -40.3486⟩),
  ("olinda, pe", ⟨-8.0089, -34.8550⟩),
  ("mossoró, rn", ⟨-5.187, -37.344⟩),
  ("campina grande, pb", ⟨-7.2306, -35.8819⟩),
  ("são luís, ma", ⟨-2.5307, -44.3068⟩)]

/-- A truthy value of `cityCoords[key]`: an entry of the table, or a member
inherited from `Object.prototype` (a function or an object without `lat` and
`lon`). -/
inductive CoordRef (K : Type) where
  | entry (c : Coord K) : CoordRef K
  | inherited : CoordRef K
deriving DecidableEq

/-- The value of `a.lat` in a numeric context; `undefined` converts to `NaN`. -/
def CoordRef.lat : CoordRef K → JSNum K
  | .entry c => fin c.lat
  | .inherited => nan

/-- The value of `a.lon` in a numeric context; `undefined` converts to `NaN`. -/
def CoordRef.lon : CoordRef K → JSNum K
  | .entry c => fin c.lon
  | .inherited => nan

/-- The function `getCoordsFromMap`; `none` is `null`. -/
def getCoordsFromMap (name : String) : Option (CoordRef K) :=
  if name = "" then none
  else
    let key := toLowerCase (trim name)
    match objectGet cityCoords key with
    | .own c => some (.entry c)
    | .inherited => some .inherited
    | .undefined => none

/-- The inner function `toRad`. -/
def toRad (M : MathLib K) (deg : JSNum K) : JSNum K := deg * M.PI / fin 180

/-- The inner function `hav`: the haversine distance, in kilometres. -/
def hav (M : MathLib K) (a b : CoordRef K) : JSNum K :=
  let R : JSNum K := fin 6371
  let dLat := toRad M (b.lat - a.lat)
  let dLon := toRad M (b.lon - a.lon)
  let lat1 := toRad M a.lat
  let lat2 := toRad M b.lat
  let sinDlat := M.sin (dLat / fin 2)
  let sinDlon := M.sin (dLon / fin 2)
  let h := sinDlat * sinDlat + M.cos lat1 * M.cos lat2 * sinDlon * sinDlon
  fin 2 * R * M.asin (M.sqrt h)

/-- The tag `method` of an estimation result. -/
inductive Method where
  | db : Method
  | estimate : Method
  | unknown : Method
deriving DecidableEq

/-- The object returned by `estimateRoadDistance`; a `distance` of `none` is `null`. -/
structure Estimation (K : Type) where
  distance : Option (JSNum K)
  method : Method
deriving DecidableEq

/-- The road-detour multiplier chosen by `estimateRoadDistance` from the
straight-line distance. -/
def detourFactor (straight : JSNum K) : JSNum K :=
  if lt straight (fin 20) then fin 1.10
  else if lt straight (fin 50) then fin 1.12
  else if lt straight (fin 200) then fin 1.18
  else if lt straight (fin 800) then fin 1.12
  else fin 1.08

/-- The function `estimateRoadDistance`. -/
def estimateRoadDistance [FloorRing K] (M : MathLib K) (origin destination : String) :
    Estimation K :=
  match findDistance origin destination with
  | some d => ⟨some (fin (d : K)), .db⟩
  | none =>
    match (getCoordsFromMap origin : Option (CoordRef K)), getCoordsFromMap destination with
    | some a, some b =>
      let straight := hav M a b
      let factor := detourFactor straight
      let northThreshold : JSNum K := fin (-5)
      let factor :=
        if gt a.lat northThreshold || gt b.lat northThreshold then JSNum.max factor (fin 1.25)
        else factor
      let estimated := mathRound (straight * factor)
      ⟨some estimated, .estimate⟩
    | _, _ => ⟨none, .unknown⟩

end Tables

/-! ## config.js and calculator.js -/

/-- The values the calculator may be handed where it expects a number:
`undefined`, `null`, or a number. -/
inductive Value (K : Type) where
  | undefined : Value K
  | null : Value K
  | number (x : JSNum K) : Value K
deriving DecidableEq

/-- The static table `CONFIG.CARBON_CREDIT`; a missing field is `undefined`. -/
structure CarbonCredit (K : Type) where
  KG_PER_CREDIT : Value K
  PRICE_MIN_BRL : Value K
  PRICE_MAX_BRL : Value K

/-- The part of the global `CONFIG` read by the calculator: the own properties
of `EMISSION_FACTORS` in declaration order, and `CARBON_CREDIT` when present. -/
structure Config (K : Type) where
  EMISSION_FACTORS : List (String × K)
  CARBON_CREDIT : Option (CarbonCredit K)

/-- An entry of the array returned by `calculateAllModes`; `none` is `null`. -/
structure ModeResult (K : Type) where
  mode : String
  emission : Option (JSNum K)
  percentageVsCar : Option (JSNum K)
deriving DecidableEq

/-- The object returned by `calculateSavings`; `none` is `null`. -/
structure Savings (K : Type) where
  savedKg : JSNum K
  percentage : Option (JSNum K)
deriving DecidableEq

/-- The object returned by `estimateCreditPrice`. -/
structure PriceEstimate (K : Type) where
  min : JSNum K
  max : JSNum K
  average : JSNum K
deriving DecidableEq

section Calculator

variable {K : Type} [LinearOrderedField K]

/-- The shipped `CONFIG` of `config.js`. -/
def CONFIG : Config K where
  EMISSION_FACTORS := [("bicycle", 0), ("car", 0.12), ("bus", 0.089), ("truck", 0.96)]
  CARBON_CREDIT := some ⟨.number (fin 1000), .number (fin 50), .number (fin 160)⟩

/-- The conversion `Number(v)`. -/
def toNumber : Value K → JSNum K
  | .undefined => nan
  | .null => fin 0
  | .number x => x

/-- The conversion `Number(factor)` of the result of a lookup in
`EMISSION_FACTORS`: an own property is the machine number of its decimal
literal, the members of `Object.prototype` and `undefined` convert to `NaN`. -/
def factorToNumber (R : Rounding K) : Lookup K → JSNum K
  | .own f => R.fl f
  | .inherited => nan
  | .undefined => nan

/-- The function `safeNumber`. -/
def safeNumber (v : Value K) : JSNum K :=
  let n := toNumber v
  if isNaN n then fin 0 else n

variable [FloorRing K]

/-- The function `round(value, decimals)`; every call of the source passes
`decimals` (2 or 4), so the default of the parameter is never taken.
`Math.pow(10, decimals)` and `Number.EPSILON` are machine numbers, and
`Math.round` is exact. -/
def round (R : Rounding K) (value : JSNum K) (decimals : ℕ) : JSNum K :=
  let pow : JSNum K := fin (10 ^ decimals)
  R.div (mathRound (R.mul (R.add value EPSILON) pow)) pow

/-- The function `calculateEmission`; `none` is `null`. -/
def calculateEmission (R : Rounding K) (cfg : Config K) (distanceKm : Value K)
    (transportMode : String) : Option (JSNum K) :=
  match objectGet cfg.EMISSION_FACTORS transportMode with
  | .undefined => none
  | factor =>
    let d := safeNumber distanceKm
    let emission := R.mul d (factorToNumber R factor)
    some (round R emission 2)

/-- The comparator handed to `results.sort` by `calculateAllModes`. -/
def compareEmission (R : Rounding K) (a b : ModeResult K) : JSNum K :=
  let va := match a.emission with
    | none => pinf
    | some e => e
  let vb := match b.emission with
    | none => pinf
    | some e => e
  R.sub va vb

/-- The method `Array.prototype.sort` with a comparator: a stable sort in which
`a` stays before `b` unless the comparator returns a value greater than zero
(a `NaN` counts as zero). -/
def sortWith {α : Type} (cmp : α → α → JSNum K) (l : List α) : List α :=
  l.insertionSort (fun a b => gt (cmp a b) (fin 0) = false)

/-- The function `calculateAllModes`. -/
def calculateAllModes (R : Rounding K) (cfg : Config K) (distanceKm : Value K) :
    List (ModeResult K) :=
  let modes := cfg.EMISSION_FACTORS.map Prod.fst
  let state := modes.foldl
    (fun (acc : List (String × Option (JSNum K)) × Option (JSNum K)) mode =>
      let emission := calculateEmission R cfg distanceKm mode
      (acc.1 ++ [(mode, emission)], if mode = "car" then emission else acc.2))
    ([], none)
  let carEmission := state.2
  let results := state.1.map (fun r =>
    let pct : Option (JSNum K) :=
      match carEmission, r.2 with
      | some c, some e =>
        if c ≠ fin 0 then some (round R (R.mul (R.div e c) (fin 100)) 2)
        else if e = fin 0 then some (fin 100) else none
      | _, _ => none
    (⟨r.1, r.2, pct⟩ : ModeResult K))
  sortWith (compareEmission R) results

/-- The function `calculateSavings`. -/
def calculateSavings (R : Rounding K) (emission baselineEmission : Value K) : Savings K :=
  let e := safeNumber emission
  let b := safeNumber baselineEmission
  let saved := R.sub b e
  let pct := if b ≠ fin 0 then some (round R (R.mul (R.div saved b) (fin 100)) 2) else none
  ⟨round R saved 2, pct⟩

/-- The function `calculateCarbonCredits`; `none` is `null`. -/
def calculateCarbonCredits (R : Rounding K) (cfg : Config K) (emissionKg : Value K) :
    Option (JSNum K) :=
  match cfg.CARBON_CREDIT with
  | none => none
  | some cc =>
    let kgPer := safeNumber cc.KG_PER_CREDIT
    if kgPer = fin 0 then none
    else
      let e := safeNumber emissionKg
      let credits := R.div e kgPer
      some (round R credits 4)

/-- The function `estimateCreditPrice`; `none` is `null`. -/
def estimateCreditPrice (R : Rounding K) (cfg : Config K) (credits : Value K) :
    Option (PriceEstimate K) :=
  match cfg.CARBON_CREDIT with
  | none => none
  | some cc =>
    let c := safeNumber credits
    let minP := safeNumber cc.PRICE_MIN_BRL
    let maxP := safeNumber cc.PRICE_MAX_BRL
    let min := R.mul c minP
    let max := R.mul c maxP
    let avg := R.div (R.add min max) (fin 2)
    some ⟨round R min 2, round R max 2, round R avg 2⟩

end Calculator

/-! ## routes-data.js: the list of cities -/

/-- The method `Set.prototype.add`, on a set kept as the list of its members in
insertion order. -/
def setAdd (set : List String) (x : String) : List String :=
  if x ∈ set then set else set ++ [x]

/-- The function `getAllCities`.  The comparison `a.localeCompare(b, 'pt-BR')` is
provided by the platform and is a parameter; the empty string is the one falsy
string. -/
def getAllCities {K : Type} [LinearOrderedField K]
    (localeCompare : String → String → JSNum K) : List String :=
  let set := routes.foldl
    (fun set r =>
      let set := if r.origin ≠ "" then setAdd set r.origin else set
      if r.destination ≠ "" then setAdd set r.destination else set)
    []
  let arr := set
  sortWith (fun a b => localeCompare a b) arr

/-- A number or `null` returned by one function, handed to another as an argument. -/
def resultValue {K : Type} : Option (JSNum K) → Value K
  | none => Value.null
  | some x => Value.number x

/-! ## Reference definitions and sample data -/

/-- The canonical form of a location name: trimmed, then lower-cased. -/
def canon (name : String) : String := toLowerCase (trim name)

/-- The registry contract for an exact lookup, as the specification words it:
the distance of the first route, in declaration order, whose pair of canonical
names is the pair of canonical arguments or its swap; absent when there is none. -/
def findExactDistance (origin destination : String) : Option ℕ :=
  (routes.find? (fun r =>
    decide ((canon r.origin, canon r.destination) = (canon origin, canon destination) ∨
      (canon r.origin, canon r.destination) = (canon destination, canon origin)))).map
    Route.distanceInKm

/-- A small `Math` library over the rationals on which the definitions can be
evaluated: `Math.PI` is the binary64 value of the constant, the functions are
low-order rational approximations. -/
def sampleMath : MathLib ℚ :=
  MathLib.lift (884279719003555 / 281474976710656) (fun x => x - x ^ 3 / 6)
    (fun x => 1 - x ^ 2 / 2) (fun x => x + x ^ 3 / 6) (fun x => (x + 1) / 2)

/-- The documented tier table of the road-detour factor: `f` is the factor
that the table gives for the straight-line distance `straight`. -/
def IsTierFactor {K : Type} [LinearOrderedField K] (straight : JSNum K) (f : K) : Prop :=
  (lt straight (fin 20) = true ∧ f = 1.10) ∨
  (ge straight (fin 20) = true ∧ lt straight (fin 50) = true ∧ f = 1.12) ∨
  (ge straight (fin 50) = true ∧ lt straight (fin 200) = true ∧ f = 1.18) ∨
  (ge straight (fin 200) = true ∧ lt straight (fin 800) = true ∧ f = 1.12) ∨
  (ge straight (fin 800) = true ∧ f = 1.08)

section ConverterReference

variable {K : Type} [LinearOrderedField K] [FloorRing K]

/-- The value of `round(value, decimals)` on a finite `value`, in the arithmetic
that rounds nothing. -/
def roundFin (x : K) (decimals : ℕ) : K :=
  ((⌊(x + 1 / 2 ^ 52) * 10 ^ decimals + 1 / 2⌋ : ℤ) : K) / 10 ^ decimals

/-- The `percentageVsCar` that `calculateAllModes` gives to an entry, from the
emission of the car entry and the emission of the entry. -/
def pctVsCar (R : Rounding K) (carEmission emission : Option (JSNum K)) :
    Option (JSNum K) :=
  match carEmission, emission with
  | some c, some e =>
    if c ≠ fin 0 then some (round R (R.mul (R.div e c) (fin 100)) 2)
    else if e = fin 0 then some (fin 100) else none
  | _, _ => none

/-- The entry of `calculateAllModes` for one mode of the shipped configuration. -/
def modeEntry (R : Rounding K) (d : Value K) (mode : String) : ModeResult K :=
  ⟨mode, calculateEmission R CONFIG d mode,
    pctVsCar R (calculateEmission R CONFIG d "car") (calculateEmission R CONFIG d mode)⟩

/-- The documented shape of the result of `calculateAllModes`: exactly one entry
for each of the four configured modes, entries in non-decreasing order of
emission, `bicycle` first with emission 0, and `truck` last. -/
def AllModesOrdered (res : List (ModeResult K)) : Prop :=
  (res.map ModeResult.mode).Perm ["bicycle", "car", "bus", "truck"] ∧
  res.Pairwise (fun a b =>
    ∃ x y : K, a.emission = some (fin x) ∧ b.emission = some (fin y) ∧ x ≤ y) ∧
  (∃ first, res.head? = some first ∧ first.mode = "bicycle" ∧ first.emission = some (fin 0)) ∧
  (∃ last, res.getLast? = some last ∧ last.mode = "truck")

end ConverterReference

/-- Rounding to `decimals` places with exact ties resolved away from zero, as the
specification words the rounding of the converter. -/
def roundHalfAwayFromZero {K : Type} [LinearOrderedField K] [FloorRing K] (v : K)
    (decimals : ℕ) : K :=
  if 0 ≤ v then ((⌊v * 10 ^ decimals + 1 / 2⌋ : ℤ) : K) / 10 ^ decimals
  else -(((⌊-v * 10 ^ decimals + 1 / 2⌋ : ℤ) : K) / 10 ^ decimals)

/-- A sample comparison of names, by code points, on which `getAllCities` can be
evaluated: negative, zero or positive as `a` is before, equal to or after `b`. -/
def sampleCompare (a b : String) : JSNum ℚ :=
  if a < b then fin (-1) else if a = b then fin 0 else fin 1

/-- The members of the set built by `getAllCities`, in insertion order. -/
def insertedCities : List String :=
  routes.foldl
    (fun set r =>
      let set := if r.origin ≠ "" then setAdd set r.origin else set
      if r.destination ≠ "" then setAdd set r.destination else set)
    []

/-! ## Arithmetic of numbers -/

section NumLemmas
variable {K : Type} [LinearOrderedField K]

@[simp]
theorem fin_add_fin (x y : K) : (fin x + fin y : JSNum K) = fin (x + y) := rfl
@[simp]
theorem fin_mul_fin (x y : K) : (fin x * fin y : JSNum K) = fin (x * y) := rfl
@[simp]
theorem fin_sub_fin (x y : K) : (fin x - fin y : JSNum K) = fin (x - y) := by
  show JSNum.add (fin x) (JSNum.neg (fin y)) = _
  simp [JSNum.add, JSNum.neg, sub_eq_add_neg]
@[simp]
theorem neg_fin (x : K) : (-(fin x) : JSNum K) = fin (-x) := rfl
theorem fin_div_fin (x y : K) (h : y ≠ 0) : (fin x / fin y : JSNum K) = fin (x / y) := by
  show JSNum.div (fin x) (fin y) = _
  simp [JSNum.div, h]
@[simp]
theorem nan_add (a : JSNum K) : (nan + a : JSNum K) = nan := by cases a <;> rfl
@[simp]
theorem add_nan (a : JSNum K) : (a + nan : JSNum K) = nan := by cases a <;> rfl
@[simp]
theorem nan_mul (a : JSNum K) : (nan * a : JSNum K) = nan := by cases a <;> rfl
@[simp]
theorem mul_nan (a : JSNum K) : (a * nan : JSNum K) = nan := by cases a <;> rfl
@[simp]
theorem nan_div (a : JSNum K) : (nan / a : JSNum K) = nan := by cases a <;> rfl
@[simp]
theorem div_nan (a : JSNum K) : (a / nan : JSNum K) = nan := by cases a <;> rfl
@[simp]
theorem neg_nan : (-(nan) : JSNum K) = nan := rfl
@[simp]
theorem nan_sub (a : JSNum K) : (nan - a : JSNum K) = nan := by cases a <;> rfl
@[simp]
theorem sub_nan (a : JSNum K) : (a - nan : JSNum K) = nan := by cases a <;> rfl

theorem add_def (a b : JSNum K) : a + b = JSNum.add a b := rfl
theorem sub_def (a b : JSNum K) : a - b = JSNum.add a (JSNum.neg b) := rfl
theorem mul_def (a b : JSNum K) : a * b = JSNum.mul a b := rfl
theorem div_def (a b : JSNum K) : a / b = JSNum.div a b := rfl
theorem neg_def (a : JSNum K) : -a = JSNum.neg a := rfl

theorem jsnum_neg_neg (a : JSNum K) : - -a = a := by
  cases a <;> simp [neg_def, JSNum.neg]

theorem jsnum_mul_comm (a b : JSNum K) : a * b = b * a := by
  cases a <;> cases b <;> simp [mul_def, JSNum.mul, mul_comm]

theorem signedInf_neg (p : Bool) : JSNum.neg (signedInf p : JSNum K) = signedInf (!p) := by
  cases p <;> rfl

theorem jsnum_neg_mul (a b : JSNum K) : -a * b = -(a * b) := by
  cases a <;> cases b <;> try rfl
  case fin.fin x y => simp [neg_fin]
  all_goals
    rename_i x
    simp only [mul_def, neg_def, JSNum.mul, JSNum.neg]
    rcases lt_trichotomy x 0 with h | h | h
    · simp [h, h.ne, not_lt.mpr h.le, signedInf, JSNum.neg]
    · simp [h, JSNum.neg]
    · simp [h, h.ne.symm, not_lt.mpr h.le, signedInf, JSNum.neg]

theorem jsnum_mul_neg (a b : JSNum K) : a * -b = -(a * b) := by
  rw [jsnum_mul_comm, jsnum_neg_mul, jsnum_mul_comm]

theorem jsnum_neg_div (a b : JSNum K) : -a / b = -(a / b) := by
  cases a <;> cases b <;> try rfl
  case fin.fin x y =>
    simp only [div_def, neg_def, JSNum.div, JSNum.neg]
    by_cases hy : y = 0
    · rcases lt_trichotomy x 0 with h | h | h
      · simp [hy, h, h.ne, not_lt.mpr h.le, signedInf, JSNum.neg]
      · simp [hy, h, JSNum.neg]
      · simp [hy, h, h.ne.symm, not_lt.mpr h.le, signedInf, JSNum.neg]
    · simp [hy, JSNum.neg, neg_div]
  all_goals
    rename_i x
    simp only [div_def, neg_def, JSNum.div, JSNum.neg]
    by_cases h : x < 0
    · simp [h, not_le.mpr h, signedInf, JSNum.neg]
    · simp [h, not_lt.mp h, signedInf, JSNum.neg]

theorem jsnum_sub_swap (a b : JSNum K) : a - b = -(b - a) := by
  cases a <;> cases b <;> simp [sub_def, neg_def, JSNum.add, JSNum.neg]

end NumLemmas

/-! ## The route registry -/

section Registry

variable {K : Type} [LinearOrderedField K] [FloorRing K]

theorem findDistanceLoop_eq_find (o d : String) (rs : List Route) :
    findDistanceLoop o d rs = (rs.find? (routeMatches o d)).map Route.distanceInKm := by
  induction rs with
  | nil => rfl
  | cons r rest ih =>
    by_cases h : routeMatches o d r = true
    · simp [findDistanceLoop, List.find?, h]
    · simp [findDistanceLoop, List.find?, h, ih]

theorem routeMatches_canon (origin destination : String) (r : Route) :
    routeMatches (toLowerCase (trim origin)) (toLowerCase (trim destination)) r =
      decide ((canon r.origin, canon r.destination) = (canon origin, canon destination) ∨
        (canon r.origin, canon r.destination) = (canon destination, canon origin)) := by
  rw [Bool.eq_iff_iff]
  simp [routeMatches, canon]

/-- No route of the table has a blank endpoint. -/
theorem routes_not_blank :
    ∀ r ∈ routes, canon r.origin ≠ "" ∧ canon r.destination ≠ "" := by
  decide

theorem canon_of_trim_eq_empty (s : String) (h : trim s = "") : canon s = "" := by
  simp [canon, h]; rfl

theorem findExactDistance_blank (origin destination : String)
    (h : canon origin = "" ∨ canon destination = "") :
    findExactDistance origin destination = none := by
  unfold findExactDistance
  rw [Option.map_eq_none', List.find?_eq_none]
  intro r hr
  have hb := routes_not_blank r hr
  simp only [Prod.mk.injEq, decide_eq_true_eq, not_or, not_and]
  rcases h with h | h
  · exact ⟨fun h1 => absurd (h1.trans h) hb.1, fun _ h2 => absurd (h2.trans h) hb.2⟩
  · exact ⟨fun _ h2 => absurd (h2.trans h) hb.2, fun h1 => absurd (h1.trans h) hb.1⟩

/-- Every route of the table is found under its own names, in both directions,
with its own distance. -/
theorem findDistance_routes :
    ∀ r ∈ routes, findDistance r.origin r.destination = some r.distanceInKm ∧
      findDistance r.destination r.origin = some r.distanceInKm := by
  decide

/-- C1. For every route `r` of the table, `estimateRoadDistance` gives the same
result for `(r.origin, r.destination)` and for `(r.destination, r.origin)`, and
that result is `r.distanceInKm` with method `db`. -/
theorem estimateRoadDistance_route (M : MathLib K) (r : Route) (hr : r ∈ routes) :
    estimateRoadDistance M r.origin r.destination =
        estimateRoadDistance M r.destination r.origin ∧
      estimateRoadDistance M r.origin r.destination =
        ⟨some (fin (r.distanceInKm : K)), Method.db⟩ := by
  have h := findDistance_routes r hr
  simp [estimateRoadDistance, h.1, h.2]

/-- C1 at the first route of the table: São Paulo to Rio de Janeiro is 430 km
from the registry. -/
theorem estimateRoadDistance_route_witness :
    (⟨"São Paulo, SP", "Rio de Janeiro, RJ", 430⟩ : Route) ∈ routes ∧
      estimateRoadDistance sampleMath "São Paulo, SP" "Rio de Janeiro, RJ" =
        ⟨some (fin ((430 : ℕ) : ℚ)), Method.db⟩ :=
  ⟨by decide,
    (estimateRoadDistance_route sampleMath ⟨"São Paulo, SP", "Rio de Janeiro, RJ", 430⟩
      (by decide)).2⟩

/-- C2. For all strings, `findDistance` returns the distance of the first route
in declaration order whose canonical endpoints are the canonical arguments or
their swap, and `null` when no route matches; in particular it returns `null`
when an argument is empty or only whitespace. -/
theorem findDistance_eq_findExactDistance (origin destination : String) :
    findDistance origin destination = findExactDistance origin destination ∧
      ((∀ r ∈ routes,
          ¬ ((canon r.origin, canon r.destination) = (canon origin, canon destination) ∨
            (canon r.origin, canon r.destination) = (canon destination, canon origin))) →
        findDistance origin destination = none) ∧
      ((trim origin = "" ∨ trim destination = "") → findDistance origin destination = none) := by
  have main : findDistance origin destination = findExactDistance origin destination := by
    by_cases hg : origin = "" ∨ destination = ""
    · have hc : canon origin = "" ∨ canon destination = "" := by
        rcases hg with h | h
        · left; rw [h]; decide
        · right; rw [h]; decide
      rw [findExactDistance_blank origin destination hc]
      simp [findDistance, hg]
    · simp only [findDistance, hg, if_false, findDistanceLoop_eq_find, findExactDistance]
      congr 2
      funext r
      exact routeMatches_canon origin destination r
  refine ⟨main, ?_, ?_⟩
  · intro hno
    rw [main]
    unfold findExactDistance
    rw [Option.map_eq_none', List.find?_eq_none]
    intro r hr
    simpa using hno r hr
  · intro hb
    rw [main]
    apply findExactDistance_blank
    rcases hb with h | h
    · exact Or.inl (canon_of_trim_eq_empty origin h)
    · exact Or.inr (canon_of_trim_eq_empty destination h)

end Registry

/-! ## The haversine distance -/

section Haversine
variable {K : Type} [LinearOrderedField K]

theorem toRad_neg (M : MathLib K) (x : JSNum K) : toRad M (-x) = -(toRad M x) := by
  simp only [toRad, jsnum_neg_mul, jsnum_neg_div]

theorem toRad_sub_half (M : MathLib K) (x y : JSNum K) :
    toRad M (x - y) / fin 2 = -(toRad M (y - x) / fin 2) := by
  rw [jsnum_sub_swap x y, toRad_neg, jsnum_neg_div]

theorem hav_comm (M : MathLib K) (hsin : ∀ x, M.sin (-x) = -(M.sin x)) (a b : CoordRef K) :
    hav M a b = hav M b a := by
  simp only [hav]
  rw [toRad_sub_half M a.lat b.lat, toRad_sub_half M a.lon b.lon, hsin, hsin]
  simp only [jsnum_neg_mul, jsnum_mul_neg, jsnum_neg_neg]
  rw [jsnum_mul_comm (M.cos (toRad M b.lat)) (M.cos (toRad M a.lat))]

theorem sampleMath_sin_neg (x : JSNum ℚ) : sampleMath.sin (-x) = -(sampleMath.sin x) := by
  cases x <;> simp [sampleMath, MathLib.lift, neg_def, JSNum.neg]
  ring

/-- C5. The haversine function `hav` is symmetric, `hav(a, b) = hav(b, a)` for
all arguments, on every platform whose `Math.sin` is an odd function. -/
theorem hav_symm (M : MathLib K) (hsin : ∀ x, M.sin (-x) = -(M.sin x)) (a b : CoordRef K) :
    hav M a b = hav M b a :=
  hav_comm M hsin a b

/-- C5 at the coordinates of São Paulo and Rio de Janeiro, on the sample library. -/
theorem hav_symm_witness :
    (∀ x, sampleMath.sin (-x) = -(sampleMath.sin x)) ∧
      hav sampleMath (CoordRef.entry ⟨-23.55052, -46.633308⟩)
          (CoordRef.entry ⟨-22.906847, -43.172896⟩) =
        hav sampleMath (CoordRef.entry ⟨-22.906847, -43.172896⟩)
          (CoordRef.entry ⟨-23.55052, -46.633308⟩) :=
  ⟨sampleMath_sin_neg, hav_symm sampleMath sampleMath_sin_neg _ _⟩

end Haversine

section Ideal

/-! The exact library: real arithmetic with the mathematical `sin`, `cos`,
`arcsin`, square root and `π`, written
`MathLib.lift Real.pi Real.sin Real.cos Real.arcsin Real.sqrt`. -/

theorem hav_ideal_self (a : Coord ℝ) :
    hav (MathLib.lift Real.pi Real.sin Real.cos Real.arcsin Real.sqrt) (CoordRef.entry a)
      (CoordRef.entry a) = fin 0 := by
  simp [hav, toRad, MathLib.lift, CoordRef.lat, CoordRef.lon, fin_div_fin]

theorem haversine_le_one (x y v : ℝ) (hx : 0 ≤ Real.cos x) (hy : 0 ≤ Real.cos y) :
    Real.sin ((y - x) / 2) * Real.sin ((y - x) / 2) +
      Real.cos x * Real.cos y * Real.sin v * Real.sin v ≤ 1 := by
  have h1 : Real.sin ((y - x) / 2) ^ 2 = 1 / 2 - Real.cos (y - x) / 2 := by
    rw [Real.sin_sq_eq_half_sub]; ring_nf
  have h2 : Real.cos (y - x) = Real.cos y * Real.cos x + Real.sin y * Real.sin x := Real.cos_sub y x
  have h3 : Real.cos (y + x) = Real.cos y * Real.cos x - Real.sin y * Real.sin x := Real.cos_add y x
  have h4 : Real.cos (y + x) ≤ 1 := Real.cos_le_one _
  have h5 : Real.sin v ^ 2 ≤ 1 := Real.sin_sq_le_one v
  have h6 : 0 ≤ Real.sin v ^ 2 := sq_nonneg _
  have h7 : 0 ≤ Real.cos x * Real.cos y := mul_nonneg hx hy
  nlinarith [mul_le_mul_of_nonneg_left h5 h7]

theorem hav_ideal_nonneg (a b : Coord ℝ) (ha1 : -90 ≤ a.lat) (ha2 : a.lat ≤ 90)
    (hb1 : -90 ≤ b.lat) (hb2 : b.lat ≤ 90) :
    ∃ d : ℝ, 0 ≤ d ∧
      hav (MathLib.lift Real.pi Real.sin Real.cos Real.arcsin Real.sqrt) (CoordRef.entry a)
        (CoordRef.entry b) = fin d := by
  have hpi := Real.pi_pos
  have cx : 0 ≤ Real.cos (a.lat * Real.pi / 180) := by
    apply Real.cos_nonneg_of_neg_pi_div_two_le_of_le <;> nlinarith
  have cy : 0 ≤ Real.cos (b.lat * Real.pi / 180) := by
    apply Real.cos_nonneg_of_neg_pi_div_two_le_of_le <;> nlinarith
  set u := (b.lat - a.lat) * Real.pi / 180 / 2 with hu
  set v := (b.lon - a.lon) * Real.pi / 180 / 2 with hv
  set h := Real.sin u * Real.sin u +
      Real.cos (a.lat * Real.pi / 180) * Real.cos (b.lat * Real.pi / 180) * Real.sin v * Real.sin v
    with hh
  have h0 : 0 ≤ h := by
    have : 0 ≤ Real.cos (a.lat * Real.pi / 180) * Real.cos (b.lat * Real.pi / 180) *
        (Real.sin v * Real.sin v) := mul_nonneg (mul_nonneg cx cy) (mul_self_nonneg _)
    have := mul_self_nonneg (Real.sin u)
    rw [hh]; nlinarith
  have h1 : h ≤ 1 := by
    have e : u = (b.lat * Real.pi / 180 - a.lat * Real.pi / 180) / 2 := by rw [hu]; ring
    rw [hh, e]
    exact haversine_le_one _ _ v cx cy
  have s0 : 0 ≤ Real.sqrt h := Real.sqrt_nonneg h
  have s1 : Real.sqrt h ≤ 1 := Real.sqrt_le_one.mpr h1
  have hasin : 0 ≤ Real.arcsin (Real.sqrt h) := Real.arcsin_nonneg.mpr s0
  refine ⟨2 * 6371 * Real.arcsin (Real.sqrt h), by positivity, ?_⟩
  have hdiv : ∀ x : ℝ, (fin x / fin 180 : JSNum ℝ) = fin (x / 180) := by
    intro x; rw [fin_div_fin _ _ (by norm_num)]
  have hhalf : ∀ x : ℝ, (fin x / fin 2 : JSNum ℝ) = fin (x / 2) := by
    intro x; rw [fin_div_fin _ _ (by norm_num)]
  simp only [hav, toRad, MathLib.lift, CoordRef.lat, CoordRef.lon, fin_sub_fin, hdiv, hhalf,
    fin_mul_fin, fin_add_fin]
  rw [← hu, ← hv, ← hh]
  simp [h0, s1, (by linarith : (-1 : ℝ) ≤ Real.sqrt h)]

/-- C6. On the exact real library, `hav(a, b)` is a number greater than or equal
to 0 for all coordinates whose latitudes lie in [-90, 90] degrees, and
`hav(a, a) = 0` for every coordinate `a`. -/
theorem hav_nonneg_and_self (a b : Coord ℝ) :
    (-90 ≤ a.lat → a.lat ≤ 90 → -90 ≤ b.lat → b.lat ≤ 90 →
      ∃ d : ℝ, 0 ≤ d ∧
        hav (MathLib.lift Real.pi Real.sin Real.cos Real.arcsin Real.sqrt) (CoordRef.entry a)
          (CoordRef.entry b) = fin d) ∧
      hav (MathLib.lift Real.pi Real.sin Real.cos Real.arcsin Real.sqrt) (CoordRef.entry a)
        (CoordRef.entry a) = fin 0 :=
  ⟨hav_ideal_nonneg a b, hav_ideal_self a⟩

/-- C6 at the coordinates of São Paulo and Rio de Janeiro. -/
theorem hav_nonneg_and_self_witness :
    ∃ d : ℝ, 0 ≤ d ∧
      hav (MathLib.lift Real.pi Real.sin Real.cos Real.arcsin Real.sqrt)
        (CoordRef.entry ⟨-23.55052, -46.633308⟩) (CoordRef.entry ⟨-22.906847, -43.172896⟩) =
          fin d :=
  (hav_nonneg_and_self ⟨-23.55052, -46.633308⟩ ⟨-22.906847, -43.172896⟩).1
    (by norm_num) (by norm_num) (by norm_num) (by norm_num)

end Ideal

/-! ## The road-distance estimator -/

section EstimatorLemmas

variable {K : Type} [LinearOrderedField K]

theorem ge_of_lt_eq_false (s : JSNum K) (x : K) (hs : s ≠ nan) (h : lt s (fin x) = false) :
    ge s (fin x) = true := by
  cases s with
  | nan => exact absurd rfl hs
  | ninf => simp [lt] at h
  | fin y => simpa [lt, ge] using h
  | pinf => rfl

theorem max_fin_fin (x y : K) : JSNum.max (fin x) (fin y) = fin (Max.max x y) := by
  rcases lt_or_le x y with h | h
  · simp [JSNum.max, h, max_eq_right h.le]
  · simp [JSNum.max, not_lt.mpr h, max_eq_left h]

/-- The factor chosen by the code is a row of the documented table whenever the
straight-line distance is a number. -/
theorem detourFactor_isTierFactor (s : JSNum K) (hs : s ≠ nan) :
    ∃ f : K, IsTierFactor s f ∧ detourFactor s = fin f := by
  unfold detourFactor IsTierFactor
  by_cases h1 : lt s (fin 20) = true
  · exact ⟨1.10, Or.inl ⟨h1, rfl⟩, by simp [h1]⟩
  have g1 := ge_of_lt_eq_false s 20 hs (by simpa using h1)
  by_cases h2 : lt s (fin 50) = true
  · exact ⟨1.12, Or.inr (Or.inl ⟨g1, h2, rfl⟩), by simp [h1, h2]⟩
  have g2 := ge_of_lt_eq_false s 50 hs (by simpa using h2)
  by_cases h3 : lt s (fin 200) = true
  · exact ⟨1.18, Or.inr (Or.inr (Or.inl ⟨g2, h3, rfl⟩)), by simp [h1, h2, h3]⟩
  have g3 := ge_of_lt_eq_false s 200 hs (by simpa using h3)
  by_cases h4 : lt s (fin 800) = true
  · exact ⟨1.12, Or.inr (Or.inr (Or.inr (Or.inl ⟨g3, h4, rfl⟩))), by simp [h1, h2, h3, h4]⟩
  have g4 := ge_of_lt_eq_false s 800 hs (by simpa using h4)
  exact ⟨1.08, Or.inr (Or.inr (Or.inr (Or.inr ⟨g4, rfl⟩))), by simp [h1, h2, h3, h4]⟩

theorem cityCoords_lookup_empty : (cityCoords : List (String × Coord K)).lookup "" = none := by
  simp [cityCoords, List.lookup]

theorem getCoordsFromMap_of_lookup (name : String) (c : Coord K)
    (h : cityCoords.lookup (canon name) = some c) :
    getCoordsFromMap name = some (CoordRef.entry c) := by
  have hne : name ≠ "" := by
    rintro rfl
    have h0 : canon "" = "" := by decide
    rw [h0, cityCoords_lookup_empty] at h
    exact absurd h (by simp)
  simp only [getCoordsFromMap, hne, if_false, objectGet]
  rw [show toLowerCase (trim name) = canon name from rfl, h]

end EstimatorLemmas

section Estimator

variable {K : Type} [LinearOrderedField K] [FloorRing K]

/-- C3. When `findDistance` returns `null` and both names have an entry in the
coordinate table, `estimateRoadDistance` returns method `estimate` and the
distance `Math.round(straight * factor)`, where `straight` is the haversine
distance of the two entries (taken to be a number, not `NaN`), `factor` is the
row of the documented tier table for `straight`, replaced by `max(factor, 1.25)`
when the latitude of either entry is greater than -5. -/
theorem estimateRoadDistance_estimate (M : MathLib K) (origin destination : String)
    (a b : Coord K)
    (hroute : findDistance origin destination = none)
    (ha : cityCoords.lookup (canon origin) = some a)
    (hb : cityCoords.lookup (canon destination) = some b)
    (hnum : hav M (CoordRef.entry a) (CoordRef.entry b) ≠ nan) :
    ∃ f : K, IsTierFactor (hav M (CoordRef.entry a) (CoordRef.entry b)) f ∧
      estimateRoadDistance M origin destination =
        ⟨some (mathRound (hav M (CoordRef.entry a) (CoordRef.entry b) *
            fin (if -5 < a.lat ∨ -5 < b.lat then Max.max f 1.25 else f))),
          Method.estimate⟩ := by
  obtain ⟨f, hf, hd⟩ := detourFactor_isTierFactor _ hnum
  refine ⟨f, hf, ?_⟩
  simp only [estimateRoadDistance, hroute, getCoordsFromMap_of_lookup origin a ha,
    getCoordsFromMap_of_lookup destination b hb, hd, CoordRef.lat, gt, lt, max_fin_fin,
    Bool.or_eq_true, decide_eq_true_eq]
  by_cases hn : -5 < a.lat ∨ -5 < b.lat
  · simp only [hn, if_true]
  · simp only [hn, if_false]

theorem canon_curitiba : canon "Curitiba, PR" = "curitiba, pr" := by decide

theorem canon_salvador : canon "Salvador, BA" = "salvador, ba" := by decide

/-- C3 for Curitiba and Salvador, which have coordinates and no route, on the
sample library. -/
theorem estimateRoadDistance_estimate_witness :
    findDistance "Curitiba, PR" "Salvador, BA" = none ∧
      ∃ f : ℚ,
        IsTierFactor (hav sampleMath (CoordRef.entry ⟨-25.428954, -49.267137⟩)
          (CoordRef.entry ⟨-12.977749, -38.50163⟩)) f ∧
        estimateRoadDistance sampleMath "Curitiba, PR" "Salvador, BA" =
          ⟨some (mathRound (hav sampleMath (CoordRef.entry ⟨-25.428954, -49.267137⟩)
              (CoordRef.entry ⟨-12.977749, -38.50163⟩) *
              fin (if (-5 : ℚ) < -25.428954 ∨ (-5 : ℚ) < -12.977749 then Max.max f 1.25 else f))),
            Method.estimate⟩ :=
  ⟨by decide,
    estimateRoadDistance_estimate sampleMath "Curitiba, PR" "Salvador, BA"
      ⟨-25.428954, -49.267137⟩ ⟨-12.977749, -38.50163⟩ (by decide)
      (by rw [canon_curitiba]; simp [cityCoords, List.lookup])
      (by rw [canon_salvador]; simp [cityCoords, List.lookup])
      (by
        simp only [hav, toRad, sampleMath, MathLib.lift, CoordRef.lat, CoordRef.lon,
          fin_sub_fin, fin_mul_fin, fin_add_fin]
        norm_num [fin_div_fin]
        exact fun h => JSNum.noConfusion h)⟩

theorem canon_constructor : canon "constructor" = "constructor" := by decide

/-- C4, the failing input. The name `constructor` is in no route and has no entry
in the coordinate table, yet `cityCoords["constructor"]` is the inherited
`Object.prototype.constructor`, which is truthy: the result has method
`estimate` and a distance that is not `null` (on the sample library it is
`NaN`), not `{distance: null, method: 'unknown'}`. -/
theorem estimateRoadDistance_constructor (M : MathLib K) :
    findDistance "constructor" "constructor" = none ∧
      (cityCoords : List (String × Coord K)).lookup (canon "constructor") = none ∧
      (estimateRoadDistance M "constructor" "constructor").method = Method.estimate ∧
      (estimateRoadDistance M "constructor" "constructor").distance ≠ none ∧
      estimateRoadDistance sampleMath "constructor" "constructor" =
        ⟨some nan, Method.estimate⟩ := by
  have hf : findDistance "constructor" "constructor" = none := by decide
  have hl : (cityCoords : List (String × Coord K)).lookup (canon "constructor") = none := by
    rw [canon_constructor]; simp [cityCoords, List.lookup]
  have hg : ∀ (L : Type) [LinearOrderedField L],
      (getCoordsFromMap "constructor" : Option (CoordRef L)) = some CoordRef.inherited := by
    intro L _
    have hl2 : (cityCoords : List (String × Coord L)).lookup "constructor" = none := by
      simp [cityCoords, List.lookup]
    have hne : ("constructor" : String) ≠ "" := by decide
    have hmem : "constructor" ∈ objectPrototypeKeys := by decide
    simp only [getCoordsFromMap, hne, if_false, objectGet]
    rw [show toLowerCase (trim "constructor") = "constructor" from canon_constructor, hl2]
    simp only [hmem, if_true]
  refine ⟨hf, hl, ?_, ?_, ?_⟩
  · simp [estimateRoadDistance, hf, hg K]
  · simp [estimateRoadDistance, hf, hg K]
  · simp [estimateRoadDistance, hf, hg ℚ, hav, toRad, sampleMath, MathLib.lift, CoordRef.lat,
      CoordRef.lon, mathRound]

end Estimator

/-! ## The emission converter -/

section ExactArith

variable {K : Type}

@[simp]
theorem exactArith_fl (x : K) : (exactArith : Rounding K).fl x = fin x := rfl

@[simp]
theorem exactArith_rnd (v : JSNum K) : (exactArith : Rounding K).rnd v = v := by
  cases v <;> rfl

theorem signedInf_ne_nan (b : Bool) : (signedInf b : JSNum K) ≠ nan := by
  cases b <;> simp [signedInf]

end ExactArith

section RoundingLemmas

variable {K : Type} [LinearOrderedField K]

@[simp]
theorem exactArith_add (a b : JSNum K) : (exactArith : Rounding K).add a b = a + b :=
  exactArith_rnd _

@[simp]
theorem exactArith_sub (a b : JSNum K) : (exactArith : Rounding K).sub a b = a - b :=
  exactArith_rnd _

@[simp]
theorem exactArith_mul (a b : JSNum K) : (exactArith : Rounding K).mul a b = a * b :=
  exactArith_rnd _

@[simp]
theorem exactArith_div (a b : JSNum K) : (exactArith : Rounding K).div a b = a / b :=
  exactArith_rnd _

theorem add_fin_fin (R : Rounding K) (a b : K) : R.add (fin a) (fin b) = R.fl (a + b) := rfl

theorem sub_fin_fin (R : Rounding K) (a b : K) : R.sub (fin a) (fin b) = R.fl (a - b) := by
  simp [Rounding.sub, Rounding.rnd]

theorem mul_fin_fin (R : Rounding K) (a b : K) : R.mul (fin a) (fin b) = R.fl (a * b) := rfl

theorem div_fin_fin (R : Rounding K) (a b : K) (hb : b ≠ 0) :
    R.div (fin a) (fin b) = R.fl (a / b) := by
  simp [Rounding.div, Rounding.rnd, fin_div_fin _ _ hb]

@[simp]
theorem rounding_add_nan_left (R : Rounding K) (a : JSNum K) : R.add nan a = nan := by
  simp [Rounding.add, Rounding.rnd]

@[simp]
theorem rounding_mul_nan_left (R : Rounding K) (a : JSNum K) : R.mul nan a = nan := by
  simp [Rounding.mul, Rounding.rnd]

@[simp]
theorem rounding_mul_nan_right (R : Rounding K) (a : JSNum K) : R.mul a nan = nan := by
  simp [Rounding.mul, Rounding.rnd]

@[simp]
theorem rounding_div_nan_left (R : Rounding K) (a : JSNum K) : R.div nan a = nan := by
  simp [Rounding.div, Rounding.rnd]

theorem add_fin_ne_nan (a : JSNum K) (x : K) (h : a ≠ nan) : a + fin x ≠ nan := by
  cases a with
  | nan => exact absurd rfl h
  | fin v => simp
  | pinf => simp [add_def, JSNum.add]
  | ninf => simp [add_def, JSNum.add]

theorem mul_fin_ne_nan (a : JSNum K) (x : K) (hx : x ≠ 0) (h : a ≠ nan) : a * fin x ≠ nan := by
  cases a with
  | nan => exact absurd rfl h
  | fin v => simp
  | pinf => simp [mul_def, JSNum.mul, hx, signedInf_ne_nan]
  | ninf => simp [mul_def, JSNum.mul, hx, signedInf_ne_nan]

theorem div_fin_ne_nan (a : JSNum K) (x : K) (hx : x ≠ 0) (h : a ≠ nan) : a / fin x ≠ nan := by
  cases a with
  | nan => exact absurd rfl h
  | fin v => simp [fin_div_fin _ _ hx]
  | pinf => simp [div_def, JSNum.div, signedInf_ne_nan]
  | ninf => simp [div_def, JSNum.div, signedInf_ne_nan]

end RoundingLemmas

section Binary64

theorem roundHalfEven_of_lt (q : ℚ) (n : ℤ) (h1 : (n : ℚ) - 1 / 2 < q) (h2 : q < n + 1 / 2) :
    roundHalfEven q = n := by
  unfold roundHalfEven
  simp only
  by_cases hq : q < n
  · have hf : ⌊q⌋ = n - 1 := by
      rw [Int.floor_eq_iff]; push_cast; constructor <;> linarith
    rw [hf]; push_cast
    rw [if_neg (by linarith), if_pos (by linarith)]; ring
  · have hf : ⌊q⌋ = n := by
      rw [Int.floor_eq_iff]; constructor <;> linarith
    rw [hf, if_pos (by linarith)]

theorem roundHalfEven_tie (q : ℚ) (f : ℤ) (h : q = f + 1 / 2) :
    roundHalfEven q = if f % 2 = 0 then f else f + 1 := by
  unfold roundHalfEven
  simp only
  have hf : ⌊q⌋ = f := by
    rw [Int.floor_eq_iff]; constructor <;> linarith
  rw [hf, if_neg (by linarith), if_neg (by linarith)]

/-- The binary64 rounding of `x`, from the binade `e` of `x` and the integer `n`
that `x` rounds to in units of the spacing of that binade. -/
theorem binary64_fl_eq (x y : ℚ) (e n : ℤ) (he : -1022 ≤ e)
    (hx : (0 < x ∧ (2 : ℚ) ^ e ≤ x ∧ x < (2 : ℚ) ^ (e + 1)) ∨
      (x < 0 ∧ (2 : ℚ) ^ e ≤ -x ∧ -x < (2 : ℚ) ^ (e + 1)))
    (hn : roundHalfEven (x / 2 ^ (e - 52)) = n)
    (hy : y = n * 2 ^ (e - 52)) (hfin : -2 ^ 1024 < y ∧ y < 2 ^ 1024) :
    binary64.fl x = fin y := by
  have habs : (2 : ℚ) ^ e ≤ |x| ∧ |x| < (2 : ℚ) ^ (e + 1) := by
    rcases hx with ⟨h0, h1, h2⟩ | ⟨h0, h1, h2⟩
    · rw [abs_of_pos h0]; exact ⟨h1, h2⟩
    · rw [abs_of_neg h0]; exact ⟨h1, h2⟩
  have hpos : (0 : ℚ) < |x| := lt_of_lt_of_le (by positivity) habs.1
  have hx0 : x ≠ 0 := abs_pos.mp hpos
  have hlog : Int.log 2 |x| = e := by
    have a1 : e ≤ Int.log 2 |x| :=
      (Int.zpow_le_iff_le_log (by norm_num) hpos).mp (by exact_mod_cast habs.1)
    have a2 : Int.log 2 |x| < e + 1 :=
      (Int.lt_zpow_iff_log_lt (by norm_num) hpos).mp (by exact_mod_cast habs.2)
    omega
  have hy2 : ¬ (2 : ℚ) ^ 1024 ≤ |y| := by
    rw [not_le, abs_lt]; exact hfin
  simp only [binary64, binary64Nearest, binary64Ulp, hx0, if_false, hlog, max_eq_left he, hn,
    ← hy, hy2]

theorem binary64_fl_of_lt (x y : ℚ) (e n : ℤ) (he : -1022 ≤ e)
    (hx : (0 < x ∧ (2 : ℚ) ^ e ≤ x ∧ x < (2 : ℚ) ^ (e + 1)) ∨
      (x < 0 ∧ (2 : ℚ) ^ e ≤ -x ∧ -x < (2 : ℚ) ^ (e + 1)))
    (h1 : (n : ℚ) - 1 / 2 < x / 2 ^ (e - 52)) (h2 : x / 2 ^ (e - 52) < n + 1 / 2)
    (hy : y = n * 2 ^ (e - 52)) (hfin : -2 ^ 1024 < y ∧ y < 2 ^ 1024) :
    binary64.fl x = fin y :=
  binary64_fl_eq x y e n he hx (roundHalfEven_of_lt _ _ h1 h2) hy hfin

theorem binary64_fl_of_tie (x y : ℚ) (e f n : ℤ) (he : -1022 ≤ e)
    (hx : (0 < x ∧ (2 : ℚ) ^ e ≤ x ∧ x < (2 : ℚ) ^ (e + 1)) ∨
      (x < 0 ∧ (2 : ℚ) ^ e ≤ -x ∧ -x < (2 : ℚ) ^ (e + 1)))
    (h1 : x / 2 ^ (e - 52) = f + 1 / 2) (hn : n = if f % 2 = 0 then f else f + 1)
    (hy : y = n * 2 ^ (e - 52)) (hfin : -2 ^ 1024 < y ∧ y < 2 ^ 1024) :
    binary64.fl x = fin y :=
  binary64_fl_eq x y e n he hx (by rw [roundHalfEven_tie _ f h1, hn]) hy hfin

theorem binary64_fl_zero : binary64.fl 0 = fin 0 := by
  simp [binary64]

theorem binary64_fl_of_eq_zero (x : ℚ) (h : x = 0) : binary64.fl x = fin 0 := by
  rw [h, binary64_fl_zero]

end Binary64

section Binary64Order

theorem roundHalfEven_le (q : ℚ) : (roundHalfEven q : ℚ) ≤ q + 1 / 2 := by
  unfold roundHalfEven
  simp only
  have h1 := Int.floor_le q
  have h2 := Int.lt_floor_add_one q
  split_ifs <;> push_cast <;> linarith

theorem sub_half_le_roundHalfEven (q : ℚ) : q - 1 / 2 ≤ (roundHalfEven q : ℚ) := by
  unfold roundHalfEven
  simp only
  have h1 := Int.floor_le q
  have h2 := Int.lt_floor_add_one q
  split_ifs <;> push_cast <;> linarith

theorem roundHalfEven_mono {q q' : ℚ} (h : q ≤ q') : roundHalfEven q ≤ roundHalfEven q' := by
  rcases eq_or_lt_of_le h with h | h
  · rw [h]
  · have h1 := roundHalfEven_le q
    have h2 := sub_half_le_roundHalfEven q'
    have h3 : (roundHalfEven q : ℚ) < ((roundHalfEven q' + 1 : ℤ) : ℚ) := by
      push_cast; linarith
    have h4 : roundHalfEven q < roundHalfEven q' + 1 := by exact_mod_cast h3
    omega

theorem roundHalfEven_intCast (m : ℤ) : roundHalfEven (m : ℚ) = m :=
  roundHalfEven_of_lt _ _ (by linarith) (by linarith)

theorem binary64Ulp_pos (x : ℚ) : 0 < binary64Ulp x := by
  unfold binary64Ulp
  positivity

theorem two_zpow_succ (e : ℤ) : (2 : ℚ) ^ (e + 1) = 2 ^ 53 * 2 ^ (e - 52) := by
  rw [show e + 1 = 53 + (e - 52) by ring, zpow_add₀ (by norm_num : (2 : ℚ) ≠ 0)]
  norm_num

theorem two_zpow_self (e : ℤ) : (2 : ℚ) ^ e = 2 ^ 52 * 2 ^ (e - 52) := by
  rw [show e = 52 + (e - 52) by ring, zpow_add₀ (by norm_num : (2 : ℚ) ≠ 0)]
  norm_num

/-- A positive number below the top of its binade rounds to at most that top. -/
theorem binary64Nearest_le_top (x : ℚ) (h0 : 0 < x) :
    binary64Nearest x ≤ 2 ^ (Max.max (Int.log 2 |x|) (-1022) + 1) := by
  have hu := binary64Ulp_pos x
  have hlt : x < 2 ^ (Max.max (Int.log 2 |x|) (-1022) + 1) := by
    have h1 : |x| < ((2 : ℕ) : ℚ) ^ (Int.log 2 |x| + 1) := Int.lt_zpow_succ_log_self (by norm_num) _
    rw [abs_of_pos h0] at h1
    rw [abs_of_pos h0]
    refine lt_of_lt_of_le h1 ?_
    push_cast
    exact zpow_le_zpow_right₀ (by norm_num) (by omega)
  have hq : x / binary64Ulp x ≤ ((2 ^ 53 : ℤ) : ℚ) := by
    rw [div_le_iff₀ hu, Int.cast_pow, Int.cast_ofNat]
    unfold binary64Ulp
    rw [← two_zpow_succ]
    exact hlt.le
  have hn := roundHalfEven_mono hq
  rw [roundHalfEven_intCast] at hn
  have hn2 : (roundHalfEven (x / binary64Ulp x) : ℚ) ≤ 2 ^ 53 := by exact_mod_cast hn
  calc binary64Nearest x = roundHalfEven (x / binary64Ulp x) * binary64Ulp x := rfl
    _ ≤ 2 ^ 53 * binary64Ulp x := mul_le_mul_of_nonneg_right hn2 hu.le
    _ = 2 ^ (Max.max (Int.log 2 |x|) (-1022) + 1) := by
      unfold binary64Ulp
      rw [← two_zpow_succ]

/-- A number at or above the bottom of its binade rounds to at least that
bottom. -/
theorem binary64Nearest_ge_bottom (x : ℚ)
    (h : (2 : ℚ) ^ (Max.max (Int.log 2 |x|) (-1022)) ≤ x) :
    2 ^ (Max.max (Int.log 2 |x|) (-1022)) ≤ binary64Nearest x := by
  have hu := binary64Ulp_pos x
  have hq : (((2 : ℤ) ^ 52 : ℤ) : ℚ) ≤ x / binary64Ulp x := by
    rw [le_div_iff₀ hu, Int.cast_pow, Int.cast_ofNat]
    unfold binary64Ulp
    rw [← two_zpow_self]
    exact h
  have hn := roundHalfEven_mono hq
  rw [roundHalfEven_intCast] at hn
  have hn2 : (2 : ℚ) ^ 52 ≤ (roundHalfEven (x / binary64Ulp x) : ℚ) := by exact_mod_cast hn
  calc (2 : ℚ) ^ (Max.max (Int.log 2 |x|) (-1022))
      = 2 ^ 52 * binary64Ulp x := by
        unfold binary64Ulp
        rw [← two_zpow_self]
    _ ≤ roundHalfEven (x / binary64Ulp x) * binary64Ulp x :=
        mul_le_mul_of_nonneg_right hn2 hu.le
    _ = binary64Nearest x := rfl

theorem binary64Nearest_mono {x x' : ℚ} (h0 : 0 < x) (h : x ≤ x') :
    binary64Nearest x ≤ binary64Nearest x' := by
  have h0' : 0 < x' := lt_of_lt_of_le h0 h
  have hlog : Int.log 2 |x| ≤ Int.log 2 |x'| :=
    Int.log_mono_right (abs_pos.2 h0.ne') (by rw [abs_of_pos h0, abs_of_pos h0']; exact h)
  have hee : Max.max (Int.log 2 |x|) (-1022) ≤ Max.max (Int.log 2 |x'|) (-1022) :=
    max_le_max hlog le_rfl
  rcases eq_or_lt_of_le hee with heq | hlt
  · have hu : binary64Ulp x = binary64Ulp x' := by
      unfold binary64Ulp
      rw [heq]
    have hp := binary64Ulp_pos x'
    unfold binary64Nearest
    rw [hu]
    refine mul_le_mul_of_nonneg_right ?_ hp.le
    exact_mod_cast roundHalfEven_mono (div_le_div_of_nonneg_right h hp.le)
  · have hl' : Max.max (Int.log 2 |x'|) (-1022) = Int.log 2 |x'| := by
      rcases le_total (Int.log 2 |x'|) (-1022) with hc | hc
      · rw [max_eq_right hc] at hlt
        have := le_max_right (Int.log 2 |x|) (-1022)
        omega
      · exact max_eq_left hc
    have hb : (2 : ℚ) ^ (Max.max (Int.log 2 |x'|) (-1022)) ≤ x' := by
      rw [hl']
      have h1 : ((2 : ℕ) : ℚ) ^ Int.log 2 |x'| ≤ |x'| :=
        Int.zpow_log_le_self (by norm_num) (abs_pos.2 h0'.ne')
      rw [abs_of_pos h0'] at h1
      rw [abs_of_pos h0']
      exact_mod_cast h1
    calc binary64Nearest x ≤ 2 ^ (Max.max (Int.log 2 |x|) (-1022) + 1) :=
        binary64Nearest_le_top x h0
      _ ≤ 2 ^ (Max.max (Int.log 2 |x'|) (-1022)) :=
        zpow_le_zpow_right₀ (by norm_num) (by omega)
      _ ≤ binary64Nearest x' := binary64Nearest_ge_bottom x' hb

theorem binary64Nearest_zero : binary64Nearest 0 = 0 := by
  simp [binary64Nearest, roundHalfEven]

theorem binary64Nearest_nonneg {x : ℚ} (h0 : 0 ≤ x) : 0 ≤ binary64Nearest x := by
  have hu := binary64Ulp_pos x
  have hq : (((0 : ℤ) : ℤ) : ℚ) ≤ x / binary64Ulp x := by
    push_cast
    exact div_nonneg h0 hu.le
  have hn := roundHalfEven_mono hq
  rw [roundHalfEven_intCast] at hn
  have hn2 : (0 : ℚ) ≤ (roundHalfEven (x / binary64Ulp x) : ℚ) := by exact_mod_cast hn
  exact mul_nonneg hn2 hu.le

theorem binary64Nearest_nonpos {x : ℚ} (h0 : x ≤ 0) : binary64Nearest x ≤ 0 := by
  have hu := binary64Ulp_pos x
  have hq : x / binary64Ulp x ≤ (((0 : ℤ) : ℤ) : ℚ) := by
    push_cast
    exact div_nonpos_of_nonpos_of_nonneg h0 hu.le
  have hn := roundHalfEven_mono hq
  rw [roundHalfEven_intCast] at hn
  have hn2 : (roundHalfEven (x / binary64Ulp x) : ℚ) ≤ 0 := by exact_mod_cast hn
  exact mul_nonpos_of_nonpos_of_nonneg hn2 hu.le

/-- A power of two from the least normal one on is a binary64 number. -/
theorem binary64Nearest_two_zpow (k : ℤ) (hk : -1022 ≤ k) :
    binary64Nearest ((2 : ℚ) ^ k) = 2 ^ k := by
  have hpos : (0 : ℚ) < 2 ^ k := by positivity
  have hlog : Int.log 2 |(2 : ℚ) ^ k| = k := by
    rw [abs_of_pos hpos]
    have := Int.log_zpow (R := ℚ) (b := 2) (by norm_num) k
    exact_mod_cast this
  have hu : binary64Ulp ((2 : ℚ) ^ k) = 2 ^ (k - 52) := by
    unfold binary64Ulp
    rw [hlog, max_eq_left hk]
  have hq : (2 : ℚ) ^ k / 2 ^ (k - 52) = (((2 : ℤ) ^ 52 : ℤ) : ℚ) := by
    rw [div_eq_iff (by positivity)]
    push_cast
    exact two_zpow_self k
  unfold binary64Nearest
  rw [hu, hq, roundHalfEven_intCast]
  push_cast
  exact (two_zpow_self k).symm

/-- Every binary64 number is a multiple of two to the power -1074. -/
theorem binary64Nearest_grid (x : ℚ) : ∃ m : ℤ, binary64Nearest x = m * 2 ^ (-1074 : ℤ) := by
  obtain ⟨j, hj⟩ : ∃ j : ℕ, Max.max (Int.log 2 |x|) (-1022) - 52 = (j : ℤ) + (-1074) :=
    ⟨(Max.max (Int.log 2 |x|) (-1022) + 1022).toNat, by
      have := le_max_right (Int.log 2 |x|) (-1022)
      omega⟩
  refine ⟨roundHalfEven (x / binary64Ulp x) * 2 ^ j, ?_⟩
  unfold binary64Nearest
  rw [show binary64Ulp x = 2 ^ ((j : ℤ) + (-1074)) by unfold binary64Ulp; rw [hj],
    zpow_add₀ (by norm_num : (2 : ℚ) ≠ 0), zpow_natCast]
  push_cast
  ring

/-- The least positive binary64 number is a lower bound of the rounding of
every number from it on. -/
theorem binary64Nearest_pos {x : ℚ} (h : (2 : ℚ) ^ (-1074 : ℤ) ≤ x) : 0 < binary64Nearest x := by
  have h0 : (0 : ℚ) < 2 ^ (-1074 : ℤ) := by positivity
  have hx : 0 < x := lt_of_lt_of_le h0 h
  have hu := binary64Ulp_pos x
  have hq : (((1 : ℤ) : ℤ) : ℚ) ≤ x / binary64Ulp x := by
    rw [le_div_iff₀ hu]
    push_cast
    rw [one_mul]
    rcases le_total (Int.log 2 |x|) (-1022) with hc | hc
    · unfold binary64Ulp
      rw [max_eq_right hc]
      exact h
    · unfold binary64Ulp
      rw [max_eq_left hc]
      have h1 : ((2 : ℕ) : ℚ) ^ Int.log 2 |x| ≤ |x| :=
        Int.zpow_log_le_self (by norm_num) (abs_pos.2 hx.ne')
      rw [abs_of_pos hx] at h1
      rw [abs_of_pos hx]
      refine le_trans ?_ (by exact_mod_cast h1)
      exact zpow_le_zpow_right₀ (by norm_num) (by omega)
  have hn := roundHalfEven_mono hq
  rw [roundHalfEven_intCast] at hn
  have hn2 : (1 : ℚ) ≤ (roundHalfEven (x / binary64Ulp x) : ℚ) := by exact_mod_cast hn
  exact mul_pos (by linarith) hu

theorem binary64_fl_of_nonneg (x : ℚ) (k : ℕ) (hk : k ≤ 1023) (h0 : 0 ≤ x) (hb : x ≤ 2 ^ k) :
    binary64.fl x = fin (binary64Nearest x) ∧ 0 ≤ binary64Nearest x ∧
      binary64Nearest x ≤ 2 ^ k := by
  have hn0 := binary64Nearest_nonneg h0
  have hnk : binary64Nearest x ≤ 2 ^ k := by
    rcases eq_or_lt_of_le h0 with h | h
    · rw [← h, binary64Nearest_zero]
      positivity
    · have h1 := binary64Nearest_mono h hb
      have h2 := binary64Nearest_two_zpow (k : ℤ) (by omega)
      rw [zpow_natCast] at h2
      rwa [h2] at h1
  refine ⟨?_, hn0, hnk⟩
  rcases eq_or_lt_of_le h0 with h | h
  · rw [← h, binary64Nearest_zero, binary64_fl_zero]
  · have hlt : ¬ (2 : ℚ) ^ 1024 ≤ |binary64Nearest x| := by
      rw [abs_of_nonneg hn0, not_le]
      calc binary64Nearest x ≤ 2 ^ k := hnk
        _ ≤ 2 ^ 1023 := pow_le_pow_right₀ (by norm_num) hk
        _ < 2 ^ 1024 := by norm_num
    simp only [binary64, if_neg h.ne', if_neg hlt]

/-- The binary64 rounding is monotone on the numbers from 0 to a power of two
below the overflow threshold, and keeps them in that range. -/
theorem binary64_fl_mono (x x' : ℚ) (k : ℕ) (hk : k ≤ 1023) (h0 : 0 ≤ x) (h : x ≤ x')
    (hb : x' ≤ 2 ^ k) :
    ∃ y y' : ℚ, binary64.fl x = fin y ∧ binary64.fl x' = fin y' ∧ 0 ≤ y ∧ y ≤ y' ∧
      y' ≤ 2 ^ k := by
  obtain ⟨e1, n1, _⟩ := binary64_fl_of_nonneg x k hk h0 (h.trans hb)
  obtain ⟨e2, _, b2⟩ := binary64_fl_of_nonneg x' k hk (h0.trans h) hb
  refine ⟨_, _, e1, e2, n1, ?_, b2⟩
  rcases eq_or_lt_of_le h0 with hz | hz
  · rw [← hz, binary64Nearest_zero]
    exact binary64Nearest_nonneg (h0.trans h)
  · exact binary64Nearest_mono hz h

theorem binary64_fl_grid (x y : ℚ) (h : binary64.fl x = fin y) :
    ∃ m : ℤ, y = m * 2 ^ (-1074 : ℤ) := by
  simp only [binary64] at h
  split_ifs at h
  · exact ⟨0, by rw [← JSNum.fin.inj h]; simp⟩
  · rw [← JSNum.fin.inj h]
    exact binary64Nearest_grid x

/-- The sign of a binary64 difference of two binary64 numbers is the sign of the
exact difference: a difference that is not zero does not round to zero. -/
theorem binary64_sub_gt (x y : ℚ) (gx : ∃ m : ℤ, x = m * 2 ^ (-1074 : ℤ))
    (gy : ∃ m : ℤ, y = m * 2 ^ (-1074 : ℤ)) :
    gt (binary64.sub (fin x) (fin y)) (fin 0) = false ↔ x ≤ y := by
  rw [sub_fin_fin]
  constructor
  · intro h
    by_contra hlt
    rw [not_le] at hlt
    obtain ⟨m, hm⟩ := gx
    obtain ⟨n, hn⟩ := gy
    have hp : (0 : ℚ) < 2 ^ (-1074 : ℤ) := by positivity
    have hmn : n < m := by
      by_contra hc
      rw [not_lt] at hc
      have h1 : (m : ℚ) ≤ n := by exact_mod_cast hc
      have h2 := mul_le_mul_of_nonneg_right h1 hp.le
      rw [← hm, ← hn] at h2
      linarith
    have h1 : (2 : ℚ) ^ (-1074 : ℤ) ≤ x - y := by
      rw [hm, hn, ← sub_mul]
      have h2 : (1 : ℚ) ≤ m - n := by exact_mod_cast (by omega : (1 : ℤ) ≤ m - n)
      have h3 := mul_le_mul_of_nonneg_right h2 hp.le
      rwa [one_mul] at h3
    have hN := binary64Nearest_pos h1
    have hne : x - y ≠ 0 := by linarith
    simp only [binary64, if_neg hne] at h
    split_ifs at h with ha hb
    · simp [gt, lt] at h
    · exact hb (by linarith)
    · simp [gt, lt] at h
      linarith
  · intro hle
    rcases eq_or_lt_of_le hle with he | hl
    · rw [he, sub_self, binary64_fl_zero]
      simp [gt, lt]
    · have hN := binary64Nearest_nonpos (by linarith : x - y ≤ 0)
      have hne : x - y ≠ 0 := by linarith
      simp only [binary64, if_neg hne]
      split_ifs with ha hb
      · exact absurd hb (by linarith)
      · simp [gt, lt]
      · simpa [gt, lt] using hN

end Binary64Order

section ConverterOrder

variable {K : Type} [LinearOrderedField K]

theorem stays_before_iff (a b : ModeResult K) (x y : K) (ha : a.emission = some (fin x))
    (hb : b.emission = some (fin y)) :
    gt (compareEmission exactArith a b) (fin 0) = false ↔ x ≤ y := by
  simp [compareEmission, ha, hb, gt, lt]

theorem mem_sortWith {α : Type} (cmp : α → α → JSNum K) (l : List α) (x : α) :
    x ∈ sortWith cmp l ↔ x ∈ l :=
  (List.perm_insertionSort _ l).mem_iff

theorem sortWith_four_of {α : Type} (cmp : α → α → JSNum K) (B C U T : α) (p : Prop)
    [Decidable p] (hUT : gt (cmp U T) (fin 0) = false) (hCT : gt (cmp C T) (fin 0) = false)
    (hBC : gt (cmp B C) (fin 0) = false) (hBU : gt (cmp B U) (fin 0) = false)
    (hCU : gt (cmp C U) (fin 0) = false ↔ p) :
    sortWith cmp [B, C, U, T] = if p then [B, C, U, T] else [B, U, C, T] := by
  by_cases h : p
  · simp [sortWith, List.insertionSort, List.orderedInsert, hUT, hCT, hBC, hBU, hCU.mpr h, h]
  · have hn : ¬ gt (cmp C U) (fin 0) = false := fun hh => h (hCU.mp hh)
    simp [sortWith, List.insertionSort, List.orderedInsert, hUT, hCT, hBC, hBU, hn, h]

theorem sortWith_four (B C U T : ModeResult K) (b c u t : K)
    (hB : B.emission = some (fin b)) (hC : C.emission = some (fin c))
    (hU : U.emission = some (fin u)) (hT : T.emission = some (fin t))
    (hbu : b ≤ u) (huc : u ≤ c) (hct : c ≤ t) :
    sortWith (compareEmission exactArith) [B, C, U, T] =
      if c ≤ u then [B, C, U, T] else [B, U, C, T] :=
  sortWith_four_of _ B C U T (c ≤ u)
    ((stays_before_iff U T u t hU hT).mpr (huc.trans hct))
    ((stays_before_iff C T c t hC hT).mpr hct)
    ((stays_before_iff B C b c hB hC).mpr (hbu.trans huc))
    ((stays_before_iff B U b u hB hU).mpr hbu)
    (stays_before_iff C U c u hC hU)

theorem safeNumber_number (x : JSNum K) (hx : x ≠ nan) : safeNumber (Value.number x) = x := by
  cases x with
  | nan => exact absurd rfl hx
  | ninf => rfl
  | fin v => rfl
  | pinf => rfl

theorem safeNumber_fin (x : K) : safeNumber (Value.number (fin x)) = fin x := rfl

theorem safeNumber_eq_zero_iff (b : Value K) :
    safeNumber b = fin 0 ↔
      (b = Value.undefined ∨ b = Value.null ∨ b = Value.number nan ∨ b = Value.number (fin 0)) := by
  cases b with
  | undefined => simp [safeNumber, toNumber, isNaN]
  | null => simp [safeNumber, toNumber, isNaN]
  | number x => cases x <;> simp [safeNumber, toNumber, isNaN]

end ConverterOrder

section Converter

variable {K : Type} [LinearOrderedField K] [FloorRing K]

theorem round_fin (x : K) (n : ℕ) : round exactArith (fin x) n = fin (roundFin x n) := by
  simp [round, roundFin, EPSILON, mathRound, fin_div_fin]

/-- The value of `round` on a finite value, from the values of its steps. -/
theorem round_eval (R : Rounding K) (v v1 v2 : K) (k : ℤ) (n : ℕ)
    (h1 : R.fl (v + 1 / 2 ^ 52) = fin v1) (h2 : R.fl (v1 * 10 ^ n) = fin v2)
    (h3 : ⌊v2 + 1 / 2⌋ = k) : round R (fin v) n = R.fl ((k : K) / 10 ^ n) := by
  have hp : (10 : K) ^ n ≠ 0 := by positivity
  simp only [round, EPSILON, add_fin_fin, h1, mul_fin_fin, h2, mathRound, h3,
    div_fin_fin _ _ _ hp]

theorem round_nan (R : Rounding K) (n : ℕ) : round R nan n = nan := by
  simp [round, mathRound]

theorem calculateEmission_bicycle (R : Rounding K) (d : Value K) :
    calculateEmission R CONFIG d "bicycle" = some (round R (R.mul (safeNumber d) (R.fl 0)) 2) := by
  simp [calculateEmission, objectGet, CONFIG, List.lookup, factorToNumber]

theorem calculateEmission_car (R : Rounding K) (d : Value K) :
    calculateEmission R CONFIG d "car" = some (round R (R.mul (safeNumber d) (R.fl 0.12)) 2) := by
  simp [calculateEmission, objectGet, CONFIG, List.lookup, factorToNumber]

theorem calculateEmission_bus (R : Rounding K) (d : Value K) :
    calculateEmission R CONFIG d "bus" = some (round R (R.mul (safeNumber d) (R.fl 0.089)) 2) := by
  simp [calculateEmission, objectGet, CONFIG, List.lookup, factorToNumber]

theorem calculateEmission_truck (R : Rounding K) (d : Value K) :
    calculateEmission R CONFIG d "truck" = some (round R (R.mul (safeNumber d) (R.fl 0.96)) 2) := by
  simp [calculateEmission, objectGet, CONFIG, List.lookup, factorToNumber]

theorem calculateEmission_unknown (R : Rounding K) (d : Value K) :
    calculateEmission R CONFIG d "unknown-mode" = none := by
  simp [calculateEmission, objectGet, CONFIG, List.lookup, objectPrototypeKeys]

/-- The value of `calculateEmission` for a finite distance and a factor, from
the values of its steps. -/
theorem calculateEmission_eval (R : Rounding K) (mode : String) (f d c m : K)
    (hmode : ∀ v : Value K,
      calculateEmission R CONFIG v mode = some (round R (R.mul (safeNumber v) (R.fl f)) 2))
    (h1 : R.fl f = fin c) (h2 : R.fl (d * c) = fin m) :
    calculateEmission R CONFIG (Value.number (fin d)) mode = some (round R (fin m) 2) := by
  rw [hmode, safeNumber_fin, h1, mul_fin_fin, h2]

theorem calculateAllModes_eq (R : Rounding K) (d : Value K) :
    calculateAllModes R CONFIG d = sortWith (compareEmission R)
      [modeEntry R d "bicycle", modeEntry R d "car", modeEntry R d "bus",
        modeEntry R d "truck"] := by
  simp [calculateAllModes, modeEntry, pctVsCar, CONFIG, List.foldl]

/-- The value of `percentageVsCar` for finite emissions, from the values of its
steps. -/
theorem pctVsCar_eval (R : Rounding K) (e c q p : K) (hc : c ≠ 0)
    (h1 : R.fl (e / c) = fin q) (h2 : R.fl (q * 100) = fin p) :
    pctVsCar R (some (fin c)) (some (fin e)) = some (round R (fin p) 2) := by
  have hc2 : (fin c : JSNum K) ≠ fin 0 := by simpa using hc
  simp only [pctVsCar, hc2, ne_eq, not_false_eq_true, if_true, div_fin_fin _ _ _ hc, h1,
    mul_fin_fin, h2]

theorem roundFin_eq (x : K) (n : ℕ) (m : ℤ) (h1 : (m : K) ≤ (x + 1 / 2 ^ 52) * 10 ^ n + 1 / 2)
    (h2 : (x + 1 / 2 ^ 52) * 10 ^ n + 1 / 2 < m + 1) : roundFin x n = m / 10 ^ n := by
  unfold roundFin
  rw [Int.floor_eq_iff.mpr ⟨h1, h2⟩]

theorem roundFin_mono (n : ℕ) {x y : K} (h : x ≤ y) : roundFin x n ≤ roundFin y n := by
  unfold roundFin
  have hp : (0 : K) < 10 ^ n := by positivity
  apply div_le_div_of_nonneg_right _ hp.le
  have hxy : (x + 1 / 2 ^ 52) * 10 ^ n + 1 / 2 ≤ (y + 1 / 2 ^ 52) * 10 ^ n + 1 / 2 := by nlinarith
  exact_mod_cast Int.floor_le_floor hxy

theorem roundFin_zero_two : roundFin (0 : K) 2 = 0 := by
  rw [roundFin_eq 0 2 0 (by norm_num) (by norm_num)]
  simp

theorem roundFin_zero_four : roundFin (0 : K) 4 = 0 := by
  rw [roundFin_eq 0 4 0 (by norm_num) (by norm_num)]
  simp

theorem modeEntry_emission_fin (q f : K) (mode : String)
    (h : ∀ d : Value K, calculateEmission exactArith CONFIG d mode =
      some (round exactArith (exactArith.mul (safeNumber d) (exactArith.fl f)) 2)) :
    (modeEntry exactArith (Value.number (fin q)) mode).emission =
      some (fin (roundFin (q * f) 2)) := by
  simp [modeEntry, h, safeNumber, toNumber, isNaN, round_fin]


theorem allModesOrdered_of (R : Rounding K) (d : Value K) (u c t : K)
    (hB : (modeEntry R d "bicycle").emission = some (fin 0))
    (hC : (modeEntry R d "car").emission = some (fin c))
    (hU : (modeEntry R d "bus").emission = some (fin u))
    (hT : (modeEntry R d "truck").emission = some (fin t))
    (h1 : 0 ≤ u) (h2 : u ≤ c) (h3 : c ≤ t)
    (hs : sortWith (compareEmission R)
        [modeEntry R d "bicycle", modeEntry R d "car", modeEntry R d "bus",
          modeEntry R d "truck"] =
      if c ≤ u then
        [modeEntry R d "bicycle", modeEntry R d "car", modeEntry R d "bus", modeEntry R d "truck"]
      else
        [modeEntry R d "bicycle", modeEntry R d "bus", modeEntry R d "car",
          modeEntry R d "truck"]) :
    AllModesOrdered (calculateAllModes R CONFIG d) := by
  rw [calculateAllModes_eq, hs]
  unfold AllModesOrdered
  split_ifs with h
  · refine ⟨by simp [modeEntry], ?_, ⟨_, rfl, rfl, hB⟩, ⟨_, rfl, rfl⟩⟩
    simp only [List.pairwise_cons, List.mem_cons, List.mem_singleton, forall_eq_or_imp, forall_eq,
      List.not_mem_nil, false_implies, implies_true, List.Pairwise.nil, and_true]
    exact ⟨⟨⟨_, _, hB, hC, h1.trans h2⟩, ⟨_, _, hB, hU, h1⟩, ⟨_, _, hB, hT, (h1.trans h2).trans h3⟩⟩,
      ⟨⟨_, _, hC, hU, h⟩, ⟨_, _, hC, hT, h3⟩⟩, ⟨_, _, hU, hT, h2.trans h3⟩⟩
  · refine ⟨?_, ?_, ⟨_, rfl, rfl, hB⟩, ⟨_, rfl, rfl⟩⟩
    · simp only [modeEntry, List.map_cons, List.map_nil]
      decide
    simp only [List.pairwise_cons, List.mem_cons, List.mem_singleton, forall_eq_or_imp, forall_eq,
      List.not_mem_nil, false_implies, implies_true, List.Pairwise.nil, and_true]
    exact ⟨⟨⟨_, _, hB, hU, h1⟩, ⟨_, _, hB, hC, h1.trans h2⟩, ⟨_, _, hB, hT, (h1.trans h2).trans h3⟩⟩,
      ⟨⟨_, _, hU, hC, h2⟩, ⟨_, _, hU, hT, h2.trans h3⟩⟩, ⟨_, _, hC, hT, h3⟩⟩

theorem stays_before_iff_binary64 (a b : ModeResult ℚ) (x y : ℚ)
    (ha : a.emission = some (fin x)) (hb : b.emission = some (fin y))
    (gx : ∃ m : ℤ, x = m * 2 ^ (-1074 : ℤ)) (gy : ∃ m : ℤ, y = m * 2 ^ (-1074 : ℤ)) :
    gt (compareEmission binary64 a b) (fin 0) = false ↔ x ≤ y := by
  simp only [compareEmission, ha, hb]
  exact binary64_sub_gt x y gx gy

/-- In binary64 arithmetic `round(v, 2)` is monotone on the values from 0 to two
to the power 1000, where nothing overflows. -/
theorem round_binary64_mono (v v' : ℚ) (h0 : 0 ≤ v) (h : v ≤ v') (hb : v' ≤ 2 ^ 1000) :
    ∃ y y' : ℚ, round binary64 (fin v) 2 = fin y ∧ round binary64 (fin v') 2 = fin y' ∧
      0 ≤ y ∧ y ≤ y' ∧ (∃ m : ℤ, y = m * 2 ^ (-1074 : ℤ)) ∧
      (∃ m : ℤ, y' = m * 2 ^ (-1074 : ℤ)) := by
  have e1 : (2 : ℚ) ^ 1001 = 2 ^ 1000 * 2 := by
    rw [show (1001 : ℕ) = 1000 + 1 from rfl, pow_succ]
  have e2 : (2 : ℚ) ^ 1008 = 2 ^ 1001 * 128 := by
    rw [show (1008 : ℕ) = 1001 + 7 from rfl, pow_add]
    norm_num
  have e3 : (1 : ℚ) ≤ 2 ^ 1000 := one_le_pow₀ (by norm_num)
  have e4 : (1 : ℚ) / 2 ^ 52 ≤ 1 := by norm_num
  have e5 : (0 : ℚ) ≤ 1 / 2 ^ 52 := by positivity
  have hp : (0 : ℚ) < 10 ^ 2 := by norm_num
  have hp2 : (10 : ℚ) ^ 2 ≤ 128 := by norm_num
  obtain ⟨a, a', ha, ha', a0, aa, ab⟩ := binary64_fl_mono (v + 1 / 2 ^ 52) (v' + 1 / 2 ^ 52)
    1001 (by norm_num) (add_nonneg h0 e5) (add_le_add_right h _)
    (by rw [e1, mul_two]; exact add_le_add hb (e4.trans e3))
  obtain ⟨s, s', hs, hs', s0, ss, sb⟩ := binary64_fl_mono (a * 10 ^ 2) (a' * 10 ^ 2)
    1008 (by norm_num) (mul_nonneg a0 hp.le) (mul_le_mul_of_nonneg_right aa hp.le)
    (by rw [e2]; exact mul_le_mul ab hp2 hp.le (by positivity))
  have k0 : (0 : ℤ) ≤ ⌊s + 1 / 2⌋ := Int.floor_nonneg.mpr (add_nonneg s0 (by norm_num))
  have kk : ⌊s + 1 / 2⌋ ≤ ⌊s' + 1 / 2⌋ := Int.floor_le_floor (add_le_add_right ss _)
  have kb : ((⌊s' + 1 / 2⌋ : ℤ) : ℚ) ≤ s' + 1 / 2 := Int.floor_le _
  have k0q : (0 : ℚ) ≤ ((⌊s + 1 / 2⌋ : ℤ) : ℚ) := by exact_mod_cast k0
  have kkq : ((⌊s + 1 / 2⌋ : ℤ) : ℚ) ≤ ((⌊s' + 1 / 2⌋ : ℤ) : ℚ) := by exact_mod_cast kk
  have s1 : (1 : ℚ) ≤ 2 ^ 1008 := one_le_pow₀ (by norm_num)
  have kb2 : ((⌊s' + 1 / 2⌋ : ℤ) : ℚ) ≤ 2 ^ 1008 * 10 ^ 2 := by
    have h3 : s' + 1 / 2 ≤ 2 ^ 1008 + 2 ^ 1008 := add_le_add sb (le_trans (by norm_num) s1)
    have h4 : (2 : ℚ) ^ 1008 + 2 ^ 1008 = 2 ^ 1008 * 2 := (mul_two _).symm
    have h5 : (2 : ℚ) ^ 1008 * 2 ≤ 2 ^ 1008 * 10 ^ 2 :=
      mul_le_mul_of_nonneg_left (by norm_num) (by positivity)
    exact kb.trans (h3.trans (h4.le.trans h5))
  obtain ⟨y, y', hy, hy', y0, yy, _⟩ := binary64_fl_mono
    (((⌊s + 1 / 2⌋ : ℤ) : ℚ) / 10 ^ 2) (((⌊s' + 1 / 2⌋ : ℤ) : ℚ) / 10 ^ 2) 1008 (by norm_num)
    (div_nonneg k0q hp.le) (div_le_div_of_nonneg_right kkq hp.le)
    (by rw [div_le_iff₀ hp]; exact kb2)
  exact ⟨y, y', by rw [round_eval binary64 v a s _ 2 ha hs rfl, hy],
    by rw [round_eval binary64 v' a' s' _ 2 ha' hs' rfl, hy'], y0, yy,
    binary64_fl_grid _ _ hy, binary64_fl_grid _ _ hy'⟩

theorem round_binary64_zero : round binary64 (fin 0) 2 = fin 0 := by
  have h1 : binary64.fl (0 + 1 / 2 ^ 52) = fin 0.0000000000000002220446049250313080847263336181640625 :=
    binary64_fl_of_lt _ _ (-52) (4503599627370496) (by norm_num) (by norm_num) (by norm_num) (by norm_num)
      (by norm_num) (by norm_num)
  have h2 : binary64.fl (0.0000000000000002220446049250313080847263336181640625 * 10 ^ 2) = fin 0.00000000000002220446049250313080847263336181640625 :=
    binary64_fl_of_lt _ _ (-46) (7036874417766400) (by norm_num) (by norm_num) (by norm_num) (by norm_num)
      (by norm_num) (by norm_num)
  have h3 : ⌊(0.00000000000002220446049250313080847263336181640625 : ℚ) + 1 / 2⌋ = 0 := by
    rw [Int.floor_eq_iff]; constructor <;> norm_num
  rw [round_eval binary64 _ _ _ _ 2 h1 h2 h3]
  exact binary64_fl_of_eq_zero _ (by norm_num)

/-- The four emissions of `calculateAllModes` in binary64 arithmetic, for a
distance from 0 to two to the power 1000: finite binary64 numbers in the order
of the factors. -/
theorem emissions_binary64 (d : ℚ) (h0 : 0 ≤ d) (hb : d ≤ 2 ^ 1000) :
    ∃ u c t : ℚ,
      calculateEmission binary64 CONFIG (Value.number (fin d)) "bicycle" = some (fin 0) ∧
      calculateEmission binary64 CONFIG (Value.number (fin d)) "bus" = some (fin u) ∧
      calculateEmission binary64 CONFIG (Value.number (fin d)) "car" = some (fin c) ∧
      calculateEmission binary64 CONFIG (Value.number (fin d)) "truck" = some (fin t) ∧
      0 ≤ u ∧ u ≤ c ∧ c ≤ t ∧
      (∃ m : ℤ, u = m * 2 ^ (-1074 : ℤ)) ∧ (∃ m : ℤ, c = m * 2 ^ (-1074 : ℤ)) ∧
      (∃ m : ℤ, t = m * 2 ^ (-1074 : ℤ)) := by
  have fU : binary64.fl (0.089) = fin 0.0889999999999999957811525064244051463901996612548828125 :=
    binary64_fl_of_lt _ _ (-4) (6413125869375586) (by norm_num) (by norm_num) (by norm_num) (by norm_num)
      (by norm_num) (by norm_num)
  have fC : binary64.fl (0.12) = fin 0.11999999999999999555910790149937383830547332763671875 :=
    binary64_fl_of_lt _ _ (-4) (8646911284551352) (by norm_num) (by norm_num) (by norm_num) (by norm_num)
      (by norm_num) (by norm_num)
  have fT : binary64.fl (0.96) = fin 0.95999999999999996447286321199499070644378662109375 :=
    binary64_fl_of_lt _ _ (-1) (8646911284551352) (by norm_num) (by norm_num) (by norm_num) (by norm_num)
      (by norm_num) (by norm_num)
  obtain ⟨pu, pc, hpu, hpc, pu0, puc, _⟩ := binary64_fl_mono
    (d * 0.0889999999999999957811525064244051463901996612548828125)
    (d * 0.11999999999999999555910790149937383830547332763671875) 1000 (by norm_num)
    (mul_nonneg h0 (by norm_num)) (mul_le_mul_of_nonneg_left (by norm_num) h0)
    ((mul_le_of_le_one_right h0 (by norm_num)).trans hb)
  obtain ⟨pc', pt, hpc', hpt, _, pct, ptb⟩ := binary64_fl_mono
    (d * 0.11999999999999999555910790149937383830547332763671875)
    (d * 0.95999999999999996447286321199499070644378662109375) 1000 (by norm_num)
    (mul_nonneg h0 (by norm_num)) (mul_le_mul_of_nonneg_left (by norm_num) h0)
    ((mul_le_of_le_one_right h0 (by norm_num)).trans hb)
  have epc : pc' = pc := JSNum.fin.inj (hpc'.symm.trans hpc)
  rw [epc] at pct
  have pc0 : 0 ≤ pc := pu0.trans puc
  obtain ⟨u, c, hu, hc, u0, uc, gU, gC⟩ := round_binary64_mono pu pc pu0 puc (pct.trans ptb)
  obtain ⟨c', t, hc', ht, _, ct, _, gT⟩ := round_binary64_mono pc pt pc0 pct ptb
  have ec : c' = c := JSNum.fin.inj (hc'.symm.trans hc)
  rw [ec] at ct
  refine ⟨u, c, t, ?_, ?_, ?_, ?_, u0, uc, ct, gU, gC, gT⟩
  · rw [calculateEmission_eval binary64 "bicycle" 0 d 0 0 (calculateEmission_bicycle binary64)
      binary64_fl_zero (binary64_fl_of_eq_zero _ (by norm_num)), round_binary64_zero]
  · rw [calculateEmission_eval binary64 "bus" 0.089 d _ pu (calculateEmission_bus binary64)
      fU hpu, hu]
  · rw [calculateEmission_eval binary64 "car" 0.12 d _ pc (calculateEmission_car binary64)
      fC hpc, hc]
  · rw [calculateEmission_eval binary64 "truck" 0.96 d _ pt (calculateEmission_truck binary64)
      fT hpt, ht]

/-- The order of `calculateAllModes` in binary64 arithmetic, for a distance from
0 to two to the power 1000. -/
theorem calculateAllModes_ordered_binary64 (d : ℚ) (h0 : 0 ≤ d) (hb : d ≤ 2 ^ 1000) :
    AllModesOrdered (calculateAllModes binary64 CONFIG (Value.number (fin d))) := by
  obtain ⟨u, c, t, hB, hU, hC, hT, u0, uc, ct, gU, gC, gT⟩ := emissions_binary64 d h0 hb
  have g0 : ∃ m : ℤ, (0 : ℚ) = m * 2 ^ (-1074 : ℤ) := ⟨0, by simp⟩
  exact allModesOrdered_of binary64 _ u c t hB hC hU hT u0 uc ct
    (sortWith_four_of _ _ _ _ _ (c ≤ u)
      ((stays_before_iff_binary64 _ _ u t hU hT gU gT).mpr (uc.trans ct))
      ((stays_before_iff_binary64 _ _ c t hC hT gC gT).mpr ct)
      ((stays_before_iff_binary64 _ _ 0 c hB hC g0 gC).mpr (u0.trans uc))
      ((stays_before_iff_binary64 _ _ 0 u hB hU g0 gU).mpr u0)
      (stays_before_iff_binary64 _ _ c u hC hU gC gU))

theorem mathRound_ne_nan (a : JSNum K) (h : a ≠ nan) : mathRound a ≠ nan := by
  cases a with
  | nan => exact absurd rfl h
  | fin v => simp [mathRound]
  | pinf => simp [mathRound]
  | ninf => simp [mathRound]

theorem binary64_fl_ne_nan (x : ℚ) : binary64.fl x ≠ nan := by
  simp only [binary64]
  split_ifs <;> simp

theorem binary64_rnd_ne_nan (v : JSNum ℚ) (h : v ≠ nan) : binary64.rnd v ≠ nan := by
  cases v with
  | nan => exact absurd rfl h
  | fin x => exact binary64_fl_ne_nan x
  | pinf => simp [Rounding.rnd]
  | ninf => simp [Rounding.rnd]

/-- In binary64 arithmetic `round` gives `NaN` for no other value than `NaN`. -/
theorem round_binary64_ne_nan (v : JSNum ℚ) (n : ℕ) (h : v ≠ nan) :
    round binary64 v n ≠ nan := by
  have hp : (10 : ℚ) ^ n ≠ 0 := by positivity
  unfold round Rounding.div Rounding.mul Rounding.add EPSILON
  exact binary64_rnd_ne_nan _ (div_fin_ne_nan _ _ hp (mathRound_ne_nan _
    (binary64_rnd_ne_nan _ (mul_fin_ne_nan _ _ hp (binary64_rnd_ne_nan _
      (add_fin_ne_nan _ _ h))))))


/-- A number from two to the power 1024 on overflows to `Infinity`. -/
theorem binary64_fl_pinf (x : ℚ) (hx : 2 ^ 1024 ≤ x) : binary64.fl x = pinf := by
  have hp : (0 : ℚ) < 2 ^ 1024 := by positivity
  have h0 : 0 < x := lt_of_lt_of_le hp hx
  have h1 := binary64Nearest_mono hp hx
  have h2 := binary64Nearest_two_zpow 1024 (by norm_num)
  rw [show (2 : ℚ) ^ (1024 : ℤ) = 2 ^ 1024 from zpow_natCast 2 1024] at h2
  rw [h2] at h1
  have h3 : (2 : ℚ) ^ 1024 ≤ |binary64Nearest x| := h1.trans (le_abs_self _)
  simp only [binary64, if_neg h0.ne', if_pos h3, if_pos h0]

/-- The value of `round(v, 2)` when the scaled value overflows. -/
theorem round_overflow (v a : ℚ) (h4 : binary64.fl (v + 1 / 2 ^ 52) = fin a)
    (h5 : binary64.fl (a * 10 ^ 2) = pinf) : round binary64 (fin v) 2 = pinf := by
  simp only [round, EPSILON, add_fin_fin, h4, mul_fin_fin, h5, mathRound, Rounding.div,
    Rounding.rnd, div_def, JSNum.div]
  simp [signedInf]

/-- In binary64 arithmetic the emission of a car over two to the power 1023
kilometres (about 9e307) overflows: `calculateEmission` returns `Infinity`. -/
theorem calculateEmission_overflow_binary64 :
    calculateEmission binary64 CONFIG (Value.number (fin (2 ^ 1023))) "car" = some pinf := by
  have h2 : binary64.fl (0.12) = fin 0.11999999999999999555910790149937383830547332763671875 :=
    binary64_fl_of_lt _ _ (-4) (8646911284551352) (by norm_num) (by norm_num) (by norm_num) (by norm_num)
      (by norm_num) (by norm_num)
  have h3 : binary64.fl (2 ^ 1023 * 0.11999999999999999555910790149937383830547332763671875) =
      fin (2 ^ 1023 * 0.11999999999999999555910790149937383830547332763671875) :=
    binary64_fl_of_lt _ _ 1019 (8646911284551352) (by norm_num) (by norm_num) (by norm_num)
      (by norm_num) (by norm_num) (by norm_num)
  have h4 : binary64.fl (2 ^ 1023 * 0.11999999999999999555910790149937383830547332763671875 +
      1 / 2 ^ 52) = fin (2 ^ 1023 * 0.11999999999999999555910790149937383830547332763671875) :=
    binary64_fl_of_lt _ _ 1019 (8646911284551352) (by norm_num) (by norm_num) (by norm_num)
      (by norm_num) (by norm_num) (by norm_num)
  have h5 : binary64.fl (2 ^ 1023 * 0.11999999999999999555910790149937383830547332763671875 *
      10 ^ 2) = pinf :=
    binary64_fl_pinf _ (by norm_num)
  rw [calculateEmission_eval binary64 "car" 0.12 _ _ _ (calculateEmission_car binary64) h2 h3]
  exact congrArg some (round_overflow _ _ h4 h5)

/-- In binary64 arithmetic `calculateEmission(55, 'bus')` is 4.89: the rounded
product 55 * 0.089 lies just below 4.895 and absorbs `Number.EPSILON`; in the
arithmetic that rounds nothing it is 4.9. -/
theorem calculateEmission_bus_binary64 :
    calculateEmission binary64 CONFIG (Value.number (fin 55)) "bus" = some (binary64.fl 4.89) ∧
      calculateEmission exactArith (CONFIG : Config ℚ) (Value.number (fin 55)) "bus" =
        some (fin 4.9) := by
  have h1 : binary64.fl (0.089) = fin 0.0889999999999999957811525064244051463901996612548828125 :=
    binary64_fl_of_lt _ _ (-4) (6413125869375586) (by norm_num) (by norm_num) (by norm_num) (by norm_num)
      (by norm_num) (by norm_num)
  have h2 : binary64.fl (55 * 0.0889999999999999957811525064244051463901996612548828125) = fin 4.894999999999999573674358543939888477325439453125 :=
    binary64_fl_of_lt _ _ (2) (5511280043994644) (by norm_num) (by norm_num) (by norm_num) (by norm_num)
      (by norm_num) (by norm_num)
  have h3 : binary64.fl (4.894999999999999573674358543939888477325439453125 + 1 / 2 ^ 52) = fin 4.894999999999999573674358543939888477325439453125 :=
    binary64_fl_of_lt _ _ (2) (5511280043994644) (by norm_num) (by norm_num) (by norm_num) (by norm_num)
      (by norm_num) (by norm_num)
  have h4 : binary64.fl (4.894999999999999573674358543939888477325439453125 * 10 ^ 2) = fin 489.49999999999994315658113919198513031005859375 :=
    binary64_fl_of_lt _ _ (8) (8611375068741631) (by norm_num) (by norm_num) (by norm_num) (by norm_num)
      (by norm_num) (by norm_num)
  have h5 : ⌊(489.49999999999994315658113919198513031005859375 : ℚ) + 1 / 2⌋ = 489 := by
    rw [Int.floor_eq_iff]; constructor <;> norm_num
  have h6 : round binary64 (fin 4.894999999999999573674358543939888477325439453125) 2 = binary64.fl 4.89 := by
    rw [round_eval binary64 _ _ _ _ 2 h3 h4 h5]; norm_num
  constructor
  · rw [calculateEmission_eval binary64 "bus" 0.089 55 _ _ (calculateEmission_bus binary64) h1 h2,
      h6]
  · rw [calculateEmission_eval exactArith "bus" 0.089 55 0.089 4.895
      (calculateEmission_bus exactArith) rfl (by rw [exactArith_fl]; norm_num), round_fin,
      roundFin_eq _ 2 490 (by norm_num) (by norm_num)]
    norm_num

/-- C9. For every finite distance `d ≥ 0`, `calculateAllModes(d)` has exactly one
entry for each of the four configured modes, in non-decreasing order of
emission, with `bicycle` (emission 0) first and `truck` last; equal emissions
keep their declaration order.  Proved in the arithmetic that rounds nothing,
and in binary64 arithmetic for the distances up to two to the power 1000, a
range in which no emission overflows. -/
theorem calculateAllModes_ordered (q : K) (hq : 0 ≤ q) :
    AllModesOrdered (calculateAllModes exactArith CONFIG (Value.number (fin q))) ∧
      ∀ d : ℚ, 0 ≤ d → d ≤ 2 ^ 1000 →
        AllModesOrdered (calculateAllModes binary64 CONFIG (Value.number (fin d))) := by
  refine ⟨?_, calculateAllModes_ordered_binary64⟩
  have hB := modeEntry_emission_fin q 0 "bicycle" (calculateEmission_bicycle exactArith)
  have hC := modeEntry_emission_fin q 0.12 "car" (calculateEmission_car exactArith)
  have hU := modeEntry_emission_fin q 0.089 "bus" (calculateEmission_bus exactArith)
  have hT := modeEntry_emission_fin q 0.96 "truck" (calculateEmission_truck exactArith)
  rw [mul_zero, roundFin_zero_two] at hB
  have h1 : (0 : K) ≤ roundFin (q * 0.089) 2 := by
    rw [← roundFin_zero_two (K := K)]
    exact roundFin_mono 2 (by positivity)
  have h2 : roundFin (q * 0.089) 2 ≤ roundFin (q * 0.12) 2 :=
    roundFin_mono 2 (by nlinarith)
  have h3 : roundFin (q * 0.12) 2 ≤ roundFin (q * 0.96) 2 :=
    roundFin_mono 2 (by nlinarith)
  exact allModesOrdered_of exactArith _ _ _ _ hB hC hU hT h1 h2 h3
    (sortWith_four _ _ _ _ _ _ _ _ hB hC hU hT h1 h2 h3)

/-- C7, the failing input. The name `toString` is not a key of the emission-factor
table, yet `CONFIG.EMISSION_FACTORS["toString"]` is the inherited
`Object.prototype.toString`, not `undefined`: `calculateEmission` returns `NaN`
instead of `null`, whatever the rounding. -/
theorem calculateEmission_toString (R : Rounding K) (d : Value K) :
    "toString" ∉ (CONFIG : Config K).EMISSION_FACTORS.map Prod.fst ∧
      calculateEmission R CONFIG d "toString" = some nan := by
  constructor
  · simp [CONFIG]
  · simp [calculateEmission, objectGet, CONFIG, List.lookup, factorToNumber, objectPrototypeKeys,
      round_nan]

theorem calculateEmission_examples_exact :
    calculateEmission exactArith (CONFIG : Config K) (Value.number (fin 100)) "car" =
        some (fin 12) ∧
      calculateEmission exactArith (CONFIG : Config K) (Value.number (fin 100)) "bicycle" =
        some (fin 0) := by
  refine ⟨?_, ?_⟩
  · rw [calculateEmission_car]
    simp only [safeNumber, toNumber, isNaN, Bool.false_eq_true, if_false, exactArith_mul,
      exactArith_fl, fin_mul_fin, round_fin]
    rw [roundFin_eq _ 2 1200 (by norm_num) (by norm_num)]
    norm_num
  · rw [calculateEmission_bicycle]
    simp only [safeNumber, toNumber, isNaN, Bool.false_eq_true, if_false, exactArith_mul,
      exactArith_fl, fin_mul_fin, round_fin]
    rw [roundFin_eq _ 2 0 (by norm_num) (by norm_num)]
    norm_num

theorem calculateEmission_examples_binary64 :
    calculateEmission binary64 CONFIG (Value.number (fin 100)) "car" = some (fin 12) ∧
      calculateEmission binary64 CONFIG (Value.number (fin 100)) "bicycle" = some (fin 0) := by
  have h1 : binary64.fl (0.12) = fin 0.11999999999999999555910790149937383830547332763671875 :=
    binary64_fl_of_lt _ _ (-4) (8646911284551352) (by norm_num) (by norm_num) (by norm_num) (by norm_num)
      (by norm_num) (by norm_num)
  have h2 : binary64.fl (100 * 0.11999999999999999555910790149937383830547332763671875) = fin 12 :=
    binary64_fl_of_lt _ _ (3) (6755399441055744) (by norm_num) (by norm_num) (by norm_num) (by norm_num)
      (by norm_num) (by norm_num)
  have h3 : binary64.fl (12 + 1 / 2 ^ 52) = fin 12 :=
    binary64_fl_of_lt _ _ (3) (6755399441055744) (by norm_num) (by norm_num) (by norm_num) (by norm_num)
      (by norm_num) (by norm_num)
  have h4 : binary64.fl (12 * 10 ^ 2) = fin 1200 :=
    binary64_fl_of_lt _ _ (10) (5277655813324800) (by norm_num) (by norm_num) (by norm_num) (by norm_num)
      (by norm_num) (by norm_num)
  have h5 : ⌊(1200 : ℚ) + 1 / 2⌋ = 1200 := by
    rw [Int.floor_eq_iff]; constructor <;> norm_num
  have h6 : round binary64 (fin 12) 2 = binary64.fl 12 := by
    rw [round_eval binary64 _ _ _ _ 2 h3 h4 h5]; norm_num
  have h7 : binary64.fl (12) = fin 12 :=
    binary64_fl_of_lt _ _ (3) (6755399441055744) (by norm_num) (by norm_num) (by norm_num) (by norm_num)
      (by norm_num) (by norm_num)
  have hcar : calculateEmission binary64 CONFIG (Value.number (fin 100)) "car" =
      some (fin 12) := by
    rw [calculateEmission_eval binary64 "car" 0.12 100 _ _ (calculateEmission_car binary64) h1 h2,
      h6, h7]
  have h8 : binary64.fl (100 * 0) = fin 0 := binary64_fl_of_eq_zero _ (by norm_num)
  have h9 : binary64.fl (0 + 1 / 2 ^ 52) = fin 0.0000000000000002220446049250313080847263336181640625 :=
    binary64_fl_of_lt _ _ (-52) (4503599627370496) (by norm_num) (by norm_num) (by norm_num) (by norm_num)
      (by norm_num) (by norm_num)
  have h10 : binary64.fl (0.0000000000000002220446049250313080847263336181640625 * 10 ^ 2) = fin 0.00000000000002220446049250313080847263336181640625 :=
    binary64_fl_of_lt _ _ (-46) (7036874417766400) (by norm_num) (by norm_num) (by norm_num) (by norm_num)
      (by norm_num) (by norm_num)
  have h11 : ⌊(0.00000000000002220446049250313080847263336181640625 : ℚ) + 1 / 2⌋ = 0 := by
    rw [Int.floor_eq_iff]; constructor <;> norm_num
  have h12 : round binary64 (fin 0) 2 = binary64.fl 0 := by
    rw [round_eval binary64 _ _ _ _ 2 h9 h10 h11]; norm_num
  have hbic : calculateEmission binary64 CONFIG (Value.number (fin 100)) "bicycle" =
      some (fin 0) := by
    rw [calculateEmission_eval binary64 "bicycle" 0 100 _ _ (calculateEmission_bicycle binary64)
      binary64_fl_zero h8, h12, binary64_fl_zero]
  exact ⟨hcar, hbic⟩

/-- C8. With the shipped configuration, `calculateEmission(100, 'car')` is 12,
`calculateEmission(100, 'bicycle')` is 0, and
`calculateEmission(100, 'unknown-mode')` is `null`: in binary64 arithmetic, and
also in the arithmetic that rounds nothing. -/
theorem calculateEmission_examples :
    (calculateEmission binary64 CONFIG (Value.number (fin 100)) "car" = some (fin 12) ∧
        calculateEmission binary64 CONFIG (Value.number (fin 100)) "bicycle" = some (fin 0) ∧
        calculateEmission binary64 CONFIG (Value.number (fin 100)) "unknown-mode" = none) ∧
      calculateEmission exactArith (CONFIG : Config K) (Value.number (fin 100)) "car" =
        some (fin 12) ∧
      calculateEmission exactArith (CONFIG : Config K) (Value.number (fin 100)) "bicycle" =
        some (fin 0) ∧
      calculateEmission exactArith (CONFIG : Config K) (Value.number (fin 100)) "unknown-mode" =
        none :=
  ⟨⟨calculateEmission_examples_binary64.1, calculateEmission_examples_binary64.2,
      calculateEmission_unknown _ _⟩,
    calculateEmission_examples_exact.1, calculateEmission_examples_exact.2,
    calculateEmission_unknown _ _⟩

/-- C9 at the distance 100, in both arithmetics. -/
theorem calculateAllModes_ordered_witness :
    (0 : ℚ) ≤ 100 ∧
      AllModesOrdered (calculateAllModes exactArith CONFIG (Value.number (fin (100 : ℚ)))) ∧
      AllModesOrdered (calculateAllModes binary64 CONFIG (Value.number (fin 100))) :=
  ⟨by norm_num, (calculateAllModes_ordered (100 : ℚ) (by norm_num)).1,
    (calculateAllModes_ordered (100 : ℚ) (by norm_num)).2 100 (by norm_num) (by norm_num)⟩

/-- C10. For every distance and every entry of `calculateAllModes(distance)`:
when the emission of the car entry is not 0, `percentageVsCar` is
`round(emission / carEmission * 100, 2)`, each operation being the rounded one
of the platform; when it is exactly 0, `percentageVsCar` is 100 if the emission
of the entry is 0 and `null` otherwise.  Proved for every rounding. -/
theorem percentageVsCar_spec (R : Rounding K) (d : Value K) (r car : ModeResult K)
    (hr : r ∈ calculateAllModes R CONFIG d) (hcar : car ∈ calculateAllModes R CONFIG d)
    (hmode : car.mode = "car") :
    ∃ e c : JSNum K, r.emission = some e ∧ car.emission = some c ∧
      (c ≠ fin 0 → r.percentageVsCar = some (round R (R.mul (R.div e c) (fin 100)) 2)) ∧
      (c = fin 0 → (e = fin 0 → r.percentageVsCar = some (fin 100)) ∧
        (e ≠ fin 0 → r.percentageVsCar = none)) := by
  rw [calculateAllModes_eq, mem_sortWith] at hr hcar
  have hc : car = modeEntry R d "car" := by
    simp only [List.mem_cons, List.mem_singleton, List.not_mem_nil, or_false] at hcar
    rcases hcar with h | h | h | h
    · rw [h] at hmode; exact absurd hmode (by simp [modeEntry])
    · exact h
    · rw [h] at hmode; exact absurd hmode (by simp [modeEntry])
    · rw [h] at hmode; exact absurd hmode (by simp [modeEntry])
  have key : ∀ m x, calculateEmission R CONFIG d m = some x →
      ∃ e c : JSNum K, (modeEntry R d m).emission = some e ∧
        (modeEntry R d "car").emission = some c ∧
        (c ≠ fin 0 →
          (modeEntry R d m).percentageVsCar = some (round R (R.mul (R.div e c) (fin 100)) 2)) ∧
        (c = fin 0 → (e = fin 0 → (modeEntry R d m).percentageVsCar = some (fin 100)) ∧
          (e ≠ fin 0 → (modeEntry R d m).percentageVsCar = none)) := by
    intro m x hx
    refine ⟨x, round R (R.mul (safeNumber d) (R.fl 0.12)) 2, by simp [modeEntry, hx],
      by simp [modeEntry, calculateEmission_car], ?_, ?_⟩
    · intro hne
      simp [modeEntry, hx, calculateEmission_car, pctVsCar, hne]
    · intro heq
      constructor
      · intro he
        simp [modeEntry, hx, calculateEmission_car, pctVsCar, heq, he]
      · intro he
        simp [modeEntry, hx, calculateEmission_car, pctVsCar, heq, he]
  rw [hc]
  simp only [List.mem_cons, List.mem_singleton, List.not_mem_nil, or_false] at hr
  rcases hr with h | h | h | h <;> rw [h]
  · exact key _ _ (calculateEmission_bicycle R d)
  · exact key _ _ (calculateEmission_car R d)
  · exact key _ _ (calculateEmission_bus R d)
  · exact key _ _ (calculateEmission_truck R d)

/-- The truck and car entries of `calculateAllModes(2.64)` in binary64 arithmetic:
emissions 2.53 and 0.32, percentages 790.62 and 100. -/
theorem calculateAllModes_entries_binary64 :
    modeEntry binary64 (Value.number (binary64.fl 2.64)) "truck" =
        ⟨"truck", some (binary64.fl 2.53), some (binary64.fl 790.62)⟩ ∧
      modeEntry binary64 (Value.number (binary64.fl 2.64)) "car" =
        ⟨"car", some (binary64.fl 0.32), some (binary64.fl 100)⟩ := by
  have h1 : binary64.fl (2.64) = fin 2.640000000000000124344978758017532527446746826171875 :=
    binary64_fl_of_lt _ _ (1) (5944751508129055) (by norm_num) (by norm_num) (by norm_num) (by norm_num)
      (by norm_num) (by norm_num)
  have h2 : binary64.fl (0.96) = fin 0.95999999999999996447286321199499070644378662109375 :=
    binary64_fl_of_lt _ _ (-1) (8646911284551352) (by norm_num) (by norm_num) (by norm_num) (by norm_num)
      (by norm_num) (by norm_num)
  have h3 : binary64.fl (0.12) = fin 0.11999999999999999555910790149937383830547332763671875 :=
    binary64_fl_of_lt _ _ (-4) (8646911284551352) (by norm_num) (by norm_num) (by norm_num) (by norm_num)
      (by norm_num) (by norm_num)
  have h4 : binary64.fl (2.640000000000000124344978758017532527446746826171875 * 0.95999999999999996447286321199499070644378662109375) = fin 2.534400000000000208189021577709354460239410400390625 :=
    binary64_fl_of_lt _ _ (1) (5706961447803893) (by norm_num) (by norm_num) (by norm_num) (by norm_num)
      (by norm_num) (by norm_num)
  have h5 : binary64.fl (2.640000000000000124344978758017532527446746826171875 * 0.11999999999999999555910790149937383830547332763671875) = fin 0.316800000000000026023627697213669307529926300048828125 :=
    binary64_fl_of_lt _ _ (-2) (5706961447803893) (by norm_num) (by norm_num) (by norm_num) (by norm_num)
      (by norm_num) (by norm_num)
  have h6 : binary64.fl (2.534400000000000208189021577709354460239410400390625 + 1 / 2 ^ 52) = fin 2.53440000000000065227823142777197062969207763671875 :=
    binary64_fl_of_tie _ _ (1) (5706961447803893) (5706961447803894) (by norm_num) (by norm_num) (by norm_num) (by norm_num)
      (by norm_num) (by norm_num)
  have h7 : binary64.fl (2.53440000000000065227823142777197062969207763671875 * 10 ^ 2) = fin 253.44000000000005456968210637569427490234375 :=
    binary64_fl_of_lt _ _ (7) (8917127262193584) (by norm_num) (by norm_num) (by norm_num) (by norm_num)
      (by norm_num) (by norm_num)
  have h8 : ⌊(253.44000000000005456968210637569427490234375 : ℚ) + 1 / 2⌋ = 253 := by
    rw [Int.floor_eq_iff]; constructor <;> norm_num
  have h9 : round binary64 (fin 2.534400000000000208189021577709354460239410400390625) 2 = binary64.fl 2.53 := by
    rw [round_eval binary64 _ _ _ _ 2 h6 h7 h8]; norm_num
  have h10 : binary64.fl (0.316800000000000026023627697213669307529926300048828125 + 1 / 2 ^ 52) = fin 0.316800000000000248068232622244977392256259918212890625 :=
    binary64_fl_of_lt _ _ (-2) (5706961447803897) (by norm_num) (by norm_num) (by norm_num) (by norm_num)
      (by norm_num) (by norm_num)
  have h11 : binary64.fl (0.316800000000000248068232622244977392256259918212890625 * 10 ^ 2) = fin 31.680000000000024584778657299466431140899658203125 :=
    binary64_fl_of_lt _ _ (4) (8917127262193589) (by norm_num) (by norm_num) (by norm_num) (by norm_num)
      (by norm_num) (by norm_num)
  have h12 : ⌊(31.680000000000024584778657299466431140899658203125 : ℚ) + 1 / 2⌋ = 32 := by
    rw [Int.floor_eq_iff]; constructor <;> norm_num
  have h13 : round binary64 (fin 0.316800000000000026023627697213669307529926300048828125) 2 = binary64.fl 0.32 := by
    rw [round_eval binary64 _ _ _ _ 2 h10 h11 h12]; norm_num
  have h14 : binary64.fl (2.53) = fin 2.529999999999999804600747665972448885440826416015625 :=
    binary64_fl_of_lt _ _ (1) (5697053528623677) (by norm_num) (by norm_num) (by norm_num) (by norm_num)
      (by norm_num) (by norm_num)
  have h15 : binary64.fl (0.32) = fin 0.320000000000000006661338147750939242541790008544921875 :=
    binary64_fl_of_lt _ _ (-2) (5764607523034235) (by norm_num) (by norm_num) (by norm_num) (by norm_num)
      (by norm_num) (by norm_num)
  have h16 : binary64.fl (2.529999999999999804600747665972448885440826416015625 / 0.320000000000000006661338147750939242541790008544921875) = fin 7.90624999999999911182158029987476766109466552734375 :=
    binary64_fl_of_lt _ _ (2) (8901646138474495) (by norm_num) (by norm_num) (by norm_num) (by norm_num)
      (by norm_num) (by norm_num)
  have h17 : binary64.fl (7.90624999999999911182158029987476766109466552734375 * 100) = fin 790.6249999999998863131622783839702606201171875 :=
    binary64_fl_of_lt _ _ (9) (6954411045683199) (by norm_num) (by norm_num) (by norm_num) (by norm_num)
      (by norm_num) (by norm_num)
  have h18 : binary64.fl (790.6249999999998863131622783839702606201171875 + 1 / 2 ^ 52) = fin 790.6249999999998863131622783839702606201171875 :=
    binary64_fl_of_lt _ _ (9) (6954411045683199) (by norm_num) (by norm_num) (by norm_num) (by norm_num)
      (by norm_num) (by norm_num)
  have h19 : binary64.fl (790.6249999999998863131622783839702606201171875 * 10 ^ 2) = fin 79062.499999999985448084771633148193359375 :=
    binary64_fl_of_lt _ _ (16) (5433133629439999) (by norm_num) (by norm_num) (by norm_num) (by norm_num)
      (by norm_num) (by norm_num)
  have h20 : ⌊(79062.499999999985448084771633148193359375 : ℚ) + 1 / 2⌋ = 79062 := by
    rw [Int.floor_eq_iff]; constructor <;> norm_num
  have h21 : round binary64 (fin 790.6249999999998863131622783839702606201171875) 2 = binary64.fl 790.62 := by
    rw [round_eval binary64 _ _ _ _ 2 h18 h19 h20]; norm_num
  have h22 : binary64.fl (0.320000000000000006661338147750939242541790008544921875 / 0.320000000000000006661338147750939242541790008544921875) = fin 1 :=
    binary64_fl_of_lt _ _ (0) (4503599627370496) (by norm_num) (by norm_num) (by norm_num) (by norm_num)
      (by norm_num) (by norm_num)
  have h23 : binary64.fl (1 * 100) = fin 100 :=
    binary64_fl_of_lt _ _ (6) (7036874417766400) (by norm_num) (by norm_num) (by norm_num) (by norm_num)
      (by norm_num) (by norm_num)
  have h24 : binary64.fl (100 + 1 / 2 ^ 52) = fin 100 :=
    binary64_fl_of_lt _ _ (6) (7036874417766400) (by norm_num) (by norm_num) (by norm_num) (by norm_num)
      (by norm_num) (by norm_num)
  have h25 : binary64.fl (100 * 10 ^ 2) = fin 10000 :=
    binary64_fl_of_lt _ _ (13) (5497558138880000) (by norm_num) (by norm_num) (by norm_num) (by norm_num)
      (by norm_num) (by norm_num)
  have h26 : ⌊(10000 : ℚ) + 1 / 2⌋ = 10000 := by
    rw [Int.floor_eq_iff]; constructor <;> norm_num
  have h27 : round binary64 (fin 100) 2 = binary64.fl 100 := by
    rw [round_eval binary64 _ _ _ _ 2 h24 h25 h26]; norm_num
  have hT : calculateEmission binary64 CONFIG (Value.number (fin 2.640000000000000124344978758017532527446746826171875)) "truck" =
      some (fin 2.529999999999999804600747665972448885440826416015625) := by
    rw [calculateEmission_eval binary64 "truck" 0.96 _ _ _ (calculateEmission_truck binary64) h2 h4,
      h9, h14]
  have hC : calculateEmission binary64 CONFIG (Value.number (fin 2.640000000000000124344978758017532527446746826171875)) "car" =
      some (fin 0.320000000000000006661338147750939242541790008544921875) := by
    rw [calculateEmission_eval binary64 "car" 0.12 _ _ _ (calculateEmission_car binary64) h3 h5,
      h13, h15]
  have hPT : pctVsCar binary64 (some (fin 0.320000000000000006661338147750939242541790008544921875)) (some (fin 2.529999999999999804600747665972448885440826416015625)) =
      some (binary64.fl 790.62) := by
    rw [pctVsCar_eval binary64 _ _ _ _ (by norm_num) h16 h17, h21]
  have hPC : pctVsCar binary64 (some (fin 0.320000000000000006661338147750939242541790008544921875)) (some (fin 0.320000000000000006661338147750939242541790008544921875)) =
      some (binary64.fl 100) := by
    rw [pctVsCar_eval binary64 _ _ _ _ (by norm_num) h22 h23, h27]
  constructor
  · simp only [modeEntry, h1, hT, hC, hPT, h14]
  · simp only [modeEntry, h1, hC, hPC, h15]

/-- C10 in binary64 arithmetic at the distance 2.64, for the truck entry
`{emission: 2.53, percentageVsCar: 790.62}` against the car entry
`{emission: 0.32, percentageVsCar: 100}`. -/
theorem percentageVsCar_spec_witness :
    (⟨"truck", some (binary64.fl 2.53), some (binary64.fl 790.62)⟩ : ModeResult ℚ) ∈
        calculateAllModes binary64 CONFIG (Value.number (binary64.fl 2.64)) ∧
      (⟨"car", some (binary64.fl 0.32), some (binary64.fl 100)⟩ : ModeResult ℚ) ∈
        calculateAllModes binary64 CONFIG (Value.number (binary64.fl 2.64)) ∧
      ∃ e c : JSNum ℚ,
        (⟨"truck", some (binary64.fl 2.53), some (binary64.fl 790.62)⟩ : ModeResult ℚ).emission =
          some e ∧
        (⟨"car", some (binary64.fl 0.32), some (binary64.fl 100)⟩ : ModeResult ℚ).emission =
          some c ∧
        (c ≠ fin 0 →
          (⟨"truck", some (binary64.fl 2.53), some (binary64.fl 790.62)⟩ :
              ModeResult ℚ).percentageVsCar =
            some (round binary64 (binary64.mul (binary64.div e c) (fin 100)) 2)) ∧
        (c = fin 0 →
          (e = fin 0 →
            (⟨"truck", some (binary64.fl 2.53), some (binary64.fl 790.62)⟩ :
                ModeResult ℚ).percentageVsCar = some (fin 100)) ∧
          (e ≠ fin 0 →
            (⟨"truck", some (binary64.fl 2.53), some (binary64.fl 790.62)⟩ :
                ModeResult ℚ).percentageVsCar = none)) := by
  have ht : (⟨"truck", some (binary64.fl 2.53), some (binary64.fl 790.62)⟩ : ModeResult ℚ) ∈
      calculateAllModes binary64 CONFIG (Value.number (binary64.fl 2.64)) := by
    rw [calculateAllModes_eq, mem_sortWith, ← calculateAllModes_entries_binary64.1]
    simp
  have hc : (⟨"car", some (binary64.fl 0.32), some (binary64.fl 100)⟩ : ModeResult ℚ) ∈
      calculateAllModes binary64 CONFIG (Value.number (binary64.fl 2.64)) := by
    rw [calculateAllModes_eq, mem_sortWith, ← calculateAllModes_entries_binary64.2]
    simp
  exact ⟨ht, hc, percentageVsCar_spec binary64 _ _ _ ht hc rfl⟩

end Converter

/-! ## Savings, carbon credits and prices -/

section Savings

variable {K : Type} [LinearOrderedField K] [FloorRing K]

theorem calculateSavings_percentage (R : Rounding K) (e b : Value K) :
    (calculateSavings R e b).percentage =
      if safeNumber b ≠ fin 0 then
        some (round R (R.mul (R.div (R.sub (safeNumber b) (safeNumber e)) (safeNumber b))
          (fin 100)) 2)
      else none := rfl

/-- The value of `calculateSavings` for finite arguments, from the values of
its steps. -/
theorem calculateSavings_eval (R : Rounding K) (e b s q p : K) (hb : b ≠ 0)
    (h1 : R.fl (b - e) = fin s) (h2 : R.fl (s / b) = fin q) (h3 : R.fl (q * 100) = fin p) :
    calculateSavings R (Value.number (fin e)) (Value.number (fin b)) =
      ⟨round R (fin s) 2, some (round R (fin p) 2)⟩ := by
  have hb2 : (fin b : JSNum K) ≠ fin 0 := by simpa using hb
  simp only [calculateSavings, safeNumber_fin, sub_fin_fin, h1, hb2, ne_eq, not_false_eq_true,
    if_true, div_fin_fin _ _ _ hb, h2, mul_fin_fin, h3]

theorem calculateSavings_twelve :
    calculateSavings exactArith (Value.number (fin (12 : K))) (Value.number (fin 96)) =
      ⟨fin 84, some (fin 87.5)⟩ := by
  rw [calculateSavings_eval exactArith 12 96 84 0.875 87.5 (by norm_num)
    (by rw [exactArith_fl]; norm_num) (by rw [exactArith_fl]; norm_num)
    (by rw [exactArith_fl]; norm_num), round_fin, round_fin,
    roundFin_eq _ 2 8400 (by norm_num) (by norm_num),
    roundFin_eq _ 2 8750 (by norm_num) (by norm_num)]
  norm_num

theorem calculateSavings_twelve_binary64 :
    calculateSavings binary64 (Value.number (fin 12)) (Value.number (fin 96)) =
      ⟨fin 84, some (fin 87.5)⟩ := by
  have h1 : binary64.fl (96 - 12) = fin 84 :=
    binary64_fl_of_lt _ _ (6) (5910974510923776) (by norm_num) (by norm_num) (by norm_num) (by norm_num)
      (by norm_num) (by norm_num)
  have h2 : binary64.fl (84 / 96) = fin 0.875 :=
    binary64_fl_of_lt _ _ (-1) (7881299347898368) (by norm_num) (by norm_num) (by norm_num) (by norm_num)
      (by norm_num) (by norm_num)
  have h3 : binary64.fl (0.875 * 100) = fin 87.5 :=
    binary64_fl_of_lt _ _ (6) (6157265115545600) (by norm_num) (by norm_num) (by norm_num) (by norm_num)
      (by norm_num) (by norm_num)
  have h4 : binary64.fl (84 + 1 / 2 ^ 52) = fin 84 :=
    binary64_fl_of_lt _ _ (6) (5910974510923776) (by norm_num) (by norm_num) (by norm_num) (by norm_num)
      (by norm_num) (by norm_num)
  have h5 : binary64.fl (84 * 10 ^ 2) = fin 8400 :=
    binary64_fl_of_lt _ _ (13) (4617948836659200) (by norm_num) (by norm_num) (by norm_num) (by norm_num)
      (by norm_num) (by norm_num)
  have h6 : ⌊(8400 : ℚ) + 1 / 2⌋ = 8400 := by
    rw [Int.floor_eq_iff]; constructor <;> norm_num
  have h7 : round binary64 (fin 84) 2 = binary64.fl 84 := by
    rw [round_eval binary64 _ _ _ _ 2 h4 h5 h6]; norm_num
  have h8 : binary64.fl (87.5 + 1 / 2 ^ 52) = fin 87.5 :=
    binary64_fl_of_lt _ _ (6) (6157265115545600) (by norm_num) (by norm_num) (by norm_num) (by norm_num)
      (by norm_num) (by norm_num)
  have h9 : binary64.fl (87.5 * 10 ^ 2) = fin 8750 :=
    binary64_fl_of_lt _ _ (13) (4810363371520000) (by norm_num) (by norm_num) (by norm_num) (by norm_num)
      (by norm_num) (by norm_num)
  have h10 : ⌊(8750 : ℚ) + 1 / 2⌋ = 8750 := by
    rw [Int.floor_eq_iff]; constructor <;> norm_num
  have h11 : round binary64 (fin 87.5) 2 = binary64.fl 87.5 := by
    rw [round_eval binary64 _ _ _ _ 2 h8 h9 h10]; norm_num
  have h12 : binary64.fl (84) = fin 84 :=
    binary64_fl_of_lt _ _ (6) (5910974510923776) (by norm_num) (by norm_num) (by norm_num) (by norm_num)
      (by norm_num) (by norm_num)
  have h13 : binary64.fl (87.5) = fin 87.5 :=
    binary64_fl_of_lt _ _ (6) (6157265115545600) (by norm_num) (by norm_num) (by norm_num) (by norm_num)
      (by norm_num) (by norm_num)
  have hv : calculateSavings binary64 (Value.number (fin 12)) (Value.number (fin 96)) =
      ⟨fin 84, some (fin 87.5)⟩ := by
    rw [calculateSavings_eval binary64 _ _ _ _ _ (by norm_num) h1 h2 h3,
      h7, h11, h12, h13]
  exact hv

/-- C11, as amended. For all numbers `emission` and `baseline` (not `NaN`) with
`baseline` not 0, `calculateSavings(emission, baseline)` returns
`savedKg = round(baseline - emission, 2)` and
`percentage = round((baseline - emission) / baseline * 100, 2)`, each operation
being the rounded one of the platform: the percentage is computed from the
difference before it is rounded to two decimals, not from `savedKg`.  Proved for
every rounding. -/
theorem calculateSavings_unrounded (R : Rounding K) (x y : JSNum K) (hx : x ≠ nan)
    (hy : y ≠ nan) (hy0 : y ≠ fin 0) :
    calculateSavings R (Value.number x) (Value.number y) =
      ⟨round R (R.sub y x) 2, some (round R (R.mul (R.div (R.sub y x) y) (fin 100)) 2)⟩ := by
  simp only [calculateSavings, safeNumber_number x hx, safeNumber_number y hy, hy0, ne_eq,
    not_false_eq_true, if_true]

/-- C11 as amended, in binary64 arithmetic at `calculateSavings(7.875, 20)`, whose
value is `{savedKg: 12.13, percentage: 60.62}`. -/
theorem calculateSavings_unrounded_witness :
    calculateSavings binary64 (Value.number (fin 7.875)) (Value.number (fin 20)) =
        ⟨round binary64 (binary64.sub (fin 20) (fin 7.875)) 2,
          some (round binary64 (binary64.mul (binary64.div (binary64.sub (fin 20) (fin 7.875))
            (fin 20)) (fin 100)) 2)⟩ ∧
      calculateSavings binary64 (Value.number (fin 7.875)) (Value.number (fin 20)) =
        ⟨binary64.fl 12.13, some (binary64.fl 60.62)⟩ := by
  have h1 : binary64.fl (20 - 7.875) = fin 12.125 :=
    binary64_fl_of_lt _ _ (3) (6825768185233408) (by norm_num) (by norm_num) (by norm_num) (by norm_num)
      (by norm_num) (by norm_num)
  have h2 : binary64.fl (12.125 / 20) = fin 0.6062499999999999555910790149937383830547332763671875 :=
    binary64_fl_of_lt _ _ (-1) (5460614548186726) (by norm_num) (by norm_num) (by norm_num) (by norm_num)
      (by norm_num) (by norm_num)
  have h3 : binary64.fl (0.6062499999999999555910790149937383830547332763671875 * 100) = fin 60.62499999999999289457264239899814128875732421875 :=
    binary64_fl_of_lt _ _ (5) (8532210231541759) (by norm_num) (by norm_num) (by norm_num) (by norm_num)
      (by norm_num) (by norm_num)
  have h4 : binary64.fl (12.125 + 1 / 2 ^ 52) = fin 12.125 :=
    binary64_fl_of_lt _ _ (3) (6825768185233408) (by norm_num) (by norm_num) (by norm_num) (by norm_num)
      (by norm_num) (by norm_num)
  have h5 : binary64.fl (12.125 * 10 ^ 2) = fin 1212.5 :=
    binary64_fl_of_lt _ _ (10) (5332631394713600) (by norm_num) (by norm_num) (by norm_num) (by norm_num)
      (by norm_num) (by norm_num)
  have h6 : ⌊(1212.5 : ℚ) + 1 / 2⌋ = 1213 := by
    rw [Int.floor_eq_iff]; constructor <;> norm_num
  have h7 : round binary64 (fin 12.125) 2 = binary64.fl 12.13 := by
    rw [round_eval binary64 _ _ _ _ 2 h4 h5 h6]; norm_num
  have h8 : binary64.fl (60.62499999999999289457264239899814128875732421875 + 1 / 2 ^ 52) = fin 60.62499999999999289457264239899814128875732421875 :=
    binary64_fl_of_lt _ _ (5) (8532210231541759) (by norm_num) (by norm_num) (by norm_num) (by norm_num)
      (by norm_num) (by norm_num)
  have h9 : binary64.fl (60.62499999999999289457264239899814128875732421875 * 10 ^ 2) = fin 6062.4999999999990905052982270717620849609375 :=
    binary64_fl_of_lt _ _ (12) (6665789243391999) (by norm_num) (by norm_num) (by norm_num) (by norm_num)
      (by norm_num) (by norm_num)
  have h10 : ⌊(6062.4999999999990905052982270717620849609375 : ℚ) + 1 / 2⌋ = 6062 := by
    rw [Int.floor_eq_iff]; constructor <;> norm_num
  have h11 : round binary64 (fin 60.62499999999999289457264239899814128875732421875) 2 = binary64.fl 60.62 := by
    rw [round_eval binary64 _ _ _ _ 2 h8 h9 h10]; norm_num
  have hv : calculateSavings binary64 (Value.number (fin 7.875)) (Value.number (fin 20)) =
      ⟨binary64.fl 12.13, some (binary64.fl 60.62)⟩ := by
    rw [calculateSavings_eval binary64 _ _ _ _ _ (by norm_num) h1 h2 h3,
      h7, h11]
  exact ⟨calculateSavings_unrounded binary64 (fin 7.875) (fin 20) (by simp) (by simp) (by simp),
    hv⟩

/-- C11 as stated fails in binary64 arithmetic at `calculateSavings(0.004, 1)`:
`savedKg` is 1 and the percentage is 99.6, while the percentage computed from the
rounded `savedKg`, `round(savedKg / baseline * 100, 2)`, is 100. -/
theorem calculateSavings_rounded_counterexample :
    (calculateSavings binary64 (Value.number (binary64.fl 0.004)) (Value.number (fin 1))).savedKg =
        fin 1 ∧
      (calculateSavings binary64 (Value.number (binary64.fl 0.004))
        (Value.number (fin 1))).percentage = some (binary64.fl 99.6) ∧
      round binary64 (binary64.mul (binary64.div
        (calculateSavings binary64 (Value.number (binary64.fl 0.004))
          (Value.number (fin 1))).savedKg (fin 1)) (fin 100)) 2 = fin 100 ∧
      (calculateSavings binary64 (Value.number (binary64.fl 0.004))
          (Value.number (fin 1))).percentage ≠
        some (round binary64 (binary64.mul (binary64.div
          (calculateSavings binary64 (Value.number (binary64.fl 0.004))
            (Value.number (fin 1))).savedKg (fin 1)) (fin 100)) 2) := by
  have h1 : binary64.fl (0.004) = fin 0.0040000000000000000832667268468867405317723751068115234375 :=
    binary64_fl_of_lt _ _ (-8) (4611686018427388) (by norm_num) (by norm_num) (by norm_num) (by norm_num)
      (by norm_num) (by norm_num)
  have h2 : binary64.fl (1 - 0.0040000000000000000832667268468867405317723751068115234375) = fin 0.995999999999999996447286321199499070644378662109375 :=
    binary64_fl_of_lt _ _ (-1) (8971170457722028) (by norm_num) (by norm_num) (by norm_num) (by norm_num)
      (by norm_num) (by norm_num)
  have h3 : binary64.fl (0.995999999999999996447286321199499070644378662109375 / 1) = fin 0.995999999999999996447286321199499070644378662109375 :=
    binary64_fl_of_lt _ _ (-1) (8971170457722028) (by norm_num) (by norm_num) (by norm_num) (by norm_num)
      (by norm_num) (by norm_num)
  have h4 : binary64.fl (0.995999999999999996447286321199499070644378662109375 * 100) = fin 99.599999999999994315658113919198513031005859375 :=
    binary64_fl_of_lt _ _ (6) (7008726920095334) (by norm_num) (by norm_num) (by norm_num) (by norm_num)
      (by norm_num) (by norm_num)
  have h5 : binary64.fl (0.995999999999999996447286321199499070644378662109375 + 1 / 2 ^ 52) = fin 0.9960000000000002184918912462308071553707122802734375 :=
    binary64_fl_of_lt _ _ (-1) (8971170457722030) (by norm_num) (by norm_num) (by norm_num) (by norm_num)
      (by norm_num) (by norm_num)
  have h6 : binary64.fl (0.9960000000000002184918912462308071553707122802734375 * 10 ^ 2) = fin 99.6000000000000227373675443232059478759765625 :=
    binary64_fl_of_lt _ _ (6) (7008726920095336) (by norm_num) (by norm_num) (by norm_num) (by norm_num)
      (by norm_num) (by norm_num)
  have h7 : ⌊(99.6000000000000227373675443232059478759765625 : ℚ) + 1 / 2⌋ = 100 := by
    rw [Int.floor_eq_iff]; constructor <;> norm_num
  have h8 : round binary64 (fin 0.995999999999999996447286321199499070644378662109375) 2 = binary64.fl 1 := by
    rw [round_eval binary64 _ _ _ _ 2 h5 h6 h7]; norm_num
  have h9 : binary64.fl (99.599999999999994315658113919198513031005859375 + 1 / 2 ^ 52) = fin 99.599999999999994315658113919198513031005859375 :=
    binary64_fl_of_lt _ _ (6) (7008726920095334) (by norm_num) (by norm_num) (by norm_num) (by norm_num)
      (by norm_num) (by norm_num)
  have h10 : binary64.fl (99.599999999999994315658113919198513031005859375 * 10 ^ 2) = fin 9960 :=
    binary64_fl_of_lt _ _ (13) (5475567906324480) (by norm_num) (by norm_num) (by norm_num) (by norm_num)
      (by norm_num) (by norm_num)
  have h11 : ⌊(9960 : ℚ) + 1 / 2⌋ = 9960 := by
    rw [Int.floor_eq_iff]; constructor <;> norm_num
  have h12 : round binary64 (fin 99.599999999999994315658113919198513031005859375) 2 = binary64.fl 99.6 := by
    rw [round_eval binary64 _ _ _ _ 2 h9 h10 h11]; norm_num
  have h13 : binary64.fl (1) = fin 1 :=
    binary64_fl_of_lt _ _ (0) (4503599627370496) (by norm_num) (by norm_num) (by norm_num) (by norm_num)
      (by norm_num) (by norm_num)
  have h14 : binary64.fl (1 / 1) = fin 1 :=
    binary64_fl_of_lt _ _ (0) (4503599627370496) (by norm_num) (by norm_num) (by norm_num) (by norm_num)
      (by norm_num) (by norm_num)
  have h15 : binary64.fl (1 * 100) = fin 100 :=
    binary64_fl_of_lt _ _ (6) (7036874417766400) (by norm_num) (by norm_num) (by norm_num) (by norm_num)
      (by norm_num) (by norm_num)
  have h16 : binary64.fl (100 + 1 / 2 ^ 52) = fin 100 :=
    binary64_fl_of_lt _ _ (6) (7036874417766400) (by norm_num) (by norm_num) (by norm_num) (by norm_num)
      (by norm_num) (by norm_num)
  have h17 : binary64.fl (100 * 10 ^ 2) = fin 10000 :=
    binary64_fl_of_lt _ _ (13) (5497558138880000) (by norm_num) (by norm_num) (by norm_num) (by norm_num)
      (by norm_num) (by norm_num)
  have h18 : ⌊(10000 : ℚ) + 1 / 2⌋ = 10000 := by
    rw [Int.floor_eq_iff]; constructor <;> norm_num
  have h19 : round binary64 (fin 100) 2 = binary64.fl 100 := by
    rw [round_eval binary64 _ _ _ _ 2 h16 h17 h18]; norm_num
  have h20 : binary64.fl (100) = fin 100 :=
    binary64_fl_of_lt _ _ (6) (7036874417766400) (by norm_num) (by norm_num) (by norm_num) (by norm_num)
      (by norm_num) (by norm_num)
  have h21 : binary64.fl (99.6) = fin 99.599999999999994315658113919198513031005859375 :=
    binary64_fl_of_lt _ _ (6) (7008726920095334) (by norm_num) (by norm_num) (by norm_num) (by norm_num)
      (by norm_num) (by norm_num)
  have hv : calculateSavings binary64 (Value.number (binary64.fl 0.004)) (Value.number (fin 1)) =
      ⟨fin 1, some (binary64.fl 99.6)⟩ := by
    rw [h1, calculateSavings_eval binary64 _ _ _ _ _ (by norm_num) h2 h3 h4,
      h8, h12, h13]
  have hclaim : round binary64 (binary64.mul (binary64.div (fin 1) (fin 1)) (fin 100)) 2 =
      fin 100 := by
    rw [div_fin_fin _ _ _ (by norm_num), h14, mul_fin_fin, h15, h19, h20]
  have hne : binary64.fl 99.6 ≠ fin 100 := by
    rw [h21]; norm_num
  rw [hv]
  refine ⟨rfl, rfl, hclaim, ?_⟩
  simp only []
  rw [hclaim]
  intro h
  exact hne (Option.some.inj h)

/-- C12. For every emission, the percentage of `calculateSavings(e, baseline)` is
`null` exactly when `baseline` is 0 or is not a number (`undefined`, `null` or
`NaN`, each of which `safeNumber` turns into 0), whatever the rounding; no
division by zero is made; for finite arguments `savedKg` is a finite number in
the arithmetic that rounds nothing and is never `NaN` in binary64 arithmetic;
and `calculateSavings(12, 96)` is `{savedKg: 84, percentage: 87.5}` in both. -/
theorem calculateSavings_percentage_absent_iff (R : Rounding K) (e b : Value K) :
    ((calculateSavings R e b).percentage = none ↔
        (b = Value.undefined ∨ b = Value.null ∨ b = Value.number nan ∨
          b = Value.number (fin 0))) ∧
      (∀ x y : K, ∃ s : K,
        (calculateSavings exactArith (Value.number (fin x)) (Value.number (fin y))).savedKg =
          fin s) ∧
      calculateSavings exactArith (Value.number (fin (12 : K))) (Value.number (fin 96)) =
        ⟨fin 84, some (fin 87.5)⟩ ∧
      (∀ x y : ℚ,
        (calculateSavings binary64 (Value.number (fin x)) (Value.number (fin y))).savedKg ≠
          nan) ∧
      calculateSavings binary64 (Value.number (fin 12)) (Value.number (fin 96)) =
        ⟨fin 84, some (fin 87.5)⟩ := by
  refine ⟨?_, ?_, calculateSavings_twelve, ?_, calculateSavings_twelve_binary64⟩
  · rw [← safeNumber_eq_zero_iff, calculateSavings_percentage]
    by_cases h : safeNumber b = fin 0 <;> simp [h]
  · intro x y
    exact ⟨roundFin (y - x) 2, by simp [calculateSavings, safeNumber, toNumber, isNaN, round_fin]⟩
  · intro x y
    simp only [calculateSavings, safeNumber_fin, sub_fin_fin]
    exact round_binary64_ne_nan _ 2 (binary64_fl_ne_nan _)

end Savings

section Credits

variable {K : Type} [LinearOrderedField K] [FloorRing K]

/-- The value of `estimateCreditPrice` for a finite argument and the shipped
prices, from the values of its steps. -/
theorem estimateCreditPrice_eval (R : Rounding K) (c mn mx sm av : K)
    (h1 : R.fl (c * 50) = fin mn) (h2 : R.fl (c * 160) = fin mx)
    (h3 : R.fl (mn + mx) = fin sm) (h4 : R.fl (sm / 2) = fin av) :
    estimateCreditPrice R CONFIG (Value.number (fin c)) =
      some ⟨round R (fin mn) 2, round R (fin mx) 2, round R (fin av) 2⟩ := by
  simp only [estimateCreditPrice, CONFIG, safeNumber_fin, mul_fin_fin, h1, h2, add_fin_fin, h3,
    div_fin_fin _ _ _ (two_ne_zero : (2 : K) ≠ 0), h4]

/-- C13, as amended. For every number `credits` (not `NaN`), with the shipped
prices 50 and 160, `estimateCreditPrice(credits)` returns
`min = round(credits * 50, 2)`, `max = round(credits * 160, 2)` and
`average = round((credits * 50 + credits * 160) / 2, 2)`, each operation being the
rounded one of the platform: the average is computed from the products before
they are rounded to two decimals, not from the returned `min` and `max`.  Proved
for every rounding. -/
theorem estimateCreditPrice_unrounded (R : Rounding K) (c : JSNum K) (hc : c ≠ nan) :
    estimateCreditPrice R CONFIG (Value.number c) =
      some ⟨round R (R.mul c (fin 50)) 2, round R (R.mul c (fin 160)) 2,
        round R (R.div (R.add (R.mul c (fin 50)) (R.mul c (fin 160))) (fin 2)) 2⟩ := by
  simp only [estimateCreditPrice, CONFIG, safeNumber_number c hc, safeNumber, toNumber, isNaN,
    Bool.false_eq_true, if_false]

/-- C13 as amended, in binary64 arithmetic at `estimateCreditPrice(0.045)`, whose
value is `{min: 2.25, max: 7.2, average: 4.72}`. -/
theorem estimateCreditPrice_unrounded_witness :
    binary64.fl 0.045 ≠ nan ∧
      estimateCreditPrice binary64 CONFIG (Value.number (binary64.fl 0.045)) =
        some ⟨round binary64 (binary64.mul (binary64.fl 0.045) (fin 50)) 2,
          round binary64 (binary64.mul (binary64.fl 0.045) (fin 160)) 2,
          round binary64 (binary64.div (binary64.add (binary64.mul (binary64.fl 0.045) (fin 50))
            (binary64.mul (binary64.fl 0.045) (fin 160))) (fin 2)) 2⟩ ∧
      estimateCreditPrice binary64 CONFIG (Value.number (binary64.fl 0.045)) =
        some ⟨binary64.fl 2.25, binary64.fl 7.2, binary64.fl 4.72⟩ := by
  have h1 : binary64.fl (0.045) = fin 0.04499999999999999833466546306226518936455249786376953125 :=
    binary64_fl_of_lt _ _ (-5) (6485183463413514) (by norm_num) (by norm_num) (by norm_num) (by norm_num)
      (by norm_num) (by norm_num)
  have h2 : binary64.fl (0.04499999999999999833466546306226518936455249786376953125 * 50) = fin 2.25 :=
    binary64_fl_of_lt _ _ (1) (5066549580791808) (by norm_num) (by norm_num) (by norm_num) (by norm_num)
      (by norm_num) (by norm_num)
  have h3 : binary64.fl (0.04499999999999999833466546306226518936455249786376953125 * 160) = fin 7.199999999999999289457264239899814128875732421875 :=
    binary64_fl_of_tie _ _ (2) (8106479329266892) (8106479329266892) (by norm_num) (by norm_num) (by norm_num) (by norm_num)
      (by norm_num) (by norm_num)
  have h4 : binary64.fl (2.25 + 7.199999999999999289457264239899814128875732421875) = fin 9.449999999999999289457264239899814128875732421875 :=
    binary64_fl_of_lt _ _ (3) (5319877059831398) (by norm_num) (by norm_num) (by norm_num) (by norm_num)
      (by norm_num) (by norm_num)
  have h5 : binary64.fl (9.449999999999999289457264239899814128875732421875 / 2) = fin 4.7249999999999996447286321199499070644378662109375 :=
    binary64_fl_of_lt _ _ (2) (5319877059831398) (by norm_num) (by norm_num) (by norm_num) (by norm_num)
      (by norm_num) (by norm_num)
  have h6 : binary64.fl (2.25 + 1 / 2 ^ 52) = fin 2.25 :=
    binary64_fl_of_tie _ _ (1) (5066549580791808) (5066549580791808) (by norm_num) (by norm_num) (by norm_num) (by norm_num)
      (by norm_num) (by norm_num)
  have h7 : binary64.fl (2.25 * 10 ^ 2) = fin 225 :=
    binary64_fl_of_lt _ _ (7) (7916483719987200) (by norm_num) (by norm_num) (by norm_num) (by norm_num)
      (by norm_num) (by norm_num)
  have h8 : ⌊(225 : ℚ) + 1 / 2⌋ = 225 := by
    rw [Int.floor_eq_iff]; constructor <;> norm_num
  have h9 : round binary64 (fin 2.25) 2 = binary64.fl 2.25 := by
    rw [round_eval binary64 _ _ _ _ 2 h6 h7 h8]; norm_num
  have h10 : binary64.fl (7.199999999999999289457264239899814128875732421875 + 1 / 2 ^ 52) = fin 7.199999999999999289457264239899814128875732421875 :=
    binary64_fl_of_lt _ _ (2) (8106479329266892) (by norm_num) (by norm_num) (by norm_num) (by norm_num)
      (by norm_num) (by norm_num)
  have h11 : binary64.fl (7.199999999999999289457264239899814128875732421875 * 10 ^ 2) = fin 719.9999999999998863131622783839702606201171875 :=
    binary64_fl_of_lt _ _ (9) (6333186975989759) (by norm_num) (by norm_num) (by norm_num) (by norm_num)
      (by norm_num) (by norm_num)
  have h12 : ⌊(719.9999999999998863131622783839702606201171875 : ℚ) + 1 / 2⌋ = 720 := by
    rw [Int.floor_eq_iff]; constructor <;> norm_num
  have h13 : round binary64 (fin 7.199999999999999289457264239899814128875732421875) 2 = binary64.fl 7.2 := by
    rw [round_eval binary64 _ _ _ _ 2 h10 h11 h12]; norm_num
  have h14 : binary64.fl (4.7249999999999996447286321199499070644378662109375 + 1 / 2 ^ 52) = fin 4.7249999999999996447286321199499070644378662109375 :=
    binary64_fl_of_lt _ _ (2) (5319877059831398) (by norm_num) (by norm_num) (by norm_num) (by norm_num)
      (by norm_num) (by norm_num)
  have h15 : binary64.fl (4.7249999999999996447286321199499070644378662109375 * 10 ^ 2) = fin 472.49999999999994315658113919198513031005859375 :=
    binary64_fl_of_lt _ _ (8) (8312307905986559) (by norm_num) (by norm_num) (by norm_num) (by norm_num)
      (by norm_num) (by norm_num)
  have h16 : ⌊(472.49999999999994315658113919198513031005859375 : ℚ) + 1 / 2⌋ = 472 := by
    rw [Int.floor_eq_iff]; constructor <;> norm_num
  have h17 : round binary64 (fin 4.7249999999999996447286321199499070644378662109375) 2 = binary64.fl 4.72 := by
    rw [round_eval binary64 _ _ _ _ 2 h14 h15 h16]; norm_num
  have hv : estimateCreditPrice binary64 CONFIG (Value.number (binary64.fl 0.045)) =
      some ⟨binary64.fl 2.25, binary64.fl 7.2, binary64.fl 4.72⟩ := by
    rw [h1, estimateCreditPrice_eval binary64 _ _ _ _ _ h2 h3 h4 h5,
      h9, h13, h17]
  exact ⟨binary64_fl_ne_nan _,
    estimateCreditPrice_unrounded binary64 _ (binary64_fl_ne_nan _), hv⟩

/-- C13 as stated fails in binary64 arithmetic at `estimateCreditPrice(0.00014)`:
the result is `{min: 0.01, max: 0.02, average: 0.01}`, while the average of the
returned bounds, `round((0.01 + 0.02) / 2, 2)`, is 0.02. -/
theorem estimateCreditPrice_rounded_counterexample :
    estimateCreditPrice binary64 CONFIG (Value.number (binary64.fl 0.00014)) =
        some ⟨binary64.fl 0.01, binary64.fl 0.02, binary64.fl 0.01⟩ ∧
      round binary64 (binary64.div (binary64.add (binary64.fl 0.01) (binary64.fl 0.02))
        (fin 2)) 2 = binary64.fl 0.02 ∧
      ∀ p, estimateCreditPrice binary64 CONFIG (Value.number (binary64.fl 0.00014)) = some p →
        p.average ≠ round binary64 (binary64.div (binary64.add p.min p.max) (fin 2)) 2 := by
  have h1 : binary64.fl (0.00014) = fin 0.0001399999999999999877355050248439738425076939165592193603515625 :=
    binary64_fl_of_lt _ _ (-13) (5165088340638674) (by norm_num) (by norm_num) (by norm_num) (by norm_num)
      (by norm_num) (by norm_num)
  have h2 : binary64.fl (0.0001399999999999999877355050248439738425076939165592193603515625 * 50) = fin 0.006999999999999999278355033993648248724639415740966796875 :=
    binary64_fl_of_lt _ _ (-8) (8070450532247928) (by norm_num) (by norm_num) (by norm_num) (by norm_num)
      (by norm_num) (by norm_num)
  have h3 : binary64.fl (0.0001399999999999999877355050248439738425076939165592193603515625 * 160) = fin 0.022399999999999996302957327998228720389306545257568359375 :=
    binary64_fl_of_tie _ _ (-6) (6456360425798342) (6456360425798342) (by norm_num) (by norm_num) (by norm_num) (by norm_num)
      (by norm_num) (by norm_num)
  have h4 : binary64.fl (0.006999999999999999278355033993648248724639415740966796875 + 0.022399999999999996302957327998228720389306545257568359375) = fin 0.02939999999999999558131236199187696911394596099853515625 :=
    binary64_fl_of_lt _ _ (-6) (8473973058860324) (by norm_num) (by norm_num) (by norm_num) (by norm_num)
      (by norm_num) (by norm_num)
  have h5 : binary64.fl (0.02939999999999999558131236199187696911394596099853515625 / 2) = fin 0.014699999999999997790656180995938484556972980499267578125 :=
    binary64_fl_of_lt _ _ (-7) (8473973058860324) (by norm_num) (by norm_num) (by norm_num) (by norm_num)
      (by norm_num) (by norm_num)
  have h6 : binary64.fl (0.006999999999999999278355033993648248724639415740966796875 + 1 / 2 ^ 52) = fin 0.007000000000000221322959959024956333450973033905029296875 :=
    binary64_fl_of_lt _ _ (-8) (8070450532248184) (by norm_num) (by norm_num) (by norm_num) (by norm_num)
      (by norm_num) (by norm_num)
  have h7 : binary64.fl (0.007000000000000221322959959024956333450973033905029296875 * 10 ^ 2) = fin 0.7000000000000221600515715181245468556880950927734375 :=
    binary64_fl_of_lt _ _ (-1) (6305039478318894) (by norm_num) (by norm_num) (by norm_num) (by norm_num)
      (by norm_num) (by norm_num)
  have h8 : ⌊(0.7000000000000221600515715181245468556880950927734375 : ℚ) + 1 / 2⌋ = 1 := by
    rw [Int.floor_eq_iff]; constructor <;> norm_num
  have h9 : round binary64 (fin 0.006999999999999999278355033993648248724639415740966796875) 2 = binary64.fl 0.01 := by
    rw [round_eval binary64 _ _ _ _ 2 h6 h7 h8]; norm_num
  have h10 : binary64.fl (0.022399999999999996302957327998228720389306545257568359375 + 1 / 2 ^ 52) = fin 0.022400000000000218347562253029536805115640163421630859375 :=
    binary64_fl_of_lt _ _ (-6) (6456360425798406) (by norm_num) (by norm_num) (by norm_num) (by norm_num)
      (by norm_num) (by norm_num)
  have h11 : binary64.fl (0.022400000000000218347562253029536805115640163421630859375 * 10 ^ 2) = fin 2.240000000000021973534103381098248064517974853515625 :=
    binary64_fl_of_lt _ _ (1) (5044031582655005) (by norm_num) (by norm_num) (by norm_num) (by norm_num)
      (by norm_num) (by norm_num)
  have h12 : ⌊(2.240000000000021973534103381098248064517974853515625 : ℚ) + 1 / 2⌋ = 2 := by
    rw [Int.floor_eq_iff]; constructor <;> norm_num
  have h13 : round binary64 (fin 0.022399999999999996302957327998228720389306545257568359375) 2 = binary64.fl 0.02 := by
    rw [round_eval binary64 _ _ _ _ 2 h10 h11 h12]; norm_num
  have h14 : binary64.fl (0.014699999999999997790656180995938484556972980499267578125 + 1 / 2 ^ 52) = fin 0.014700000000000219835261106027246569283306598663330078125 :=
    binary64_fl_of_lt _ _ (-7) (8473973058860452) (by norm_num) (by norm_num) (by norm_num) (by norm_num)
      (by norm_num) (by norm_num)
  have h15 : binary64.fl (0.014700000000000219835261106027246569283306598663330078125 * 10 ^ 2) = fin 1.4700000000000219557705349870957434177398681640625 :=
    binary64_fl_of_lt _ _ (0) (6620291452234728) (by norm_num) (by norm_num) (by norm_num) (by norm_num)
      (by norm_num) (by norm_num)
  have h16 : ⌊(1.4700000000000219557705349870957434177398681640625 : ℚ) + 1 / 2⌋ = 1 := by
    rw [Int.floor_eq_iff]; constructor <;> norm_num
  have h17 : round binary64 (fin 0.014699999999999997790656180995938484556972980499267578125) 2 = binary64.fl 0.01 := by
    rw [round_eval binary64 _ _ _ _ 2 h14 h15 h16]; norm_num
  have h18 : binary64.fl (0.01) = fin 0.01000000000000000020816681711721685132943093776702880859375 :=
    binary64_fl_of_lt _ _ (-7) (5764607523034235) (by norm_num) (by norm_num) (by norm_num) (by norm_num)
      (by norm_num) (by norm_num)
  have h19 : binary64.fl (0.02) = fin 0.0200000000000000004163336342344337026588618755340576171875 :=
    binary64_fl_of_lt _ _ (-6) (5764607523034235) (by norm_num) (by norm_num) (by norm_num) (by norm_num)
      (by norm_num) (by norm_num)
  have h20 : binary64.fl (0.01000000000000000020816681711721685132943093776702880859375 + 0.0200000000000000004163336342344337026588618755340576171875) = fin 0.0299999999999999988897769753748434595763683319091796875 :=
    binary64_fl_of_tie _ _ (-6) (8646911284551352) (8646911284551352) (by norm_num) (by norm_num) (by norm_num) (by norm_num)
      (by norm_num) (by norm_num)
  have h21 : binary64.fl (0.0299999999999999988897769753748434595763683319091796875 / 2) = fin 0.01499999999999999944488848768742172978818416595458984375 :=
    binary64_fl_of_lt _ _ (-7) (8646911284551352) (by norm_num) (by norm_num) (by norm_num) (by norm_num)
      (by norm_num) (by norm_num)
  have h22 : binary64.fl (0.01499999999999999944488848768742172978818416595458984375 + 1 / 2 ^ 52) = fin 0.01500000000000022148949341271872981451451778411865234375 :=
    binary64_fl_of_lt _ _ (-7) (8646911284551480) (by norm_num) (by norm_num) (by norm_num) (by norm_num)
      (by norm_num) (by norm_num)
  have h23 : binary64.fl (0.01500000000000022148949341271872981451451778411865234375 * 10 ^ 2) = fin 1.50000000000002220446049250313080847263336181640625 :=
    binary64_fl_of_lt _ _ (0) (6755399441055844) (by norm_num) (by norm_num) (by norm_num) (by norm_num)
      (by norm_num) (by norm_num)
  have h24 : ⌊(1.50000000000002220446049250313080847263336181640625 : ℚ) + 1 / 2⌋ = 2 := by
    rw [Int.floor_eq_iff]; constructor <;> norm_num
  have h25 : round binary64 (fin 0.01499999999999999944488848768742172978818416595458984375) 2 = binary64.fl 0.02 := by
    rw [round_eval binary64 _ _ _ _ 2 h22 h23 h24]; norm_num
  have hv : estimateCreditPrice binary64 CONFIG (Value.number (binary64.fl 0.00014)) =
      some ⟨binary64.fl 0.01, binary64.fl 0.02, binary64.fl 0.01⟩ := by
    rw [h1, estimateCreditPrice_eval binary64 _ _ _ _ _ h2 h3 h4 h5,
      h9, h13, h17]
  have hclaim : round binary64 (binary64.div (binary64.add (binary64.fl 0.01) (binary64.fl 0.02))
      (fin 2)) 2 = binary64.fl 0.02 := by
    rw [h18, h19, add_fin_fin, h20, div_fin_fin _ _ _ (by norm_num), h21, h25, h19]
  have hne : binary64.fl 0.01 ≠ binary64.fl 0.02 := by
    rw [h18, h19]; norm_num
  refine ⟨hv, hclaim, ?_⟩
  intro p hp
  rw [hv] at hp
  cases hp
  simp only []
  rw [hclaim]
  exact hne

theorem calculateCarbonCredits_shipped (R : Rounding K) (e : Value K) :
    calculateCarbonCredits R CONFIG e = some (round R (R.div (safeNumber e) (fin 1000)) 4) := by
  simp [calculateCarbonCredits, CONFIG, safeNumber, toNumber, isNaN]

theorem calculateCarbonCredits_null_exact :
    calculateCarbonCredits exactArith (CONFIG : Config K) Value.null = some (fin 0) := by
  rw [calculateCarbonCredits_shipped]
  simp only [safeNumber, toNumber, isNaN, Bool.false_eq_true, if_false, exactArith_div,
    fin_div_fin _ (1000 : K) (by norm_num), zero_div, round_fin, roundFin_zero_four]

theorem calculateCarbonCredits_null_binary64 :
    calculateCarbonCredits binary64 CONFIG Value.null = some (fin 0) := by
  have h1 : binary64.fl (0 / 1000) = fin 0 :=
    binary64_fl_of_eq_zero _ (by norm_num)
  have h2 : binary64.fl (0 + 1 / 2 ^ 52) = fin 0.0000000000000002220446049250313080847263336181640625 :=
    binary64_fl_of_lt _ _ (-52) (4503599627370496) (by norm_num) (by norm_num) (by norm_num) (by norm_num)
      (by norm_num) (by norm_num)
  have h3 : binary64.fl (0.0000000000000002220446049250313080847263336181640625 * 10 ^ 4) = fin 0.000000000002220446049250313080847263336181640625 :=
    binary64_fl_of_lt _ _ (-39) (5497558138880000) (by norm_num) (by norm_num) (by norm_num) (by norm_num)
      (by norm_num) (by norm_num)
  have h4 : ⌊(0.000000000002220446049250313080847263336181640625 : ℚ) + 1 / 2⌋ = 0 := by
    rw [Int.floor_eq_iff]; constructor <;> norm_num
  have h5 : round binary64 (fin 0) 4 = binary64.fl 0 := by
    rw [round_eval binary64 _ _ _ _ 4 h2 h3 h4]; norm_num
  have hv : calculateCarbonCredits binary64 CONFIG Value.null = some (fin 0) := by
    rw [calculateCarbonCredits_shipped]
    simp only [safeNumber, toNumber, isNaN, Bool.false_eq_true, if_false]
    rw [div_fin_fin _ _ _ (by norm_num), h1, h5, binary64_fl_zero]
  exact hv

/-- C14, as amended. Whenever `calculateEmission(distance, mode)` is `null`, the
carbon credits derived from it are 0, not `null`: with the shipped policy
`calculateCarbonCredits(null)` is 0, because `safeNumber` turns the `null`
emission into 0.  Proved in binary64 arithmetic and in the arithmetic that
rounds nothing. -/
theorem calculateCarbonCredits_of_null (R : Rounding ℚ) (d : Value ℚ) (mode : String)
    (h : calculateEmission R CONFIG d mode = none) :
    calculateCarbonCredits binary64 CONFIG (resultValue (calculateEmission R CONFIG d mode)) =
        some (fin 0) ∧
      calculateCarbonCredits exactArith CONFIG
        (resultValue (calculateEmission R CONFIG d mode)) = some (fin 0) := by
  rw [h]
  exact ⟨calculateCarbonCredits_null_binary64, calculateCarbonCredits_null_exact⟩

/-- C14 as amended, at the distance 100 and the mode `unknown-mode`. -/
theorem calculateCarbonCredits_of_null_witness :
    calculateEmission binary64 CONFIG (Value.number (fin 100)) "unknown-mode" = none ∧
      calculateCarbonCredits binary64 CONFIG
        (resultValue (calculateEmission binary64 CONFIG (Value.number (fin 100))
          "unknown-mode")) = some (fin 0) :=
  ⟨calculateEmission_unknown _ _,
    (calculateCarbonCredits_of_null binary64 (Value.number (fin 100)) "unknown-mode"
      (calculateEmission_unknown _ _)).1⟩

/-- C14 as stated fails at the distance 100 and the mode `unknown-mode`: the
emission is `null`, the credits derived from it are not. -/
theorem calculateCarbonCredits_null_counterexample :
    calculateEmission binary64 CONFIG (Value.number (fin 100)) "unknown-mode" = none ∧
      calculateCarbonCredits binary64 CONFIG
        (resultValue (calculateEmission binary64 CONFIG (Value.number (fin 100))
          "unknown-mode")) ≠ none := by
  refine ⟨calculateEmission_unknown _ _, ?_⟩
  rw [calculateEmission_unknown]
  simp only [resultValue]
  rw [calculateCarbonCredits_null_binary64]
  simp

/-- C15, as amended. For every finite value `v` and `decimals` 2 or 4, with `s`
the value that the platform computes for `(v + Number.EPSILON) * 10^decimals`
(when that is finite), `round(v, decimals)` is `k / 10^decimals`, divided by the
platform, for the integer `k` with `k - 1/2 ≤ s < k + 1/2`: `Math.round` takes
the integer nearest to `s`, an exact tie going to the larger integer (toward
+infinity).  Proved for every rounding. -/
theorem round_nearest_ties_up (R : Rounding K) (v s : K) (decimals : ℕ)
    (_hd : decimals = 2 ∨ decimals = 4)
    (hs : R.mul (R.add (fin v) EPSILON) (fin (10 ^ decimals)) = fin s) :
    ∃ k : ℤ, round R (fin v) decimals = R.div (fin (k : K)) (fin (10 ^ decimals)) ∧
      (k : K) - 1 / 2 ≤ s ∧ s < (k : K) + 1 / 2 := by
  refine ⟨⌊s + 1 / 2⌋, by simp only [round, hs, mathRound], ?_, ?_⟩
  · have h := Int.floor_le (s + 1 / 2)
    linarith
  · have h := Int.lt_floor_add_one (s + 1 / 2)
    linarith

/-- C15 as amended, in binary64 arithmetic at `round(2.135, 2)`: the scaled value
is 213.49999999999997, so `k` is 213 and the result is 2.13. -/
theorem round_nearest_ties_up_witness :
    ((2 : ℕ) = 2 ∨ (2 : ℕ) = 4) ∧ binary64.fl 2.135 = fin 2.1349999999999997868371792719699442386627197265625 ∧
      binary64.mul (binary64.add (fin 2.1349999999999997868371792719699442386627197265625) EPSILON)
        (fin (10 ^ 2)) = fin 213.499999999999971578290569595992565155029296875 ∧
      (∃ k : ℤ,
        round binary64 (fin 2.1349999999999997868371792719699442386627197265625) 2 =
          binary64.div (fin (k : ℚ)) (fin (10 ^ 2)) ∧
        (k : ℚ) - 1 / 2 ≤ 213.499999999999971578290569595992565155029296875 ∧
        (213.499999999999971578290569595992565155029296875 : ℚ) < (k : ℚ) + 1 / 2) ∧
      round binary64 (fin 2.1349999999999997868371792719699442386627197265625) 2 = binary64.fl 2.13 := by
  have h1 : binary64.fl (2.135) = fin 2.1349999999999997868371792719699442386627197265625 :=
    binary64_fl_of_lt _ _ (1) (4807592602218004) (by norm_num) (by norm_num) (by norm_num) (by norm_num)
      (by norm_num) (by norm_num)
  have h2 : binary64.fl (2.1349999999999997868371792719699442386627197265625 + 1 / 2 ^ 52) = fin 2.1349999999999997868371792719699442386627197265625 :=
    binary64_fl_of_tie _ _ (1) (4807592602218004) (4807592602218004) (by norm_num) (by norm_num) (by norm_num) (by norm_num)
      (by norm_num) (by norm_num)
  have h3 : binary64.fl (2.1349999999999997868371792719699442386627197265625 * 10 ^ 2) = fin 213.499999999999971578290569595992565155029296875 :=
    binary64_fl_of_lt _ _ (7) (7511863440965631) (by norm_num) (by norm_num) (by norm_num) (by norm_num)
      (by norm_num) (by norm_num)
  have hs : binary64.mul (binary64.add (fin 2.1349999999999997868371792719699442386627197265625) EPSILON)
      (fin (10 ^ 2)) = fin 213.499999999999971578290569595992565155029296875 := by
    simp only [EPSILON, add_fin_fin, h2, mul_fin_fin, h3]
  have hk : ⌊(213.499999999999971578290569595992565155029296875 : ℚ) + 1 / 2⌋ = 213 := by
    rw [Int.floor_eq_iff]; constructor <;> norm_num
  refine ⟨Or.inl rfl, h1, hs, round_nearest_ties_up binary64 _ _ 2 (Or.inl rfl) hs, ?_⟩
  rw [round_eval binary64 _ _ _ _ 2 h2 h3 hk]
  norm_num

/-- C15 as stated fails in binary64 arithmetic at `round(-0.005, 2)`: the code
returns 0, while the multiple of 0.01 nearest to the argument, ties away from
zero, is -0.01. -/
theorem round_half_away_counterexample :
    binary64.fl (-0.005) = fin (-0.005000000000000000104083408558608425664715468883514404296875) ∧
      round binary64 (fin (-0.005000000000000000104083408558608425664715468883514404296875)) 2 = fin 0 ∧
      roundHalfAwayFromZero ((-0.005000000000000000104083408558608425664715468883514404296875) : ℚ) 2 = -0.01 ∧
      round binary64 (binary64.fl (-0.005)) 2 ≠
        fin (roundHalfAwayFromZero ((-0.005000000000000000104083408558608425664715468883514404296875) : ℚ) 2) := by
  have h1 : binary64.fl (-0.005) = fin (-0.005000000000000000104083408558608425664715468883514404296875) :=
    binary64_fl_of_lt _ _ (-8) (-5764607523034235) (by norm_num) (by norm_num) (by norm_num) (by norm_num)
      (by norm_num) (by norm_num)
  have h2 : binary64.fl ((-0.005000000000000000104083408558608425664715468883514404296875) + 1 / 2 ^ 52) = fin (-0.004999999999999778059478483527300340938381850719451904296875) :=
    binary64_fl_of_lt _ _ (-8) (-5764607523033979) (by norm_num) (by norm_num) (by norm_num) (by norm_num)
      (by norm_num) (by norm_num)
  have h3 : binary64.fl ((-0.004999999999999778059478483527300340938381850719451904296875) * 10 ^ 2) = fin (-0.49999999999997779553950749686919152736663818359375) :=
    binary64_fl_of_lt _ _ (-2) (-9007199254740592) (by norm_num) (by norm_num) (by norm_num) (by norm_num)
      (by norm_num) (by norm_num)
  have hk : ⌊((-0.49999999999997779553950749686919152736663818359375) : ℚ) + 1 / 2⌋ = 0 := by
    rw [Int.floor_eq_iff]; constructor <;> norm_num
  have hr : round binary64 (fin (-0.005000000000000000104083408558608425664715468883514404296875)) 2 = fin 0 := by
    rw [round_eval binary64 _ _ _ _ 2 h2 h3 hk]
    exact binary64_fl_of_eq_zero _ (by norm_num)
  have ha : roundHalfAwayFromZero ((-0.005000000000000000104083408558608425664715468883514404296875) : ℚ) 2 = -0.01 := by
    unfold roundHalfAwayFromZero
    rw [if_neg (by norm_num), Int.floor_eq_iff.mpr (⟨by norm_num, by norm_num⟩ :
      ((1 : ℤ) : ℚ) ≤ -(-0.005000000000000000104083408558608425664715468883514404296875) * 10 ^ 2 + 1 / 2 ∧
        -((-0.005000000000000000104083408558608425664715468883514404296875) : ℚ) * 10 ^ 2 + 1 / 2 < (1 : ℤ) + 1)]
    norm_num
  refine ⟨h1, hr, ha, ?_⟩
  rw [h1, hr, ha]
  norm_num

theorem calculateCarbonCredits_thousand_exact :
    calculateCarbonCredits exactArith (CONFIG : Config K) (Value.number (fin 1000)) =
      some (fin 1) := by
  rw [calculateCarbonCredits_shipped]
  simp only [safeNumber, toNumber, isNaN, Bool.false_eq_true, if_false, exactArith_div,
    fin_div_fin _ (1000 : K) (by norm_num), round_fin]
  rw [roundFin_eq _ 4 10000 (by norm_num) (by norm_num)]
  norm_num

theorem calculateCarbonCredits_thousand_binary64 :
    calculateCarbonCredits binary64 CONFIG (Value.number (fin 1000)) = some (fin 1) := by
  have h1 : binary64.fl (1000 / 1000) = fin 1 :=
    binary64_fl_of_lt _ _ (0) (4503599627370496) (by norm_num) (by norm_num) (by norm_num) (by norm_num)
      (by norm_num) (by norm_num)
  have h2 : binary64.fl (1 + 1 / 2 ^ 52) = fin 1.0000000000000002220446049250313080847263336181640625 :=
    binary64_fl_of_lt _ _ (0) (4503599627370497) (by norm_num) (by norm_num) (by norm_num) (by norm_num)
      (by norm_num) (by norm_num)
  have h3 : binary64.fl (1.0000000000000002220446049250313080847263336181640625 * 10 ^ 4) = fin 10000.000000000001818989403545856475830078125 :=
    binary64_fl_of_lt _ _ (13) (5497558138880001) (by norm_num) (by norm_num) (by norm_num) (by norm_num)
      (by norm_num) (by norm_num)
  have h4 : ⌊(10000.000000000001818989403545856475830078125 : ℚ) + 1 / 2⌋ = 10000 := by
    rw [Int.floor_eq_iff]; constructor <;> norm_num
  have h5 : round binary64 (fin 1) 4 = binary64.fl 1 := by
    rw [round_eval binary64 _ _ _ _ 4 h2 h3 h4]; norm_num
  have h6 : binary64.fl (1) = fin 1 :=
    binary64_fl_of_lt _ _ (0) (4503599627370496) (by norm_num) (by norm_num) (by norm_num) (by norm_num)
      (by norm_num) (by norm_num)
  have hv : calculateCarbonCredits binary64 CONFIG (Value.number (fin 1000)) = some (fin 1) := by
    rw [calculateCarbonCredits_shipped, safeNumber_fin, div_fin_fin _ _ _ (by norm_num), h1,
      h5, h6]
  exact hv

/-- C16. With the shipped credit policy (`KG_PER_CREDIT = 1000`), for every
number `emissionKg` (not `NaN`) `calculateCarbonCredits(emissionKg)` is present
and equals `round(emissionKg / 1000, 4)`, the division being the rounded one of
the platform, whatever the rounding; `calculateCarbonCredits(1000)` is 1, in
binary64 arithmetic and in the arithmetic that rounds nothing; for a policy
whose `KG_PER_CREDIT` is 0 or missing it returns `null`. -/
theorem calculateCarbonCredits_spec (R : Rounding K) :
    (∀ x : JSNum K, x ≠ nan →
        calculateCarbonCredits R CONFIG (Value.number x) =
          some (round R (R.div x (fin 1000)) 4)) ∧
      calculateCarbonCredits binary64 CONFIG (Value.number (fin 1000)) = some (fin 1) ∧
      calculateCarbonCredits exactArith (CONFIG : Config K) (Value.number (fin 1000)) =
        some (fin 1) ∧
      (∀ (cfg : Config K) (cc : CarbonCredit K) (e : Value K), cfg.CARBON_CREDIT = some cc →
        (cc.KG_PER_CREDIT = Value.number (fin 0) ∨ cc.KG_PER_CREDIT = Value.undefined) →
        calculateCarbonCredits R cfg e = none) := by
  refine ⟨?_, calculateCarbonCredits_thousand_binary64, calculateCarbonCredits_thousand_exact, ?_⟩
  · intro x hx
    rw [calculateCarbonCredits_shipped, safeNumber_number x hx]
  · intro cfg cc e hcfg hz
    rcases hz with hz | hz <;>
      simp [calculateCarbonCredits, hcfg, hz, safeNumber, toNumber, isNaN]

/-- C16 in binary64 arithmetic at the emission 2002.75, whose credits are 2.0027,
and at a policy without `KG_PER_CREDIT`. -/
theorem calculateCarbonCredits_spec_witness :
    (fin 2002.75 : JSNum ℚ) ≠ nan ∧
      calculateCarbonCredits binary64 CONFIG (Value.number (fin 2002.75)) =
        some (round binary64 (binary64.div (fin 2002.75) (fin 1000)) 4) ∧
      calculateCarbonCredits binary64 CONFIG (Value.number (fin 2002.75)) =
        some (binary64.fl 2.0027) ∧
      calculateCarbonCredits binary64
        (⟨[], some ⟨Value.undefined, Value.number (fin 50), Value.number (fin 160)⟩⟩ : Config ℚ)
        (Value.number (fin 1000)) = none := by
  have h2 : binary64.fl (2002.75 / 1000) = fin 2.00274999999999980815346134477294981479644775390625 :=
    binary64_fl_of_lt _ _ (1) (4509792076858130) (by norm_num) (by norm_num) (by norm_num) (by norm_num)
      (by norm_num) (by norm_num)
  have h3 : binary64.fl (2.00274999999999980815346134477294981479644775390625 + 1 / 2 ^ 52) = fin 2.00274999999999980815346134477294981479644775390625 :=
    binary64_fl_of_tie _ _ (1) (4509792076858130) (4509792076858130) (by norm_num) (by norm_num) (by norm_num) (by norm_num)
      (by norm_num) (by norm_num)
  have h4 : binary64.fl (2.00274999999999980815346134477294981479644775390625 * 10 ^ 4) = fin 20027.49999999999636202119290828704833984375 :=
    binary64_fl_of_lt _ _ (14) (5505117281320959) (by norm_num) (by norm_num) (by norm_num) (by norm_num)
      (by norm_num) (by norm_num)
  have h5 : ⌊(20027.49999999999636202119290828704833984375 : ℚ) + 1 / 2⌋ = 20027 := by
    rw [Int.floor_eq_iff]; constructor <;> norm_num
  have h6 : round binary64 (fin 2.00274999999999980815346134477294981479644775390625) 4 = binary64.fl 2.0027 := by
    rw [round_eval binary64 _ _ _ _ 4 h3 h4 h5]; norm_num
  have hv : calculateCarbonCredits binary64 CONFIG (Value.number (fin 2002.75)) =
      some (binary64.fl 2.0027) := by
    rw [calculateCarbonCredits_shipped, safeNumber_fin, div_fin_fin _ _ _ (by norm_num), h2,
      h6]
  exact ⟨by simp, (calculateCarbonCredits_spec binary64).1 (fin 2002.75) (by simp), hv,
    (calculateCarbonCredits_spec binary64).2.2.2 _ _ _ rfl (Or.inr rfl)⟩

end Credits

/-! ## The list of cities -/

section Cities

set_option maxRecDepth 100000

variable {K : Type} [LinearOrderedField K]

theorem getAllCities_eq (localeCompare : String → String → JSNum K) :
    getAllCities localeCompare = sortWith (fun a b => localeCompare a b) insertedCities := rfl

theorem insertedCities_nodup : insertedCities.Nodup := by decide

theorem insertedCities_sound :
    ∀ name ∈ insertedCities, ∃ r ∈ routes, name = r.origin ∨ name = r.destination := by
  decide

theorem insertedCities_complete :
    ∀ r ∈ routes, r.origin ∈ insertedCities ∧ r.destination ∈ insertedCities := by
  decide

theorem mem_getAllCities (localeCompare : String → String → JSNum K) (name : String) :
    name ∈ getAllCities localeCompare ↔
      ∃ r ∈ routes, name = r.origin ∨ name = r.destination := by
  rw [getAllCities_eq, mem_sortWith]
  constructor
  · exact insertedCities_sound name
  · rintro ⟨r, hr, h | h⟩
    · rw [h]; exact (insertedCities_complete r hr).1
    · rw [h]; exact (insertedCities_complete r hr).2

/-- C17. For every comparison `localeCompare` that is a total and transitive
order of names (as a collation is), `getAllCities()` has no duplicates, contains
exactly the names that occur as origin or destination of some route, and is
ordered by the comparison: no element is followed by one that the comparison
places before it. -/
theorem getAllCities_spec (localeCompare : String → String → JSNum K)
    (htotal : ∀ a b, gt (localeCompare a b) (fin 0) = false ∨
      gt (localeCompare b a) (fin 0) = false)
    (htrans : ∀ a b c, gt (localeCompare a b) (fin 0) = false →
      gt (localeCompare b c) (fin 0) = false → gt (localeCompare a c) (fin 0) = false) :
    (getAllCities localeCompare).Nodup ∧
      (∀ name, name ∈ getAllCities localeCompare ↔
        ∃ r ∈ routes, name = r.origin ∨ name = r.destination) ∧
      (getAllCities localeCompare).Pairwise
        (fun a b => gt (localeCompare a b) (fin 0) = false) := by
  refine ⟨?_, mem_getAllCities localeCompare, ?_⟩
  · rw [getAllCities_eq]
    exact (List.perm_insertionSort _ _).nodup_iff.mpr insertedCities_nodup
  · rw [getAllCities_eq]
    haveI : IsTotal String (fun a b => gt (localeCompare a b) (fin 0) = false) := ⟨htotal⟩
    haveI : IsTrans String (fun a b => gt (localeCompare a b) (fin 0) = false) := ⟨htrans⟩
    exact List.sorted_insertionSort _ _

theorem sampleCompare_le (a b : String) : gt (sampleCompare a b) (fin 0) = false ↔ a ≤ b := by
  unfold sampleCompare
  by_cases h1 : a < b
  · simp [h1, gt, lt, h1.le]
  · by_cases h2 : a = b
    · simp [h2, gt, lt]
    · have h3 : ¬ a ≤ b := fun h => h1 (lt_of_le_of_ne h h2)
      simp [h1, h2, gt, lt, h3]

/-- C17 for the comparison of names by code points. -/
theorem getAllCities_spec_witness :
    (getAllCities sampleCompare).Nodup ∧
      (∀ name, name ∈ getAllCities sampleCompare ↔
        ∃ r ∈ routes, name = r.origin ∨ name = r.destination) ∧
      (getAllCities sampleCompare).Pairwise
        (fun a b => gt (sampleCompare a b) (fin 0) = false) :=
  getAllCities_spec sampleCompare
    (fun a b => by
      rw [sampleCompare_le, sampleCompare_le]; exact le_total a b)
    (fun a b c h1 h2 => by
      rw [sampleCompare_le] at h1 h2 ⊢; exact le_trans h1 h2)

theorem canon_brasilia : canon "Brasília, DF" = "brasília, df" := by decide

theorem getCoordsFromMap_brasilia :
    (getCoordsFromMap "Brasília, DF" : Option (CoordRef K)) = none := by
  have hne : ("Brasília, DF" : String) ≠ "" := by decide
  have hl : (cityCoords : List (String × Coord K)).lookup "brasília, df" = none := by
    simp [cityCoords, List.lookup]
  have hp : "brasília, df" ∉ objectPrototypeKeys := by decide
  simp only [getCoordsFromMap, hne, if_false, objectGet]
  rw [show toLowerCase (trim "Brasília, DF") = "brasília, df" from canon_brasilia, hl]
  simp only [hp, if_false]

end Cities

/-! ## Accents, symmetry and unresolved pairs -/

section Symmetry

set_option maxRecDepth 100000

variable {K : Type} [LinearOrderedField K] [FloorRing K]

theorem routeMatches_swap (o d : String) : routeMatches o d = routeMatches d o := by
  funext r
  simp only [routeMatches]
  rw [Bool.or_comm]

theorem findDistance_swap (origin destination : String) :
    findDistance origin destination = findDistance destination origin := by
  simp only [findDistance, findDistanceLoop_eq_find]
  rw [routeMatches_swap]
  by_cases h : origin = "" ∨ destination = ""
  · rw [if_pos h, if_pos h.symm]
  · rw [if_neg h, if_neg (fun h2 => h h2.symm)]

theorem canon_sao_paulo : canon "Sao Paulo, SP" = "sao paulo, sp" := by decide

theorem canon_rio : canon "Rio de Janeiro, RJ" = "rio de janeiro, rj" := by decide

/-- C18. Canonicalization folds case and surrounding whitespace but not accents:
`findDistance("  são paulo, sp ", "Rio de Janeiro, RJ")` is 430,
`findDistance("Sao Paulo, SP", "Rio de Janeiro, RJ")` is `null`, and since the
coordinate table has the key `sao paulo, sp`,
`estimateRoadDistance("Sao Paulo, SP", "Rio de Janeiro, RJ")` has method
`estimate`, on every platform. -/
theorem canonicalization_keeps_accents (M : MathLib K) :
    findDistance "  são paulo, sp " "Rio de Janeiro, RJ" = some 430 ∧
      findDistance "Sao Paulo, SP" "Rio de Janeiro, RJ" = none ∧
      (cityCoords : List (String × Coord K)).lookup (canon "Sao Paulo, SP") =
        some ⟨-23.55052, -46.633308⟩ ∧
      (estimateRoadDistance M "Sao Paulo, SP" "Rio de Janeiro, RJ").method = Method.estimate := by
  have h1 : findDistance "  são paulo, sp " "Rio de Janeiro, RJ" = some 430 := by decide
  have h2 : findDistance "Sao Paulo, SP" "Rio de Janeiro, RJ" = none := by decide
  have h3 : (cityCoords : List (String × Coord K)).lookup (canon "Sao Paulo, SP") =
      some ⟨-23.55052, -46.633308⟩ := by
    rw [canon_sao_paulo]; simp [cityCoords, List.lookup]
  have h4 : (cityCoords : List (String × Coord K)).lookup (canon "Rio de Janeiro, RJ") =
      some ⟨-22.906847, -43.172896⟩ := by
    rw [canon_rio]; simp [cityCoords, List.lookup]
  refine ⟨h1, h2, h3, ?_⟩
  simp only [estimateRoadDistance, h2, getCoordsFromMap_of_lookup _ _ h3,
    getCoordsFromMap_of_lookup _ _ h4]

/-- C19. On every platform whose `Math.sin` is an odd function,
`estimateRoadDistance` is symmetric for all strings: `estimateRoadDistance(o, d)`
and `estimateRoadDistance(d, o)` have the same method and the same distance. -/
theorem estimateRoadDistance_symm (M : MathLib K) (hsin : ∀ x, M.sin (-x) = -(M.sin x))
    (origin destination : String) :
    estimateRoadDistance M origin destination = estimateRoadDistance M destination origin := by
  simp only [estimateRoadDistance]
  rw [findDistance_swap destination origin]
  cases findDistance origin destination with
  | some d => rfl
  | none =>
    cases ha : (getCoordsFromMap origin : Option (CoordRef K)) with
    | none =>
      cases hb : (getCoordsFromMap destination : Option (CoordRef K)) <;> rfl
    | some a =>
      cases hb : (getCoordsFromMap destination : Option (CoordRef K)) with
      | none => rfl
      | some b =>
        simp only []
        rw [hav_comm M hsin b a, Bool.or_comm]

/-- C19 for São Paulo (unaccented) and Curitiba, a pair without a route whose
distance is estimated, on the sample library. -/
theorem estimateRoadDistance_symm_witness :
    (∀ x, sampleMath.sin (-x) = -(sampleMath.sin x)) ∧
      estimateRoadDistance sampleMath "Sao Paulo, SP" "Curitiba, PR" =
        estimateRoadDistance sampleMath "Curitiba, PR" "Sao Paulo, SP" :=
  ⟨sampleMath_sin_neg, estimateRoadDistance_symm sampleMath sampleMath_sin_neg _ _⟩

/-- C20. Not every pair of cities offered by `getAllCities()` can be resolved:
`Brasília, DF` and `Salvador, BA` are distinct, both are returned by
`getAllCities()` (whatever the comparison), no route joins them, the coordinate
table has no key `brasília, df`, and `estimateRoadDistance` returns
`{distance: null, method: 'unknown'}` for them on every platform. -/
theorem getAllCities_pair_unresolved (localeCompare : String → String → JSNum K)
    (M : MathLib K) :
    "Brasília, DF" ∈ getAllCities localeCompare ∧
      "Salvador, BA" ∈ getAllCities localeCompare ∧
      ("Brasília, DF" : String) ≠ "Salvador, BA" ∧
      findDistance "Brasília, DF" "Salvador, BA" = none ∧
      (cityCoords : List (String × Coord K)).lookup (canon "Brasília, DF") = none ∧
      estimateRoadDistance M "Brasília, DF" "Salvador, BA" = ⟨none, Method.unknown⟩ := by
  have hf : findDistance "Brasília, DF" "Salvador, BA" = none := by decide
  have hb : "Brasília, DF" ∈ insertedCities := by decide
  have hs : "Salvador, BA" ∈ insertedCities := by decide
  refine ⟨?_, ?_, by decide, hf, ?_, ?_⟩
  · rw [getAllCities_eq, mem_sortWith]; exact hb
  · rw [getAllCities_eq, mem_sortWith]; exact hs
  · rw [canon_brasilia]; simp [cityCoords, List.lookup]
  · simp only [estimateRoadDistance, hf, getCoordsFromMap_brasilia]

end Symmetry

end CalculadoraCO2
